import Mathlib

/-!
# OpenRCT2: tile-element views and viewport interaction

A shallow embedding of `src/openrct2/world/TileElement.h` and
`src/openrct2-ui/interface/ViewportInteraction.cpp`, followed by the
properties proved about it.

Conventions of the embedding.

* Pointers that may be null are `Option`s; dereferencing a null pointer makes the
  enclosing function return `none` (the C++ has no defined behaviour there).
* Side effects are returned as data: the tooltip handed to `SetMapTooltip`,
  the list of executed game actions, the list of calls made to a collaborator.
* Collaborators whose code is outside the two source files (the spatial
  query, the camera projection, the height map, the window list) are
  fields of a state record, so every theorem holds for all of them.
* Coordinates are `Int`: the C++ uses `int32_t` and signed overflow is
  undefined, so the model agrees with the code wherever the code is defined.
  Narrowing conversions the code performs (`int16_t`, `uint16_t`) are explicit.
-/

namespace OpenRCT2

/-! ## TileElement.h -/

/-- The enumeration `TileElementType` (TileElement.h:114-125). -/
inductive TileElementType where
  | Surface
  | Path
  | Track
  | SmallScenery
  | Entrance
  | Wall
  | LargeScenery
  | Banner
  | Corrupt
  deriving DecidableEq, Repr

/-- The `uint8_t` value of each enumerator: `k << 2` for `k = 0 .. 8`. -/
def TileElementType.toUInt8 : TileElementType → Nat
  | .Surface => 0 <<< 2
  | .Path => 1 <<< 2
  | .Track => 2 <<< 2
  | .SmallScenery => 3 <<< 2
  | .Entrance => 4 <<< 2
  | .Wall => 5 <<< 2
  | .LargeScenery => 6 <<< 2
  | .Banner => 7 <<< 2
  | .Corrupt => 8 <<< 2

/-- The record `rct_tile_element` (TileElement.h:137-160): the four bytes of
`TileElementBase` and the four bytes of the `properties` union. -/
structure rct_tile_element where
  type : Nat
  flags : Nat
  base_height : Nat
  clearance_height : Nat
  properties : Nat × Nat × Nat × Nat
  deriving DecidableEq, Repr

/-- The macro `TILE_ELEMENT_TYPE_MASK` (TileElement.h:377). -/
def TILE_ELEMENT_TYPE_MASK : Nat := 0b00111100

/-- The macro `TILE_ELEMENT_DIRECTION_MASK` (TileElement.h:378). -/
def TILE_ELEMENT_DIRECTION_MASK : Nat := 0b00000011

/-- The enumerator `MAP_ELEM_TRACK_SEQUENCE_GREEN_LIGHT` (TileElement.h:373). -/
def MAP_ELEM_TRACK_SEQUENCE_GREEN_LIGHT : Nat := 1 <<< 7

/-- The macro `MAP_ELEM_TRACK_SEQUENCE_STATION_INDEX_MASK` (TileElement.h:382). -/
def MAP_ELEM_TRACK_SEQUENCE_STATION_INDEX_MASK : Nat := 0b01110000

/-- The macro `MAP_ELEM_TRACK_SEQUENCE_SEQUENCE_MASK` (TileElement.h:383). -/
def MAP_ELEM_TRACK_SEQUENCE_SEQUENCE_MASK : Nat := 0b00001111

/-- The macro `MAP_ELEM_TRACK_SEQUENCE_TAKING_PHOTO_MASK` (TileElement.h:384). -/
def MAP_ELEM_TRACK_SEQUENCE_TAKING_PHOTO_MASK : Nat := 0b11110000

/-- The template `rct_tile_element::as<TType, TClass>` (TileElement.h:162-165).
`GetType` is declared in the header (line 144) and defined elsewhere, so it is an
argument. The cast `(TType*)this` keeps the address: the view is the element. -/
def rct_tile_element.as (GetType : rct_tile_element → Nat) (TClass : TileElementType)
    (this : rct_tile_element) : Option rct_tile_element :=
  if GetType this = TClass.toUInt8 then some this else none

/-- The view `AsSurface` (TileElement.h:168-171). -/
def rct_tile_element.AsSurface (GetType : rct_tile_element → Nat) (this : rct_tile_element) :
    Option rct_tile_element :=
  this.as GetType .Surface

/-- The view `AsPath` (TileElement.h:172-175). -/
def rct_tile_element.AsPath (GetType : rct_tile_element → Nat) (this : rct_tile_element) :
    Option rct_tile_element :=
  this.as GetType .Path

/-- The view `AsTrack` (TileElement.h:176-179). -/
def rct_tile_element.AsTrack (GetType : rct_tile_element → Nat) (this : rct_tile_element) :
    Option rct_tile_element :=
  this.as GetType .Track

/-- The view `AsSmallScenery` (TileElement.h:180-183). -/
def rct_tile_element.AsSmallScenery (GetType : rct_tile_element → Nat)
    (this : rct_tile_element) : Option rct_tile_element :=
  this.as GetType .SmallScenery

/-- The view `AsLargeScenery` (TileElement.h:184-187). -/
def rct_tile_element.AsLargeScenery (GetType : rct_tile_element → Nat)
    (this : rct_tile_element) : Option rct_tile_element :=
  this.as GetType .LargeScenery

/-- The view `AsWall` (TileElement.h:188-191). -/
def rct_tile_element.AsWall (GetType : rct_tile_element → Nat) (this : rct_tile_element) :
    Option rct_tile_element :=
  this.as GetType .Wall

/-- The view `AsEntrance` (TileElement.h:192-195). -/
def rct_tile_element.AsEntrance (GetType : rct_tile_element → Nat) (this : rct_tile_element) :
    Option rct_tile_element :=
  this.as GetType .Entrance

/-- The view `AsBanner` (TileElement.h:196-199). -/
def rct_tile_element.AsBanner (GetType : rct_tile_element → Nat) (this : rct_tile_element) :
    Option rct_tile_element :=
  this.as GetType .Banner

/-- The view `AsCorrupt` (TileElement.h:200-203). -/
def rct_tile_element.AsCorrupt (GetType : rct_tile_element → Nat) (this : rct_tile_element) :
    Option rct_tile_element :=
  this.as GetType .Corrupt

/-- The nine named views, indexed by the kind each one asks for. -/
def rct_tile_element.view (GetType : rct_tile_element → Nat) (K : TileElementType)
    (this : rct_tile_element) : Option rct_tile_element :=
  match K with
  | .Surface => this.AsSurface GetType
  | .Path => this.AsPath GetType
  | .Track => this.AsTrack GetType
  | .SmallScenery => this.AsSmallScenery GetType
  | .Entrance => this.AsEntrance GetType
  | .Wall => this.AsWall GetType
  | .LargeScenery => this.AsLargeScenery GetType
  | .Banner => this.AsBanner GetType
  | .Corrupt => this.AsCorrupt GetType

/-! ## Types declared outside the two source files

`ViewportInteraction.cpp` is written against later declarations than the
`TileElement.h` above (`TileElement`, `CoordsXY`, `InteractionInfo`,
`SpriteBase`, `Ride`, ...). Each is represented by what the code reads from it. -/

/-- Modelled from the spec: the class `CoordsXY` is declared outside src/
(Location.hpp); a world coordinate with `int32_t` members `x` and `y`. -/
structure CoordsXY where
  x : Int
  y : Int
  deriving DecidableEq, Repr

/-- Modelled from the spec: the class `CoordsXYZ` is declared outside src/; a
world coordinate with a height. -/
structure CoordsXYZ where
  x : Int
  y : Int
  z : Int
  deriving DecidableEq, Repr

/-- Modelled from the spec: the class `ScreenCoordsXY` is declared outside
src/; a pixel position on the screen or inside a viewport. -/
structure ScreenCoordsXY where
  x : Int
  y : Int
  deriving DecidableEq, Repr

/-- Modelled from the spec: the constant `LOCATION_NULL` is declared outside
src/; the `int16_t` reading of `0x8000`, the x of the "no location" value. -/
def LOCATION_NULL : Int := -32768

/-- Modelled from the spec: `CoordsXY::setNull` is declared outside src/; it
makes the coordinate the "no location" value by writing `LOCATION_NULL` to x.
No property below depends on the y of a null coordinate. -/
def CoordsXY.setNull (c : CoordsXY) : CoordsXY :=
  { c with x := LOCATION_NULL }

/-- Modelled from the spec: `CoordsXY::isNull` is declared outside src/; the
test for the "no location" value. -/
def CoordsXY.isNull (c : CoordsXY) : Bool :=
  c.x == LOCATION_NULL

/-- Modelled from the spec: the null test of a station's start location,
declared outside src/. -/
def CoordsXYZ.isNull (c : CoordsXYZ) : Bool :=
  c.x == LOCATION_NULL

/-- Modelled from the spec: `CoordsXY::operator+=` is declared outside src/;
member-wise addition. -/
def CoordsXY.add (a b : CoordsXY) : CoordsXY :=
  ⟨a.x + b.x, a.y + b.y⟩

/-- Modelled from the spec: `CoordsXY::operator-=` is declared outside src/;
member-wise subtraction. -/
def CoordsXY.sub (a b : CoordsXY) : CoordsXY :=
  ⟨a.x - b.x, a.y - b.y⟩

/-- Modelled from the spec: `CoordsXY::ToTileStart` is declared outside src/;
the origin of the 32-unit tile that contains the coordinate (x and y rounded
down to a multiple of 32). -/
def CoordsXY.ToTileStart (c : CoordsXY) : CoordsXY :=
  ⟨c.x - c.x % 32, c.y - c.y % 32⟩

/-- Modelled from the spec: the table `CoordsDirectionDelta` is declared
outside src/; one tile (32 units) per step, indexed by direction in the order
of `TILE_ELEMENT_DIRECTION_*` (TileElement.h:339-345): west, north, east, south.
Only the four cardinal entries are read here. -/
def CoordsDirectionDelta (direction : Nat) : CoordsXY :=
  match direction with
  | 0 => ⟨-32, 0⟩
  | 1 => ⟨0, 32⟩
  | 2 => ⟨32, 0⟩
  | 3 => ⟨0, -32⟩
  | _ => ⟨0, 0⟩

/-- The `int16_t` a wider integer becomes when stored in one. -/
def toInt16 (v : Int) : Int :=
  (v + 32768) % 65536 - 32768

/-- The `uint16_t` a wider integer becomes when stored in one. -/
def toUInt16 (v : Int) : Nat :=
  (v % 65536).toNat

/-- The function `std::clamp(v, lo, hi)`. -/
def clamp (v lo hi : Int) : Int :=
  if v < lo then lo else if hi < v then hi else v

/-- The function `abs` of the C library. -/
def abs (v : Int) : Int :=
  if v < 0 then -v else v

/-- The constant `std::numeric_limits<int32_t>::max()`. -/
def INT32_MAX : Int := 2147483647

/-- Modelled from the spec: the enumeration `VIEWPORT_INTERACTION_ITEM_*` is
declared outside src/ (Viewport.h); these are the enumerators the source file
names. The spec calls the kind of a park entrance `ParkEntrance`/`Park`; the
code has the one enumerator `VIEWPORT_INTERACTION_ITEM_PARK`. -/
inductive ViewportInteractionItem where
  | NONE
  | TERRAIN
  | SPRITE
  | RIDE
  | WATER
  | SCENERY
  | FOOTPATH
  | FOOTPATH_ITEM
  | PARK
  | WALL
  | LARGE_SCENERY
  | LABEL
  | BANNER
  deriving DecidableEq, Repr

/-- Modelled from the spec: the masks `VIEWPORT_INTERACTION_MASK_*` are
declared outside src/; an eligibility mask is kept as the expression the caller
wrote, for the spatial query to interpret. -/
inductive InteractionMask where
  | MASK (item : ViewportInteractionItem)
  | and (a b : InteractionMask)
  | not (a : InteractionMask)
  deriving DecidableEq, Repr

/-- Modelled from the spec: the string ids `STR_*` are declared outside src/;
the ones the source file names, and `object n` for an id read from an object
entry or a table. -/
inductive rct_string_id where
  | STR_STRING
  | STR_MAP_TOOLTIP_STRINGID_CLICK_TO_MODIFY
  | STR_MAP_TOOLTIP_STRINGID_CLICK_TO_REMOVE
  | STR_MAP_TOOLTIP_BANNER_STRINGID_STRINGID
  | STR_RIDE_STATION_X_ENTRANCE
  | STR_RIDE_ENTRANCE
  | STR_RIDE_STATION_X_EXIT
  | STR_RIDE_EXIT
  | STR_RIDE_STATION_X
  | STR_RIDE_STATION
  | STR_QUEUE_LINE_MAP_TIP
  | STR_FOOTPATH_MAP_TIP
  | STR_BROKEN
  | STR_OBJECT_SELECTION_PARK_ENTRANCE
  | object (n : Nat)
  deriving DecidableEq, Repr

/-- One argument pushed on a `Formatter`: `Add<rct_string_id>`,
`Add<uint16_t>`, `Add<const char*>`, or an argument appended by a collaborator
(`Ride::FormatNameTo`, `Banner::FormatTextTo`). -/
inductive FormatArg where
  | string_id (s : rct_string_id)
  | uint16 (n : Nat)
  | c_str (s : String)
  | external (n : Nat)
  deriving DecidableEq, Repr

/-- Modelled from the spec: the class `Formatter` is declared outside src/;
the arguments added so far, in order. -/
abbrev Formatter := List FormatArg

/-- Modelled from the spec: `rct_scenery_entry` is declared outside src/; the
two members the code reads, the name and the scrolling mode of a wall or
large-scenery entry. -/
structure rct_scenery_entry where
  name : rct_string_id
  scrolling_mode : Nat
  deriving DecidableEq, Repr

/-- Modelled from the spec: the constant `SCROLLING_MODE_NONE` is declared
outside src/; the code only compares with it. -/
def SCROLLING_MODE_NONE : Nat := 255

/-- Modelled from the spec: the class `Banner` is declared outside src/; its
type, and the arguments `FormatTextTo(ft)` and `FormatTextTo(ft, true)` append. -/
structure Banner where
  type : Nat
  text : List FormatArg
  textWithColour : List FormatArg
  deriving DecidableEq, Repr

/-- Modelled from the spec: what the view `AsSurface()` offers; declared outside src/. -/
structure SurfaceElement where
  GetWaterHeight : Nat
  deriving DecidableEq, Repr

/-- Modelled from the spec: what the view `AsPath()` offers; declared outside src/. -/
structure PathElement where
  IsQueue : Bool
  IsBroken : Bool
  GetAdditionEntry : Option rct_scenery_entry
  deriving DecidableEq, Repr

/-- Modelled from the spec: what the view `AsTrack()` offers; declared outside
src/. The station index is a `uint8_t`. -/
structure TrackElement where
  IsStation : Bool
  stationIndex : Nat
  deriving DecidableEq, Repr

/-- Modelled from the spec: what the view `AsSmallScenery()` offers; declared outside src/. -/
structure SmallSceneryElement where
  GetEntry : Option rct_scenery_entry
  GetSceneryQuadrant : Nat
  GetEntryIndex : Nat
  deriving DecidableEq, Repr

/-- Modelled from the spec: what the view `AsEntrance()` offers; declared
outside src/. The station index and the sequence index are `uint8_t`. -/
structure EntranceElement where
  GetEntranceType : Nat
  stationIndex : Nat
  sequenceIndex : Nat
  deriving DecidableEq, Repr

/-- Modelled from the spec: what the view `AsWall()` offers; declared outside src/. -/
structure WallElement where
  GetEntry : Option rct_scenery_entry
  GetBanner : Option Banner
  GetBannerIndex : Nat
  deriving DecidableEq, Repr

/-- Modelled from the spec: what the view `AsLargeScenery()` offers; declared outside src/. -/
structure LargeSceneryElement where
  GetEntry : Option rct_scenery_entry
  GetBanner : Option Banner
  GetBannerIndex : Nat
  GetSequenceIndex : Nat
  deriving DecidableEq, Repr

/-- Modelled from the spec: what the view `AsBanner()` offers; declared outside src/. -/
structure BannerElement where
  GetBanner : Option Banner
  GetIndex : Nat
  deriving DecidableEq, Repr

/-- Modelled from the spec: the kind-specific payload of a tile element, a closed
tagged union over the nine kinds (spec section 3). -/
inductive TileElementPayload where
  | Surface (v : SurfaceElement)
  | Path (v : PathElement)
  | Track (v : TrackElement)
  | SmallScenery (v : SmallSceneryElement)
  | Entrance (v : EntranceElement)
  | Wall (v : WallElement)
  | LargeScenery (v : LargeSceneryElement)
  | Banner (v : BannerElement)
  | Corrupt
  deriving DecidableEq, Repr

/-- Modelled from the spec: the class `TileElement` that
`ViewportInteraction.cpp` uses is declared outside src/; the shared members the
code reads (direction bits, base z, last-for-tile flag, ride index) and the
payload of its kind. -/
structure TileElement where
  direction : Nat
  GetBaseZ : Int
  IsLastForTile : Bool
  GetRideIndex : Nat
  payload : TileElementPayload
  deriving DecidableEq, Repr

/-- Modelled from the spec: `TileElementBase::GetType`, declared outside src/;
the kind tag of the element. -/
def TileElement.GetType (e : TileElement) : TileElementType :=
  match e.payload with
  | .Surface _ => .Surface
  | .Path _ => .Path
  | .Track _ => .Track
  | .SmallScenery _ => .SmallScenery
  | .Entrance _ => .Entrance
  | .Wall _ => .Wall
  | .LargeScenery _ => .LargeScenery
  | .Banner _ => .Banner
  | .Corrupt => .Corrupt

/-- Modelled from the spec: `TileElementBase::GetDirection`, declared outside
src/; the bits of `TILE_ELEMENT_DIRECTION_MASK`, a rotation 0..3. -/
def TileElement.GetDirection (e : TileElement) : Nat :=
  e.direction &&& TILE_ELEMENT_DIRECTION_MASK

/-- Modelled from the spec: `TileElementBase::GetDirectionWithOffset`, declared
outside src/ (TileElement.h:148); the direction advanced by `offset` quarter
turns, under `TILE_ELEMENT_DIRECTION_MASK`. -/
def TileElement.GetDirectionWithOffset (e : TileElement) (offset : Nat) : Nat :=
  ((e.direction &&& TILE_ELEMENT_DIRECTION_MASK) + offset) &&& TILE_ELEMENT_DIRECTION_MASK

/-- Modelled from the spec: the safe cast `AsSurface()`; absent under another kind. -/
def TileElement.AsSurface (e : TileElement) : Option SurfaceElement :=
  match e.payload with
  | .Surface v => some v
  | _ => none

/-- Modelled from the spec: the safe cast `AsPath()`; absent under another kind. -/
def TileElement.AsPath (e : TileElement) : Option PathElement :=
  match e.payload with
  | .Path v => some v
  | _ => none

/-- Modelled from the spec: the safe cast `AsTrack()`; absent under another kind. -/
def TileElement.AsTrack (e : TileElement) : Option TrackElement :=
  match e.payload with
  | .Track v => some v
  | _ => none

/-- Modelled from the spec: the safe cast `AsSmallScenery()`; absent under another kind. -/
def TileElement.AsSmallScenery (e : TileElement) : Option SmallSceneryElement :=
  match e.payload with
  | .SmallScenery v => some v
  | _ => none

/-- Modelled from the spec: the safe cast `AsEntrance()`; absent under another kind. -/
def TileElement.AsEntrance (e : TileElement) : Option EntranceElement :=
  match e.payload with
  | .Entrance v => some v
  | _ => none

/-- Modelled from the spec: the safe cast `AsWall()`; absent under another kind. -/
def TileElement.AsWall (e : TileElement) : Option WallElement :=
  match e.payload with
  | .Wall v => some v
  | _ => none

/-- Modelled from the spec: the safe cast `AsLargeScenery()`; absent under another kind. -/
def TileElement.AsLargeScenery (e : TileElement) : Option LargeSceneryElement :=
  match e.payload with
  | .LargeScenery v => some v
  | _ => none

/-- Modelled from the spec: the safe cast `AsBanner()`; absent under another kind. -/
def TileElement.AsBanner (e : TileElement) : Option BannerElement :=
  match e.payload with
  | .Banner v => some v
  | _ => none

/-- Modelled from the spec: `TrackElement::GetStationIndex`, a `uint8_t`. -/
def TrackElement.GetStationIndex (t : TrackElement) : Nat :=
  t.stationIndex % 256

/-- Modelled from the spec: `EntranceElement::GetStationIndex`, a `uint8_t`. -/
def EntranceElement.GetStationIndex (t : EntranceElement) : Nat :=
  t.stationIndex % 256

/-- Modelled from the spec: `EntranceElement::GetSequenceIndex`, a `uint8_t`. -/
def EntranceElement.GetSequenceIndex (t : EntranceElement) : Nat :=
  t.sequenceIndex % 256

/-- The enumerator `ENTRANCE_TYPE_RIDE_ENTRANCE` (TileElement.h:357-362). -/
def ENTRANCE_TYPE_RIDE_ENTRANCE : Nat := 0

/-- The enumerator `ENTRANCE_TYPE_RIDE_EXIT` (TileElement.h:357-362). -/
def ENTRANCE_TYPE_RIDE_EXIT : Nat := 1

/-- The enumerator `ENTRANCE_TYPE_PARK_ENTRANCE` (TileElement.h:357-362). -/
def ENTRANCE_TYPE_PARK_ENTRANCE : Nat := 2

/-- Modelled from the spec: the enumeration `SpriteIdentifier` is declared
outside src/; the enumerators the source file names. -/
inductive SpriteIdentifier where
  | Vehicle
  | Peep
  | Misc
  | Litter
  | Null
  deriving DecidableEq, Repr

/-- Modelled from the spec: the entity classes the template arguments of
`Is<T>` and `As<T>` name in the source file. -/
inductive EntityClass where
  | Vehicle
  | Peep
  | Balloon
  | Duck
  deriving DecidableEq, Repr

/-- Modelled from the spec: the class `SpriteBase` and the classes cast from it
(`Vehicle`, `Peep`, `Duck`) are declared outside src/; the members the code
reads. `is` lists the classes `T` for which `Is<T>()` holds; `ride` and
`ride_subtype` are the members read through a `Vehicle*`. The sprite box
members are `int16_t`. -/
structure SpriteBase where
  sprite_identifier : SpriteIdentifier
  type : Nat
  sprite_index : Nat
  x : Int
  y : Int
  sprite_left : Int
  sprite_right : Int
  sprite_top : Int
  sprite_bottom : Int
  is : List EntityClass
  ride : Nat
  ride_subtype : Nat
  deriving DecidableEq, Repr

/-- Modelled from the spec: `SpriteBase::Is<T>`, declared outside src/. -/
def SpriteBase.Is (e : SpriteBase) (T : EntityClass) : Bool :=
  e.is.contains T

/-- Modelled from the spec: `SpriteBase::As<T>`, declared outside src/; the safe
cast, the entity itself when `Is<T>()` holds and null otherwise. -/
def SpriteBase.As (e : SpriteBase) (T : EntityClass) : Option SpriteBase :=
  if e.Is T then some e else none

/-- Modelled from the spec: one entry of `Ride::stations`, declared outside
src/; the start location of the station. -/
structure RideStation where
  Start : CoordsXYZ
  deriving DecidableEq, Repr

/-- Modelled from the spec: the class `Ride` is declared outside src/; the
members the code reads, and the arguments `FormatNameTo` appends. -/
structure Ride where
  type : Nat
  status : Nat
  num_stations : Nat
  stations : List RideStation
  nameArgs : List FormatArg
  deriving DecidableEq, Repr

/-- Modelled from the spec: the enumerator `RIDE_STATUS_CLOSED` is declared
outside src/; the code only compares with it. -/
def RIDE_STATUS_CLOSED : Nat := 0

/-- Modelled from the spec: `Ride::FormatNameTo`, declared outside src/. -/
def Ride.FormatNameTo (ride : Ride) (ft : Formatter) : Formatter :=
  ft ++ ride.nameArgs

/-- Modelled from the spec: `Banner::FormatTextTo`, declared outside src/. -/
def Banner.FormatTextTo (banner : Banner) (ft : Formatter) (addColour : Bool) : Formatter :=
  ft ++ (if addColour then banner.textWithColour else banner.text)

/-- Modelled from the spec: the struct `InteractionInfo` is declared outside
src/ (spec section 3): a kind, a world coordinate and the tile element or the
entity found. -/
structure InteractionInfo where
  Loc : CoordsXY
  Element : Option TileElement
  Entity : Option SpriteBase
  SpriteType : ViewportInteractionItem
  deriving DecidableEq, Repr

/-- The value of `InteractionInfo info{}`: kind `NONE`, no element, no entity. -/
def InteractionInfo.empty : InteractionInfo :=
  ⟨⟨0, 0⟩, none, none, .NONE⟩

/-- Modelled from the spec: the bits of `gScreenFlags` the source file tests;
the constants `SCREEN_FLAGS_*` are declared outside src/. -/
inductive ScreenFlag where
  | SCREEN_FLAGS_TITLE_DEMO
  | SCREEN_FLAGS_SCENARIO_EDITOR
  | SCREEN_FLAGS_TRACK_DESIGNER
  | SCREEN_FLAGS_TRACK_MANAGER
  deriving DecidableEq, Repr

/-- Modelled from the spec: the input flags the source file tests; the
constants `INPUT_FLAG_*` are declared outside src/. -/
inductive InputFlag where
  | INPUT_FLAG_6
  | INPUT_FLAG_TOOL_ACTIVE
  deriving DecidableEq, Repr

/-- Modelled from the spec: the window classes the source file looks up; the
constants `WC_*` are declared outside src/. -/
inductive WindowClass where
  | WC_RIDE_CONSTRUCTION
  | WC_FOOTPATH
  | WC_PEEP
  | WC_PARK_INFORMATION
  deriving DecidableEq, Repr

/-- Modelled from the spec: the enumerator `EDITOR_STEP_ROLLERCOASTER_DESIGNER`
is declared outside src/; the code only compares with it. -/
def EDITOR_STEP_ROLLERCOASTER_DESIGNER : Nat := 6

/-- Modelled from the spec: the struct `rct_viewport` is declared outside src/;
its zoom level and its conversion `ScreenToViewportCoord`. -/
structure rct_viewport where
  zoom : Int
  ScreenToViewportCoord : ScreenCoordsXY → ScreenCoordsXY

/-- Modelled from the spec: the struct `rct_window` is declared outside src/;
its viewport, which may be null. -/
structure rct_window where
  viewport : Option rct_viewport

/-- The state `ViewportInteraction.cpp` reads: its globals, and the
collaborators it calls (all declared outside src/), each as the function of
its arguments that it is in the current state. `map_get_first_element_at`
gives the tile elements stored from the returned pointer on (the stack of the
cell, and whatever memory follows it), or `none` for a null pointer. -/
structure GameState where
  gScreenFlags : ScreenFlag → Bool
  editor_step : Nat
  gCheatsSandboxMode : Bool
  input_test_flag : InputFlag → Bool
  window_find_by_class : WindowClass → Option rct_window
  window_find_from_point : ScreenCoordsXY → Option rct_window
  get_map_coordinates_from_pos : ScreenCoordsXY → InteractionMask → InteractionInfo
  get_map_coordinates_from_pos_window :
    rct_window → ScreenCoordsXY → InteractionMask → InteractionInfo
  get_ride : Nat → Option Ride
  get_banner_entry : Nat → Option rct_scenery_entry
  map_is_location_owned : CoordsXYZ → Bool
  RideComponentName : Nat → rct_string_id
  peeps : List SpriteBase
  tile_element_height : CoordsXY → Int
  viewport_coord_to_map_coord : ScreenCoordsXY → Int → CoordsXY
  game_is_not_paused : Bool
  parkName : String
  map_get_first_element_at : CoordsXY → Option (List TileElement)

/-! ## ViewportInteraction.cpp -/

/-- What a call of `ViewportInteractionGetItemRight` (or `...Left`) produces:
the returned `InteractionInfo`, and the formatter handed to `SetMapTooltip`
when the call sets a tooltip. -/
structure ItemResult where
  info : InteractionInfo
  tooltip : Option Formatter
  deriving DecidableEq, Repr

/-- The statements `info.SpriteType = VIEWPORT_INTERACTION_ITEM_NONE; return info;`. -/
def collapse (info : InteractionInfo) : ItemResult :=
  ⟨{ info with SpriteType := .NONE }, none⟩

/-- The loop `for (i = stationIndex; i >= 0; i--) if (ride->stations[i].Start.isNull())
stationIndex--;` (ViewportInteraction.cpp:373-375), with `n = i + 1` iterations
left; reading past the end of `stations` is undefined. -/
def stationNumberLoop (stations : List RideStation) : Nat → Int → Option Int
  | 0, stationIndex => some stationIndex
  | i + 1, stationIndex =>
    match stations[i]? with
    | none => none
    | some station =>
      stationNumberLoop stations i
        (if station.Start.isNull then stationIndex - 1 else stationIndex)

/-- The mask `~(VIEWPORT_INTERACTION_MASK_TERRAIN & VIEWPORT_INTERACTION_MASK_WATER)`
(ViewportInteraction.cpp:256). -/
def rightMask : InteractionMask :=
  .not (.and (.MASK .TERRAIN) (.MASK .WATER))

/-- The function `ViewportInteractionGetItemRight`, lines 434-503: the gate on
the input flags and the open windows, and the second switch. -/
def ViewportInteractionGetItemRight.removal (g : GameState) (info : InteractionInfo) :
    Option ItemResult :=
  let tileElement := info.Element
  if (!(g.input_test_flag .INPUT_FLAG_6) || !(g.input_test_flag .INPUT_FLAG_TOOL_ACTIVE))
      && ((g.window_find_by_class .WC_RIDE_CONSTRUCTION).isNone
        && (g.window_find_by_class .WC_FOOTPATH).isNone) then
    some (collapse info)
  else
    match info.SpriteType with
    | .SCENERY => do
      let sceneryEntry ← (← (← tileElement).AsSmallScenery).GetEntry
      some ⟨info, some [.string_id .STR_MAP_TOOLTIP_STRINGID_CLICK_TO_REMOVE,
        .string_id sceneryEntry.name]⟩
    | .FOOTPATH => do
      let path ← (← tileElement).AsPath
      some ⟨info, some [.string_id .STR_MAP_TOOLTIP_STRINGID_CLICK_TO_REMOVE,
        .string_id (if path.IsQueue then .STR_QUEUE_LINE_MAP_TIP else .STR_FOOTPATH_MAP_TIP)]⟩
    | .FOOTPATH_ITEM => do
      let path ← (← tileElement).AsPath
      let sceneryEntry ← path.GetAdditionEntry
      some ⟨info, some ([.string_id .STR_MAP_TOOLTIP_STRINGID_CLICK_TO_REMOVE]
        ++ (if path.IsBroken then [.string_id .STR_BROKEN] else [])
        ++ [.string_id sceneryEntry.name])⟩
    | .PARK =>
      if !(g.gScreenFlags .SCREEN_FLAGS_SCENARIO_EDITOR) && !g.gCheatsSandboxMode then
        some (collapse info)
      else do
        let e ← tileElement
        if e.GetType ≠ .Entrance then
          some (collapse info)
        else
          some ⟨info, some [.string_id .STR_MAP_TOOLTIP_STRINGID_CLICK_TO_REMOVE,
            .string_id .STR_OBJECT_SELECTION_PARK_ENTRANCE]⟩
    | .WALL => do
      let sceneryEntry ← (← (← tileElement).AsWall).GetEntry
      some ⟨info, some [.string_id .STR_MAP_TOOLTIP_STRINGID_CLICK_TO_REMOVE,
        .string_id sceneryEntry.name]⟩
    | .LARGE_SCENERY => do
      let sceneryEntry ← (← (← tileElement).AsLargeScenery).GetEntry
      some ⟨info, some [.string_id .STR_MAP_TOOLTIP_STRINGID_CLICK_TO_REMOVE,
        .string_id sceneryEntry.name]⟩
    | _ => some (collapse info)

/-- The function `ViewportInteractionGetItemRight`, lines 286-380: the case
`VIEWPORT_INTERACTION_ITEM_RIDE` of the first switch. -/
def ViewportInteractionGetItemRight.ride (g : GameState) (info : InteractionInfo) :
    Option ItemResult :=
  if g.gScreenFlags .SCREEN_FLAGS_SCENARIO_EDITOR then
    some (collapse info)
  else do
    let tileElement ← info.Element
    if tileElement.GetType = .Path then
      some (collapse info)
    else
      match g.get_ride tileElement.GetRideIndex with
      | none => some (collapse info)
      | some ride =>
        if ride.status ≠ RIDE_STATUS_CLOSED then
          some ⟨info, none⟩
        else do
          let ft : Formatter := [.string_id .STR_MAP_TOOLTIP_STRINGID_CLICK_TO_MODIFY]
          let isEntrance : Bool := tileElement.GetType = .Entrance
          let labelled : Option Formatter ←
            if isEntrance then do
              let entrance ← tileElement.AsEntrance
              let stringId : rct_string_id :=
                if entrance.GetEntranceType = ENTRANCE_TYPE_RIDE_ENTRANCE then
                  (if ride.num_stations > 1 then .STR_RIDE_STATION_X_ENTRANCE
                   else .STR_RIDE_ENTRANCE)
                else
                  (if ride.num_stations > 1 then .STR_RIDE_STATION_X_EXIT
                   else .STR_RIDE_EXIT)
              some (some (ft ++ [.string_id stringId]))
            else do
              let track ← tileElement.AsTrack
              if track.IsStation then
                let stringId : rct_string_id :=
                  if ride.num_stations > 1 then .STR_RIDE_STATION_X else .STR_RIDE_STATION
                some (some (ft ++ [.string_id stringId]))
              else
                some none
          match labelled with
          | none =>
            -- FIXME of the source: the height is doubled
            if !g.gCheatsSandboxMode
                && !g.map_is_location_owned
                  ⟨info.Loc.x, info.Loc.y, tileElement.GetBaseZ * 2⟩ then
              some (collapse info)
            else
              some ⟨info, none⟩
          | some ft1 =>
            let ft2 := ride.FormatNameTo ft1
            let ft3 := ft2 ++ [.string_id (g.RideComponentName ride.type)]
            let stationIndex : Nat ←
              if isEntrance then do
                let entrance ← tileElement.AsEntrance
                some entrance.GetStationIndex
              else do
                let track ← tileElement.AsTrack
                some track.GetStationIndex
            let counted ← stationNumberLoop ride.stations (stationIndex + 1) stationIndex
            let ft4 := ft3 ++ [.uint16 (toUInt16 (counted + 1))]
            some ⟨info, some ft4⟩

/-- The function `ViewportInteractionGetItemRight` (ViewportInteraction.cpp:242-504). -/
def ViewportInteractionGetItemRight (g : GameState) (screenCoords : ScreenCoordsXY) :
    Option ItemResult :=
  if g.gScreenFlags .SCREEN_FLAGS_TITLE_DEMO || g.gScreenFlags .SCREEN_FLAGS_TRACK_MANAGER then
    some ⟨InteractionInfo.empty, none⟩
  else if g.gScreenFlags .SCREEN_FLAGS_TRACK_DESIGNER
      && g.editor_step != EDITOR_STEP_ROLLERCOASTER_DESIGNER then
    some ⟨InteractionInfo.empty, none⟩
  else
    let info := g.get_map_coordinates_from_pos screenCoords rightMask
    let tileElement := info.Element
    match info.SpriteType with
    | .SPRITE =>
      if g.gScreenFlags .SCREEN_FLAGS_SCENARIO_EDITOR then
        some (collapse info)
      else do
        let sprite ← info.Entity
        if sprite.sprite_identifier ≠ .Vehicle then
          some (collapse info)
        else
          match sprite.As .Vehicle with
          | none => some (collapse info)
          | some vehicle =>
            match g.get_ride vehicle.ride with
            | some ride =>
              if ride.status = RIDE_STATUS_CLOSED then
                some ⟨info, some (ride.FormatNameTo
                  [.string_id .STR_MAP_TOOLTIP_STRINGID_CLICK_TO_MODIFY])⟩
              else
                some ⟨info, none⟩
            | none => some ⟨info, none⟩
    | .RIDE => ViewportInteractionGetItemRight.ride g info
    | .WALL => do
      let wall ← (← tileElement).AsWall
      let sceneryEntry ← wall.GetEntry
      if sceneryEntry.scrolling_mode ≠ SCROLLING_MODE_NONE then
        match wall.GetBanner with
        | some banner =>
          some ⟨info, some (banner.FormatTextTo
            [.string_id .STR_MAP_TOOLTIP_BANNER_STRINGID_STRINGID] false
            ++ [.string_id .STR_MAP_TOOLTIP_STRINGID_CLICK_TO_MODIFY,
              .string_id sceneryEntry.name])⟩
        | none => ViewportInteractionGetItemRight.removal g info
      else
        ViewportInteractionGetItemRight.removal g info
    | .LARGE_SCENERY => do
      let scenery ← (← tileElement).AsLargeScenery
      let sceneryEntry ← scenery.GetEntry
      if sceneryEntry.scrolling_mode ≠ SCROLLING_MODE_NONE then
        match scenery.GetBanner with
        | some banner =>
          some ⟨info, some (banner.FormatTextTo
            [.string_id .STR_MAP_TOOLTIP_BANNER_STRINGID_STRINGID] false
            ++ [.string_id .STR_MAP_TOOLTIP_STRINGID_CLICK_TO_MODIFY,
              .string_id sceneryEntry.name])⟩
        | none => ViewportInteractionGetItemRight.removal g info
      else
        ViewportInteractionGetItemRight.removal g info
    | .BANNER => do
      let banner ← (← (← tileElement).AsBanner).GetBanner
      let sceneryEntry ← g.get_banner_entry banner.type
      some ⟨info, some (banner.FormatTextTo
        [.string_id .STR_MAP_TOOLTIP_BANNER_STRINGID_STRINGID] true
        ++ [.string_id .STR_MAP_TOOLTIP_STRINGID_CLICK_TO_MODIFY,
          .string_id sceneryEntry.name])⟩
    | _ => ViewportInteractionGetItemRight.removal g info

/-- Modelled from the spec: the class `CoordsXYZD` is declared outside src/; a
world coordinate with a height and a direction. -/
structure CoordsXYZD where
  x : Int
  y : Int
  z : Int
  direction : Nat
  deriving DecidableEq, Repr

/-- Modelled from the spec: the game actions the source file constructs are
declared outside src/; each with the arguments it is given. A function that
executes actions returns them in order. -/
inductive GameAction where
  | ParkEntranceRemoveAction (loc : CoordsXYZ)
  | WallRemoveAction (loc : CoordsXYZD)
  | LargeSceneryRemoveAction (loc : CoordsXYZD) (tileIndex : Nat)
  | BalloonPressAction (spriteIndex : Nat)
  | SmallSceneryRemoveAction (loc : CoordsXYZ) (quadrant : Nat) (sceneryType : Nat)
  | FootpathAdditionRemoveAction (loc : CoordsXYZ)
  deriving DecidableEq, Repr

/-- The function `ViewportInteractionRemoveParkEntrance`
(ViewportInteraction.cpp:633-647), applied to a non-null `tileElement`; the
result is the list of actions handed to `GameActions::Execute`. -/
def ViewportInteractionRemoveParkEntrance (tileElement : TileElement) (mapCoords : CoordsXY) :
    Option (List GameAction) := do
  let rotation := tileElement.GetDirectionWithOffset 1
  let entrance ← tileElement.AsEntrance
  let mapCoords :=
    match entrance.GetSequenceIndex with
    | 1 => mapCoords.add (CoordsDirectionDelta rotation)
    | 2 => mapCoords.sub (CoordsDirectionDelta rotation)
    | _ => mapCoords
  some [.ParkEntranceRemoveAction ⟨mapCoords.x, mapCoords.y, tileElement.GetBaseZ⟩]

/-- The expression `distance` of `ViewportInteractionGetClosestPeep`
(ViewportInteraction.cpp:712-713): Manhattan distance between the centre of
the peep's sprite box and the viewport coordinate; `/` truncates. -/
def peepDistance (viewportCoords : ScreenCoordsXY) (peep : SpriteBase) : Int :=
  abs (Int.tdiv (peep.sprite_left + peep.sprite_right) 2 - viewportCoords.x)
    + abs (Int.tdiv (peep.sprite_top + peep.sprite_bottom) 2 - viewportCoords.y)

/-- One iteration of the loop of `ViewportInteractionGetClosestPeep`
(ViewportInteraction.cpp:709-721) on the pair `(closestPeep, closestDistance)`. -/
def closestPeepStep (viewportCoords : ScreenCoordsXY) (maxDistance : Int)
    (acc : Option SpriteBase × Int) (peep : SpriteBase) : Option SpriteBase × Int :=
  if peep.sprite_left = LOCATION_NULL then acc
  else
    let distance := peepDistance viewportCoords peep
    if distance > maxDistance then acc
    else if distance < acc.2 then (some peep, distance)
    else acc

/-- The function `ViewportInteractionGetClosestPeep`
(ViewportInteraction.cpp:690-725); `none` is the null pointer it returns. -/
def ViewportInteractionGetClosestPeep (g : GameState) (screenCoords : ScreenCoordsXY)
    (maxDistance : Int) : Option SpriteBase :=
  match g.window_find_from_point screenCoords with
  | none => none
  | some w =>
    match w.viewport with
    | none => none
    | some viewport =>
      if viewport.zoom ≥ 2 then none
      else
        let viewportCoords := viewport.ScreenToViewportCoord screenCoords
        (g.peeps.foldl (closestPeepStep viewportCoords maxDistance) (none, INT32_MAX)).1

/-- The calls `ViewportInteractionGetTileStartAtCursor` makes to the height map
and to the camera projection, with their arguments. -/
inductive TileStartCall where
  | tile_element_height (mapPos : CoordsXY)
  | viewport_coord_to_map_coord (viewPos : ScreenCoordsXY) (z : Int)
  deriving DecidableEq, Repr

/-- The mask `VIEWPORT_INTERACTION_MASK_TERRAIN & VIEWPORT_INTERACTION_MASK_WATER`
(ViewportInteraction.cpp:742). -/
def tileStartMask : InteractionMask :=
  .and (.MASK .TERRAIN) (.MASK .WATER)

/-- The loop of `ViewportInteractionGetTileStartAtCursor`
(ViewportInteraction.cpp:760-770), with the number of iterations left, on
`mapPos` and the calls made so far. -/
def tileStartLoop (g : GameState) (SpriteType : ViewportInteractionItem) (waterHeight : Int)
    (initialVPPos : ScreenCoordsXY) (initialPos : CoordsXY) :
    Nat → CoordsXY × List TileStartCall → CoordsXY × List TileStartCall
  | 0, state => state
  | n + 1, (mapPos, calls) =>
    let height : Int × List TileStartCall :=
      if SpriteType ≠ .WATER then
        (toInt16 (g.tile_element_height mapPos), calls ++ [.tile_element_height mapPos])
      else
        (waterHeight, calls)
    let z := height.1
    let projected := g.viewport_coord_to_map_coord initialVPPos z
    let mapPos1 : CoordsXY :=
      ⟨clamp projected.x initialPos.x (initialPos.x + 31),
       clamp projected.y initialPos.y (initialPos.y + 31)⟩
    tileStartLoop g SpriteType waterHeight initialVPPos initialPos n
      (mapPos1, height.2 ++ [.viewport_coord_to_map_coord initialVPPos z])

/-- The function `ViewportInteractionGetTileStartAtCursor`
(ViewportInteraction.cpp:731-773): the returned coordinate and the calls made
to the height map and the projection. -/
def ViewportInteractionGetTileStartAtCursor (g : GameState) (screenCoords : ScreenCoordsXY) :
    Option (CoordsXY × List TileStartCall) :=
  match g.window_find_from_point screenCoords with
  | none => some ((CoordsXY.mk 0 0).setNull, [])
  | some window =>
    match window.viewport with
    | none => some ((CoordsXY.mk 0 0).setNull, [])
    | some viewport =>
      let info := g.get_map_coordinates_from_pos_window window screenCoords tileStartMask
      let initialPos := info.Loc
      if info.SpriteType = .NONE then
        some (initialPos.setNull, [])
      else do
        let waterHeight : Int ←
          if info.SpriteType = .WATER then do
            let surface ← (← info.Element).AsSurface
            some (toInt16 surface.GetWaterHeight)
          else
            some 0
        let initialVPPos := viewport.ScreenToViewportCoord screenCoords
        let mapPos := initialPos.add ⟨16, 16⟩
        let final := tileStartLoop g info.SpriteType waterHeight initialVPPos initialPos 5
          (mapPos, [])
        some (final.1.ToTileStart, final.2)

/-- The calls `ViewportInteractionGetItemLeft` makes to its collaborators, in
order: the spatial query, the tooltip setters and the search for a nearby peep. -/
inductive LeftCall where
  | get_map_coordinates_from_pos (screenCoords : ScreenCoordsXY) (mask : InteractionMask)
  | SetMapToolbar (vehicle : SpriteBase)
  | peep_set_map_tooltip (peep : SpriteBase)
  | ride_set_map_tooltip (tileElement : Option TileElement)
  | SetMapTooltip (ft : Formatter)
  | ViewportInteractionGetClosestPeep (screenCoords : ScreenCoordsXY) (maxDistance : Int)
  deriving DecidableEq, Repr

/-- Whether a call sets a tooltip. -/
def LeftCall.setsTooltip : LeftCall → Bool
  | .SetMapToolbar _ => true
  | .peep_set_map_tooltip _ => true
  | .ride_set_map_tooltip _ => true
  | .SetMapTooltip _ => true
  | _ => false

/-- What a call of `ViewportInteractionGetItemLeft` produces: the returned
`InteractionInfo` and the calls made. -/
structure LeftResult where
  info : InteractionInfo
  calls : List LeftCall
  deriving DecidableEq, Repr

/-- The mask `VIEWPORT_INTERACTION_MASK_SPRITE & VIEWPORT_INTERACTION_MASK_RIDE
& VIEWPORT_INTERACTION_MASK_PARK` (ViewportInteraction.cpp:67). -/
def leftMask : InteractionMask :=
  .and (.and (.MASK .SPRITE) (.MASK .RIDE)) (.MASK .PARK)

/-- Modelled from the spec: the constant `RIDE_ENTRY_INDEX_NULL` is declared
outside src/; the code only compares with it. -/
def RIDE_ENTRY_INDEX_NULL : Nat := 255

/-- The function `ViewportInteractionGetItemLeft`, lines 85-135: the switch on
the kind of the query result. -/
def ViewportInteractionGetItemLeft.perKind (g : GameState) (info : InteractionInfo) :
    Option LeftResult :=
  let tileElement := if info.SpriteType ≠ .SPRITE then info.Element else none
  match info.SpriteType with
  | .SPRITE => do
    let sprite ← info.Entity
    match sprite.sprite_identifier with
    | .Vehicle =>
      match sprite.As .Vehicle with
      | some vehicle =>
        if vehicle.ride_subtype ≠ RIDE_ENTRY_INDEX_NULL then
          some ⟨info, [.SetMapToolbar vehicle]⟩
        else
          some ⟨{ info with SpriteType := .NONE }, []⟩
      | none => some ⟨{ info with SpriteType := .NONE }, []⟩
    | .Peep =>
      match sprite.As .Peep with
      | some peep => some ⟨info, [.peep_set_map_tooltip peep]⟩
      | none => some ⟨{ info with SpriteType := .NONE }, []⟩
    | .Misc => some ⟨info, []⟩
    | .Litter => some ⟨info, []⟩
    | .Null => some ⟨info, []⟩
  | .RIDE => some ⟨info, [.ride_set_map_tooltip tileElement]⟩
  | .PARK => some ⟨info, [.SetMapTooltip [.string_id .STR_STRING, .c_str g.parkName]]⟩
  | _ => some ⟨{ info with SpriteType := .NONE }, []⟩

/-- The function `ViewportInteractionGetItemLeft`, lines 137-151: the search for
a nearby peep when nothing is under the cursor. `Element` and `Entity` share
storage (the info refers to either), so writing the entity replaces the element. -/
def ViewportInteractionGetItemLeft.fallback (g : GameState) (screenCoords : ScreenCoordsXY)
    (r : LeftResult) : LeftResult :=
  if r.info.SpriteType = .NONE then
    match ViewportInteractionGetClosestPeep g screenCoords 32 with
    | some peep =>
      ⟨{ Loc := ⟨peep.x, peep.y⟩, Element := none, Entity := some peep, SpriteType := .SPRITE },
        r.calls ++ [.ViewportInteractionGetClosestPeep screenCoords 32,
          .peep_set_map_tooltip peep]⟩
    | none => ⟨r.info, r.calls ++ [.ViewportInteractionGetClosestPeep screenCoords 32]⟩
  else r

/-- The function `ViewportInteractionGetItemLeft` (ViewportInteraction.cpp:55-152). -/
def ViewportInteractionGetItemLeft (g : GameState) (screenCoords : ScreenCoordsXY) :
    Option LeftResult :=
  if g.gScreenFlags .SCREEN_FLAGS_SCENARIO_EDITOR
      || g.gScreenFlags .SCREEN_FLAGS_TRACK_MANAGER then
    some ⟨InteractionInfo.empty, []⟩
  else if g.gScreenFlags .SCREEN_FLAGS_TRACK_DESIGNER
      && g.editor_step != EDITOR_STEP_ROLLERCOASTER_DESIGNER then
    some ⟨InteractionInfo.empty, []⟩
  else
    let info := g.get_map_coordinates_from_pos screenCoords leftMask
    let queried : List LeftCall := [.get_map_coordinates_from_pos screenCoords leftMask]
    if g.gScreenFlags .SCREEN_FLAGS_TITLE_DEMO then
      if info.SpriteType = .SPRITE then do
        let sprite ← info.Entity
        if sprite.Is .Balloon || sprite.Is .Duck then
          some ⟨info, queried⟩
        else
          some ⟨{ info with SpriteType := .NONE }, queried⟩
      else
        some ⟨{ info with SpriteType := .NONE }, queried⟩
    else do
      let r ← ViewportInteractionGetItemLeft.perKind g info
      some (ViewportInteractionGetItemLeft.fallback g screenCoords
        ⟨r.info, queried ++ r.calls⟩)

/-- The function `ViewportInteractionLeftOver` (ViewportInteraction.cpp:154-167):
the returned boolean, and the calls of the `ViewportInteractionGetItemLeft` it runs. -/
def ViewportInteractionLeftOver (g : GameState) (screenCoords : ScreenCoordsXY) :
    Option (Bool × List LeftCall) := do
  let r ← ViewportInteractionGetItemLeft g screenCoords
  match r.info.SpriteType with
  | .SPRITE => some (true, r.calls)
  | .RIDE => some (true, r.calls)
  | .PARK => some (true, r.calls)
  | _ => some (false, r.calls)

/-- Modelled from the spec: the detail windows `WD_*` the source file opens are
declared outside src/. -/
inductive WindowDetail where
  | WD_VEHICLE
  | WD_TRACK
  | WD_BANNER
  | WD_SIGN
  | WD_SIGN_SMALL
  deriving DecidableEq, Repr

/-- Modelled from the spec: the class `Intent` is declared outside src/; the
three intents the source file builds, each with its one extra. -/
inductive Intent where
  | WD_VEHICLE (INTENT_EXTRA_VEHICLE : SpriteBase)
  | WC_PEEP (INTENT_EXTRA_PEEP : SpriteBase)
  | WD_TRACK (INTENT_EXTRA_TILE_ELEMENT : Option TileElement)
  deriving DecidableEq, Repr

/-- Modelled from the spec: the constant `GAME_COMMAND_FLAG_APPLY` is declared
outside src/; it is only passed on. -/
def GAME_COMMAND_FLAG_APPLY : Nat := 1

/-- The calls by which the dispatcher functions of the source file act on the
game and the user interface, each with its arguments. -/
inductive Effect where
  | Execute (action : GameAction)
  | context_open_intent (intent : Intent)
  | context_open_window (wc : WindowClass)
  | context_open_detail_window (type : WindowDetail) (id : Nat)
  | duck_press (duck : SpriteBase)
  | footpath_provisional_update
  | footpath_remove (loc : CoordsXYZ) (flags : Nat)
  | ride_construct (ride : Ride)
  | ride_modify (loc : CoordsXY) (element : Option TileElement)
  deriving DecidableEq, Repr

/-- Modelled from the spec: the enumerator `SPRITE_MISC_BALLOON` is declared
outside src/; the code only compares with it. -/
def SPRITE_MISC_BALLOON : Nat := 7

/-- Modelled from the spec: the enumerator `SPRITE_MISC_DUCK` is declared
outside src/; the code only compares with it. -/
def SPRITE_MISC_DUCK : Nat := 8

/-- What a call of `ViewportInteractionLeftClick` produces: the returned
boolean, the calls of the `ViewportInteractionGetItemLeft` it runs, and the
effects of the dispatch. -/
structure LeftClickResult where
  handled : Bool
  calls : List LeftCall
  effects : List Effect
  deriving DecidableEq, Repr

/-- The function `ViewportInteractionLeftClick` (ViewportInteraction.cpp:169-236). -/
def ViewportInteractionLeftClick (g : GameState) (screenCoords : ScreenCoordsXY) :
    Option LeftClickResult := do
  let r ← ViewportInteractionGetItemLeft g screenCoords
  let info := r.info
  match info.SpriteType with
  | .SPRITE => do
    let entity ← info.Entity
    match entity.sprite_identifier with
    | .Vehicle => some ⟨true, r.calls, [.context_open_intent (.WD_VEHICLE entity)]⟩
    | .Peep => some ⟨true, r.calls, [.context_open_intent (.WC_PEEP entity)]⟩
    | .Misc =>
      if g.game_is_not_paused then
        if entity.type = SPRITE_MISC_BALLOON then
          some ⟨true, r.calls, [.Execute (.BalloonPressAction entity.sprite_index)]⟩
        else if entity.type = SPRITE_MISC_DUCK then
          match entity.As .Duck with
          | some duck => some ⟨true, r.calls, [.duck_press duck]⟩
          | none => some ⟨true, r.calls, []⟩
        else
          some ⟨true, r.calls, []⟩
      else
        some ⟨true, r.calls, []⟩
    | .Litter => some ⟨true, r.calls, []⟩
    | .Null => some ⟨true, r.calls, []⟩
  | .RIDE => some ⟨true, r.calls, [.context_open_intent (.WD_TRACK info.Element)]⟩
  | .PARK => some ⟨true, r.calls, [.context_open_window .WC_PARK_INFORMATION]⟩
  | _ => some ⟨false, r.calls, []⟩

/-- The function `ViewportInteractionRemoveParkWall`
(ViewportInteraction.cpp:653-666), applied to a non-null `tileElement`. -/
def ViewportInteractionRemoveParkWall (tileElement : TileElement) (mapCoords : CoordsXY) :
    Option (List Effect) := do
  let sceneryEntry ← (← tileElement.AsWall).GetEntry
  if sceneryEntry.scrolling_mode ≠ SCROLLING_MODE_NONE then
    some [.context_open_detail_window .WD_SIGN_SMALL (← tileElement.AsWall).GetBannerIndex]
  else
    some [.Execute (.WallRemoveAction
      ⟨mapCoords.x, mapCoords.y, tileElement.GetBaseZ, tileElement.GetDirection⟩)]

/-- The function `ViewportInteractionRemoveLargeScenery`
(ViewportInteraction.cpp:672-688), applied to a non-null `tileElement`. -/
def ViewportInteractionRemoveLargeScenery (tileElement : TileElement) (mapCoords : CoordsXY) :
    Option (List Effect) := do
  let sceneryEntry ← (← tileElement.AsLargeScenery).GetEntry
  if sceneryEntry.scrolling_mode ≠ SCROLLING_MODE_NONE then
    let bannerIndex := (← tileElement.AsLargeScenery).GetBannerIndex
    some [.context_open_detail_window .WD_SIGN bannerIndex]
  else
    some [.Execute (.LargeSceneryRemoveAction
      ⟨mapCoords.x, mapCoords.y, tileElement.GetBaseZ, tileElement.GetDirection⟩
      (← tileElement.AsLargeScenery).GetSequenceIndex)]

/-- The loop of `ViewportInteractionRemoveFootpath` (ViewportInteraction.cpp:609-616)
over the tile elements stored from `tileElement2` on; the result is the
effects and the number of elements read. Reading past the stored elements is
undefined. -/
def removeFootpathScan (z : Int) (mapCoords : CoordsXY) :
    List TileElement → Nat → Option (List Effect × Nat)
  | [], _ => none
  | tileElement2 :: following, reads =>
    if tileElement2.GetType = .Path ∧ tileElement2.GetBaseZ = z then
      some ([.footpath_remove ⟨mapCoords.x, mapCoords.y, z⟩ GAME_COMMAND_FLAG_APPLY], reads + 1)
    else if tileElement2.IsLastForTile then
      some ([], reads + 1)
    else
      removeFootpathScan z mapCoords following (reads + 1)

/-- The function `ViewportInteractionRemoveFootpath`
(ViewportInteraction.cpp:595-617), applied to a non-null `tileElement`: the
effects in order, and the number of tile elements of the cell read. -/
def ViewportInteractionRemoveFootpath (g : GameState) (tileElement : TileElement)
    (mapCoords : CoordsXY) : Option (List Effect × Nat) :=
  let z := tileElement.GetBaseZ
  let provisional : List Effect :=
    if (g.window_find_by_class .WC_FOOTPATH).isSome then [.footpath_provisional_update] else []
  match g.map_get_first_element_at mapCoords with
  | none => some (provisional, 0)
  | some stored =>
    match removeFootpathScan z mapCoords stored 0 with
    | none => none
    | some (effects, reads) => some (provisional ++ effects, reads)

/-- The function `ViewportInteractionRemoveScenery`
(ViewportInteraction.cpp:582-589), applied to a non-null `tileElement`. -/
def ViewportInteractionRemoveScenery (tileElement : TileElement) (mapCoords : CoordsXY) :
    Option (List Effect) := do
  let quadrant := (← tileElement.AsSmallScenery).GetSceneryQuadrant
  let entryIndex := (← tileElement.AsSmallScenery).GetEntryIndex
  some [.Execute (.SmallSceneryRemoveAction
    ⟨mapCoords.x, mapCoords.y, tileElement.GetBaseZ⟩ quadrant entryIndex)]

/-- The function `ViewportInteractionRemoveFootpathItem`
(ViewportInteraction.cpp:623-627), applied to a non-null `tileElement`. -/
def ViewportInteractionRemoveFootpathItem (tileElement : TileElement) (mapCoords : CoordsXY) :
    List Effect :=
  [.Execute (.FootpathAdditionRemoveAction ⟨mapCoords.x, mapCoords.y, tileElement.GetBaseZ⟩)]

/-- The function `ViewportInteractionRightOver` (ViewportInteraction.cpp:506-511):
the returned boolean, and the tooltip set by the
`ViewportInteractionGetItemRight` it runs. -/
def ViewportInteractionRightOver (g : GameState) (screenCoords : ScreenCoordsXY) :
    Option (Bool × Option Formatter) := do
  let r ← ViewportInteractionGetItemRight g screenCoords
  some (decide (r.info.SpriteType ≠ .NONE), r.tooltip)

/-- What a call of `ViewportInteractionRightClick` produces: the returned
boolean, the tooltip set by the `ViewportInteractionGetItemRight` it runs, and
the effects of the dispatch. -/
structure RightClickResult where
  handled : Bool
  tooltip : Option Formatter
  effects : List Effect
  deriving DecidableEq, Repr

/-- The function `ViewportInteractionRightClick` (ViewportInteraction.cpp:517-576). -/
def ViewportInteractionRightClick (g : GameState) (screenCoords : ScreenCoordsXY) :
    Option RightClickResult := do
  let r ← ViewportInteractionGetItemRight g screenCoords
  let info := r.info
  match info.SpriteType with
  | .NONE => some ⟨false, r.tooltip, []⟩
  | .TERRAIN => some ⟨false, r.tooltip, []⟩
  | .WATER => some ⟨false, r.tooltip, []⟩
  | .LABEL => some ⟨false, r.tooltip, []⟩
  | .SPRITE => do
    let entity ← info.Entity
    if entity.sprite_identifier = .Vehicle then
      match entity.As .Vehicle with
      | none => some ⟨true, r.tooltip, []⟩
      | some vehicle =>
        match g.get_ride vehicle.ride with
        | some ride => some ⟨true, r.tooltip, [.ride_construct ride]⟩
        | none => some ⟨true, r.tooltip, []⟩
    else
      some ⟨true, r.tooltip, []⟩
  | .RIDE => some ⟨true, r.tooltip, [.ride_modify info.Loc info.Element]⟩
  | .SCENERY => do
    let effects ← ViewportInteractionRemoveScenery (← info.Element) info.Loc
    some ⟨true, r.tooltip, effects⟩
  | .FOOTPATH => do
    let removed ← ViewportInteractionRemoveFootpath g (← info.Element) info.Loc
    some ⟨true, r.tooltip, removed.1⟩
  | .FOOTPATH_ITEM => do
    some ⟨true, r.tooltip, ViewportInteractionRemoveFootpathItem (← info.Element) info.Loc⟩
  | .PARK => do
    let actions ← ViewportInteractionRemoveParkEntrance (← info.Element) info.Loc
    some ⟨true, r.tooltip, actions.map Effect.Execute⟩
  | .WALL => do
    let effects ← ViewportInteractionRemoveParkWall (← info.Element) info.Loc
    some ⟨true, r.tooltip, effects⟩
  | .LARGE_SCENERY => do
    let effects ← ViewportInteractionRemoveLargeScenery (← info.Element) info.Loc
    some ⟨true, r.tooltip, effects⟩
  | .BANNER => do
    let banner ← (← info.Element).AsBanner
    some ⟨true, r.tooltip, [.context_open_detail_window .WD_BANNER banner.GetIndex]⟩

/-! ## Predicates used to state the properties -/

/-- The query results the removal gate is stated for: kind `SCENERY` on a
small-scenery element with an entry, kind `FOOTPATH` on a path element, and kind
`WALL` or `LARGE_SCENERY` on a wall or large-scenery element whose entry does not
lead to the banner tooltip (scrolling mode none, or no banner). -/
def InteractionInfo.isPlainRemovable (info : InteractionInfo) : Bool :=
  match info.SpriteType, info.Element with
  | .SCENERY, some e =>
    match e.AsSmallScenery with
    | some scenery => scenery.GetEntry.isSome
    | none => false
  | .FOOTPATH, some e => e.AsPath.isSome
  | .WALL, some e =>
    match e.AsWall with
    | some wall =>
      match wall.GetEntry with
      | some entry => entry.scrolling_mode == SCROLLING_MODE_NONE || wall.GetBanner.isNone
      | none => false
    | none => false
  | .LARGE_SCENERY, some e =>
    match e.AsLargeScenery with
    | some scenery =>
      match scenery.GetEntry with
      | some entry => entry.scrolling_mode == SCROLLING_MODE_NONE || scenery.GetBanner.isNone
      | none => false
    | none => false
  | _, _ => false

/-- The screen modes in which `ViewportInteractionGetItemRight` returns before
it queries the world (ViewportInteraction.cpp:249-254). -/
def GameState.rightRefused (g : GameState) : Bool :=
  g.gScreenFlags .SCREEN_FLAGS_TITLE_DEMO || g.gScreenFlags .SCREEN_FLAGS_TRACK_MANAGER
    || (g.gScreenFlags .SCREEN_FLAGS_TRACK_DESIGNER
      && g.editor_step != EDITOR_STEP_ROLLERCOASTER_DESIGNER)

/-- The three parts of a ride whose tiles get a station label in the tooltip
of `ViewportInteractionGetItemRight`. -/
inductive StationPart where
  | RideEntrance
  | RideExit
  | Station
  deriving DecidableEq, Repr

/-- The label of a station part on a ride with one station. -/
def StationPart.singular : StationPart → rct_string_id
  | .RideEntrance => .STR_RIDE_ENTRANCE
  | .RideExit => .STR_RIDE_EXIT
  | .Station => .STR_RIDE_STATION

/-- The label of a station part on a ride with several stations. -/
def StationPart.indexed : StationPart → rct_string_id
  | .RideEntrance => .STR_RIDE_STATION_X_ENTRANCE
  | .RideExit => .STR_RIDE_STATION_X_EXIT
  | .Station => .STR_RIDE_STATION_X

/-- The station part a tile element is: an entrance element of type ride
entrance or ride exit, or a track element that is a station. -/
def TileElement.stationPart (e : TileElement) : Option StationPart :=
  match e.payload with
  | .Entrance v =>
    if v.GetEntranceType = ENTRANCE_TYPE_RIDE_ENTRANCE then some .RideEntrance
    else if v.GetEntranceType = ENTRANCE_TYPE_RIDE_EXIT then some .RideExit
    else none
  | .Track t => if t.IsStation then some .Station else none
  | _ => none

/-- The station index of an entrance or track element (0 for other kinds). -/
def TileElement.stationIndex (e : TileElement) : Nat :=
  match e.payload with
  | .Entrance v => v.GetStationIndex
  | .Track t => t.GetStationIndex
  | _ => 0

/-- The screen modes in which `ViewportInteractionGetItemLeft` returns before
it queries the world (ViewportInteraction.cpp:59-64). -/
def GameState.leftRefused (g : GameState) : Bool :=
  g.gScreenFlags .SCREEN_FLAGS_SCENARIO_EDITOR || g.gScreenFlags .SCREEN_FLAGS_TRACK_MANAGER
    || (g.gScreenFlags .SCREEN_FLAGS_TRACK_DESIGNER
      && g.editor_step != EDITOR_STEP_ROLLERCOASTER_DESIGNER)

/-- The query results that the switch of `ViewportInteractionGetItemLeft`
leaves with kind `NONE`: nothing found or a kind other than `SPRITE`, `RIDE`,
`PARK`; a vehicle sprite whose cast is null or whose ride subtype is null; a
peep sprite whose cast is null. -/
def InteractionInfo.leftUnresolved (info : InteractionInfo) : Bool :=
  match info.SpriteType with
  | .SPRITE =>
    match info.Entity with
    | some sprite =>
      match sprite.sprite_identifier with
      | .Vehicle =>
        match sprite.As .Vehicle with
        | some vehicle => vehicle.ride_subtype == RIDE_ENTRY_INDEX_NULL
        | none => true
      | .Peep => (sprite.As .Peep).isNone
      | _ => false
    | none => false
  | .RIDE => false
  | .PARK => false
  | _ => true

/-- The query results of kind `FOOTPATH_ITEM` on a path element whose addition
has an entry. -/
def InteractionInfo.isFootpathItem (info : InteractionInfo) : Bool :=
  match info.SpriteType, info.Element with
  | .FOOTPATH_ITEM, some e =>
    match e.AsPath with
    | some path => path.GetAdditionEntry.isSome
    | none => false
  | _, _ => false

/-- The query results of kind `PARK` on an entrance element, in a state where
park entrances are removable: scenario-editor mode or sandbox mode. -/
def InteractionInfo.isRemovableParkEntrance (g : GameState) (info : InteractionInfo) : Bool :=
  match info.SpriteType, info.Element with
  | .PARK, some e =>
    decide (e.GetType = .Entrance)
      && (g.gScreenFlags .SCREEN_FLAGS_SCENARIO_EDITOR || g.gCheatsSandboxMode)
  | _, _ => false

/-- The query results that reach the gate of `ViewportInteractionGetItemRight`
(line 434) and that its second switch reports: plain scenery, footpath, wall and
large scenery, footpath items, and park entrances where they are removable. -/
def InteractionInfo.isRemovable (g : GameState) (info : InteractionInfo) : Bool :=
  info.isPlainRemovable || info.isFootpathItem || info.isRemovableParkEntrance g

/-- The gate of `ViewportInteractionGetItemRight` (lines 434-441) is shut:
`INPUT_FLAG_6` or `INPUT_FLAG_TOOL_ACTIVE` is clear, and neither a
ride-construction window nor a footpath window is open. -/
def GameState.removalGateShut (g : GameState) : Prop :=
  (g.input_test_flag .INPUT_FLAG_6 = false ∨ g.input_test_flag .INPUT_FLAG_TOOL_ACTIVE = false)
    ∧ g.window_find_by_class .WC_RIDE_CONSTRUCTION = none
    ∧ g.window_find_by_class .WC_FOOTPATH = none

/-- What `ViewportInteractionRightClick` dereferences in a resolved info, by
kind: the entity of a sprite, the element of a removable kind and its view. -/
def InteractionInfo.dispatchable (info : InteractionInfo) : Bool :=
  match info.SpriteType with
  | .SPRITE => info.Entity.isSome
  | .SCENERY =>
    match info.Element with
    | some e => e.AsSmallScenery.isSome
    | none => false
  | .FOOTPATH => info.Element.isSome
  | .FOOTPATH_ITEM => info.Element.isSome
  | .PARK =>
    match info.Element with
    | some e => e.AsEntrance.isSome
    | none => false
  | .WALL =>
    match info.Element with
    | some e =>
      match e.AsWall with
      | some wall => wall.GetEntry.isSome
      | none => false
    | none => false
  | .LARGE_SCENERY =>
    match info.Element with
    | some e =>
      match e.AsLargeScenery with
      | some scenery => scenery.GetEntry.isSome
      | none => false
    | none => false
  | .BANNER =>
    match info.Element with
    | some e => e.AsBanner.isSome
    | none => false
  | _ => true

/-- Every stored tile-element stack of the map is terminated: it holds an
element marked last-for-tile. -/
def GameState.stacksTerminated (g : GameState) : Prop :=
  ∀ (c : CoordsXY) (stored : List TileElement),
    g.map_get_first_element_at c = some stored → ∃ e ∈ stored, e.IsLastForTile = true

/-- The specification's centre of the sprite box of an entity, in whole pixels
of viewport space: the midpoint of its left and right edges and of its top and
bottom edges, rounded toward zero. Written from the specification, to be
compared with the expression of the code. -/
def spriteBoxCentre (entity : SpriteBase) : ScreenCoordsXY :=
  ⟨Int.tdiv (entity.sprite_left + entity.sprite_right) 2,
   Int.tdiv (entity.sprite_top + entity.sprite_bottom) 2⟩

/-- The specification's Manhattan distance between two points of viewport
space: the sum of the absolute differences of their coordinates. Written from
the specification, to be compared with the expression of the code. -/
def manhattanDistance (a b : ScreenCoordsXY) : Int :=
  (Int.natAbs (a.x - b.x) : Int) + (Int.natAbs (a.y - b.y) : Int)

/-! ## Concrete states used to evaluate the functions -/

/-- A state in ordinary play: no screen flag, no input flag, no window, an empty
world. The examples below change one collaborator at a time. -/
def playState : GameState where
  gScreenFlags := fun _ => false
  editor_step := 0
  gCheatsSandboxMode := false
  input_test_flag := fun _ => false
  window_find_by_class := fun _ => none
  window_find_from_point := fun _ => none
  get_map_coordinates_from_pos := fun _ _ => InteractionInfo.empty
  get_map_coordinates_from_pos_window := fun _ _ _ => InteractionInfo.empty
  get_ride := fun _ => none
  get_banner_entry := fun _ => none
  map_is_location_owned := fun _ => false
  RideComponentName := fun _ => .object 0
  peeps := []
  tile_element_height := fun _ => 0
  viewport_coord_to_map_coord := fun _ _ => ⟨0, 0⟩
  game_is_not_paused := true
  parkName := "Park"
  map_get_first_element_at := fun _ => none

/-- A small-scenery element at base z 16 whose entry has no scrolling mode. -/
def sceneryElement : TileElement :=
  ⟨0, 16, true, 0, .SmallScenery ⟨some ⟨.object 7, SCROLLING_MODE_NONE⟩, 0, 0⟩⟩

/-- A query result of kind `SCENERY` at (64, 64) on `sceneryElement`. -/
def sceneryInfo : InteractionInfo :=
  ⟨⟨64, 64⟩, some sceneryElement, none, .SCENERY⟩

/-- Ordinary play with both input flags set and no window open; the query finds
`sceneryInfo`. -/
def bothFlagsNoWindowState : GameState :=
  { playState with
    input_test_flag := fun _ => true
    get_map_coordinates_from_pos := fun _ _ => sceneryInfo }

/-- Ordinary play with the footpath window open and only `INPUT_FLAG_TOOL_ACTIVE`
set; the query finds `sceneryInfo`. -/
def footpathWindowState : GameState :=
  { playState with
    input_test_flag := fun f => f == .INPUT_FLAG_TOOL_ACTIVE
    window_find_by_class := fun c => if c = .WC_FOOTPATH then some ⟨none⟩ else none
    get_map_coordinates_from_pos := fun _ _ => sceneryInfo }

/-- Ordinary play with no input flag set and no window open; the query finds
`sceneryInfo`. -/
def noFlagNoWindowState : GameState :=
  { playState with get_map_coordinates_from_pos := fun _ _ => sceneryInfo }

/-- A park-entrance side segment facing west (direction 0) at base z 16, with
sequence index 1. -/
def westEntranceSegment1 : TileElement :=
  ⟨0, 16, false, 0, .Entrance ⟨ENTRANCE_TYPE_PARK_ENTRANCE, 0, 1⟩⟩

/-- A park-entrance side segment facing west (direction 0) at base z 16, with
sequence index 2. -/
def westEntranceSegment2 : TileElement :=
  ⟨0, 16, false, 0, .Entrance ⟨ENTRANCE_TYPE_PARK_ENTRANCE, 0, 2⟩⟩

/-- The centre segment (sequence index 0) of a park entrance facing east
(direction 2) at base z 16. -/
def eastEntranceCentre : TileElement :=
  ⟨2, 16, false, 0, .Entrance ⟨ENTRANCE_TYPE_PARK_ENTRANCE, 0, 0⟩⟩

/-- Ordinary play with a window and viewport under the cursor; the initial
terrain query reports kind `TERRAIN` at the tile origin (64, 96), the height map
is a slope and the projection moves with the height. -/
def alignedTerrainState : GameState :=
  { playState with
    window_find_from_point := fun _ => some ⟨some ⟨0, fun p => p⟩⟩
    get_map_coordinates_from_pos_window := fun _ _ _ => ⟨⟨64, 96⟩, none, none, .TERRAIN⟩
    tile_element_height := fun p => p.x + p.y
    viewport_coord_to_map_coord := fun p z => ⟨p.x + z, p.y - z⟩ }

/-- A peep whose sprite box is centred at (`cx`, `cy`) in viewport coordinates. -/
def peepAt (sprite_index : Nat) (cx cy : Int) : SpriteBase :=
  { sprite_identifier := .Peep, type := 0, sprite_index := sprite_index, x := 0, y := 0,
    sprite_left := cx - 10, sprite_right := cx + 10, sprite_top := cy - 10,
    sprite_bottom := cy + 10, is := [.Peep], ride := 0, ride_subtype := 0 }

/-- Ordinary play with a window and an unzoomed viewport under the cursor
(viewport coordinates equal screen coordinates) and two peeps, the first at
Manhattan distance 20 from (100, 210) and the second at distance 10. -/
def twoPeepState : GameState :=
  { playState with
    window_find_from_point := fun _ => some ⟨some ⟨0, fun p => p⟩⟩
    peeps := [peepAt 1 120 210, peepAt 2 110 210] }

/-- The same with three peeps: one at distance 20, then two at distance 10 on
opposite sides of the cursor. -/
def tiedPeepState : GameState :=
  { playState with
    window_find_from_point := fun _ => some ⟨some ⟨0, fun p => p⟩⟩
    peeps := [peepAt 1 120 210, peepAt 2 110 210, peepAt 3 90 210] }

/-- A station-platform track element of ride 3 with station index 2. -/
def stationTrackElement : TileElement :=
  ⟨0, 16, false, 3, .Track ⟨true, 2⟩⟩

/-- A closed ride with four station slots, of which slot 1 is unused (null). -/
def closedRide : Ride :=
  { type := 5, status := RIDE_STATUS_CLOSED, num_stations := 3,
    stations := [⟨⟨32, 32, 16⟩⟩, ⟨⟨LOCATION_NULL, 0, 0⟩⟩, ⟨⟨96, 32, 16⟩⟩, ⟨⟨128, 32, 16⟩⟩],
    nameArgs := [.external 1] }

/-- Ordinary play; the query finds the station platform of `closedRide`. -/
def closedRideState : GameState :=
  { playState with
    get_map_coordinates_from_pos := fun _ _ =>
      ⟨⟨64, 64⟩, some stationTrackElement, none, .RIDE⟩
    get_ride := fun i => if i = 3 then some closedRide else none }

/-- A ride-exit element of ride 3 with station index 0. -/
def rideExitElement : TileElement :=
  ⟨0, 16, false, 3, .Entrance ⟨ENTRANCE_TYPE_RIDE_EXIT, 0, 0⟩⟩

/-- A closed ride with a single station. -/
def singleStationRide : Ride :=
  { type := 5, status := RIDE_STATUS_CLOSED, num_stations := 1,
    stations := [⟨⟨32, 32, 16⟩⟩, ⟨⟨LOCATION_NULL, 0, 0⟩⟩],
    nameArgs := [.external 1] }

/-- Ordinary play; the query finds the exit of `singleStationRide`. -/
def singleStationState : GameState :=
  { playState with
    get_map_coordinates_from_pos := fun _ _ =>
      ⟨⟨64, 64⟩, some rideExitElement, none, .RIDE⟩
    get_ride := fun i => if i = 3 then some singleStationRide else none }

/-- A balloon at (50, 60). -/
def balloonEntity : SpriteBase :=
  { sprite_identifier := .Misc, type := SPRITE_MISC_BALLOON, sprite_index := 9, x := 50, y := 60,
    sprite_left := 40, sprite_right := 60, sprite_top := 50, sprite_bottom := 70,
    is := [.Balloon], ride := 0, ride_subtype := 0 }

/-- A query result of kind `SPRITE` on `balloonEntity`. -/
def balloonInfo : InteractionInfo :=
  ⟨⟨50, 60⟩, none, some balloonEntity, .SPRITE⟩

/-- The title screen (only `SCREEN_FLAGS_TITLE_DEMO` set); the query finds
`balloonInfo`. -/
def titleBalloonState : GameState :=
  { playState with
    gScreenFlags := fun f => f == .SCREEN_FLAGS_TITLE_DEMO
    get_map_coordinates_from_pos := fun _ _ => balloonInfo }

/-- The scenario editor (only `SCREEN_FLAGS_SCENARIO_EDITOR` set); the query
would find `balloonInfo`. -/
def editorBalloonState : GameState :=
  { playState with
    gScreenFlags := fun f => f == .SCREEN_FLAGS_SCENARIO_EDITOR
    get_map_coordinates_from_pos := fun _ _ => balloonInfo }

/-- The track manager (only `SCREEN_FLAGS_TRACK_MANAGER` set); the query would
find `sceneryInfo`. -/
def trackManagerState : GameState :=
  { playState with
    gScreenFlags := fun f => f == .SCREEN_FLAGS_TRACK_MANAGER
    get_map_coordinates_from_pos := fun _ _ => sceneryInfo }

/-- A vehicle sprite whose ride subtype is null (a stale reference). -/
def staleVehicle : SpriteBase :=
  { sprite_identifier := .Vehicle, type := 0, sprite_index := 4, x := 10, y := 10,
    sprite_left := 0, sprite_right := 20, sprite_top := 0, sprite_bottom := 20,
    is := [.Vehicle], ride := 3, ride_subtype := RIDE_ENTRY_INDEX_NULL }

/-- Ordinary play with a window and an unzoomed viewport under the cursor; the
query finds the stale vehicle, and a peep stands at Manhattan distance 10 from
(100, 210), at world position (7, 9). -/
def staleVehicleState : GameState :=
  { playState with
    window_find_from_point := fun _ => some ⟨some ⟨0, fun p => p⟩⟩
    get_map_coordinates_from_pos := fun _ _ => ⟨⟨10, 10⟩, none, some staleVehicle, .SPRITE⟩
    peeps := [{ peepAt 2 110 210 with x := 7, y := 9 }] }

/-- Ordinary play; the query finds terrain at (32, 32), whatever the mask. -/
def terrainState : GameState :=
  { playState with
    get_map_coordinates_from_pos := fun _ _ => ⟨⟨32, 32⟩, none, none, .TERRAIN⟩ }

/-- Ordinary play, not paused; the query finds `balloonInfo`. -/
def playBalloonState : GameState :=
  { playState with get_map_coordinates_from_pos := fun _ _ => balloonInfo }

/-- A wall sign (entry with a scrolling mode) with banner index 12, facing
direction 1 at base z 16. -/
def signWallElement : TileElement :=
  ⟨1, 16, false, 0, .Wall ⟨some ⟨.object 20, 3⟩, some ⟨0, [], []⟩, 12⟩⟩

/-- A plain wall (entry without scrolling mode), facing direction 1 at base z 16. -/
def plainWallElement : TileElement :=
  ⟨1, 16, false, 0, .Wall ⟨some ⟨.object 21, SCROLLING_MODE_NONE⟩, none, 0⟩⟩

/-- A large-scenery sign (entry with a scrolling mode) with banner index 13. -/
def signSceneryElement : TileElement :=
  ⟨2, 32, false, 0, .LargeScenery ⟨some ⟨.object 22, 3⟩, some ⟨0, [], []⟩, 13, 0⟩⟩

/-- A plain large-scenery element, tile 4 of its object, facing direction 2 at
base z 32. -/
def plainSceneryElement : TileElement :=
  ⟨2, 32, false, 0, .LargeScenery ⟨some ⟨.object 23, SCROLLING_MODE_NONE⟩, none, 0, 4⟩⟩

/-- A path element at base z 16 that is not the last of its cell. -/
def pathElement : TileElement :=
  ⟨0, 16, false, 0, .Path ⟨false, false, none⟩⟩

/-- A surface element at base z 16 that is not the last of its cell. -/
def surfaceElement : TileElement :=
  ⟨0, 16, false, 0, .Surface ⟨0⟩⟩

/-- A track element at base z 48, the last of its cell. -/
def lastTrackElement : TileElement :=
  ⟨0, 48, true, 0, .Track ⟨false, 0⟩⟩

/-- Ordinary play with the footpath window open; the cell at every coordinate
holds a surface, a path at base z 16 and a last track element, followed in
memory by a path of the next cell. -/
def pathCellState : GameState :=
  { playState with
    window_find_by_class := fun c => if c = .WC_FOOTPATH then some ⟨none⟩ else none
    map_get_first_element_at := fun _ =>
      some [surfaceElement, pathElement, lastTrackElement, pathElement] }

/-- Ordinary play; the cell at every coordinate holds a surface and a last track
element, followed in memory by a path at base z 16 of the next cell. -/
def noPathCellState : GameState :=
  { playState with
    map_get_first_element_at := fun _ => some [surfaceElement, lastTrackElement, pathElement] }

/-- A track element of ride 3 that is not a station, at base z 16. -/
def plainTrackElement : TileElement :=
  ⟨0, 16, false, 3, .Track ⟨false, 0⟩⟩

/-- Ordinary play, no sandbox mode, no land owned; the query finds a plain track
piece of `closedRide`. -/
def unownedTrackState : GameState :=
  { playState with
    get_map_coordinates_from_pos := fun _ _ =>
      ⟨⟨64, 64⟩, some plainTrackElement, none, .RIDE⟩
    get_ride := fun i => if i = 3 then some closedRide else none }

/-- A vehicle of ride 3. -/
def vehicleEntity : SpriteBase :=
  { sprite_identifier := .Vehicle, type := 0, sprite_index := 5, x := 10, y := 10,
    sprite_left := 0, sprite_right := 20, sprite_top := 0, sprite_bottom := 20,
    is := [.Vehicle], ride := 3, ride_subtype := 1 }

/-- Ordinary play; the query finds a vehicle of `closedRide`. -/
def vehicleState : GameState :=
  { playState with
    get_map_coordinates_from_pos := fun _ _ => ⟨⟨10, 10⟩, none, some vehicleEntity, .SPRITE⟩
    get_ride := fun i => if i = 3 then some closedRide else none }

/-- A banner of type 2 with its text. -/
def parkBanner : Banner :=
  ⟨2, [.external 7], [.external 8]⟩

/-- A banner tile element at base z 16 carrying `parkBanner`, banner index 6. -/
def bannerElement : TileElement :=
  ⟨0, 16, false, 0, .Banner ⟨some parkBanner, 6⟩⟩

/-- The scenario editor with no input flag and no window; the query finds the
banner tile. -/
def editorBannerState : GameState :=
  { playState with
    gScreenFlags := fun f => f == .SCREEN_FLAGS_SCENARIO_EDITOR
    get_map_coordinates_from_pos := fun _ _ => ⟨⟨64, 64⟩, some bannerElement, none, .BANNER⟩
    get_banner_entry := fun t => if t = 2 then some ⟨.object 30, SCROLLING_MODE_NONE⟩ else none }

/-- A duck at (50, 60). -/
def duckEntity : SpriteBase :=
  { sprite_identifier := .Misc, type := SPRITE_MISC_DUCK, sprite_index := 11, x := 50, y := 60,
    sprite_left := 40, sprite_right := 60, sprite_top := 50, sprite_bottom := 70,
    is := [.Duck], ride := 0, ride_subtype := 0 }

/-- Ordinary play, not paused; the query finds the duck. -/
def playDuckState : GameState :=
  { playState with
    get_map_coordinates_from_pos := fun _ _ => ⟨⟨50, 60⟩, none, some duckEntity, .SPRITE⟩ }

/-- Ordinary play, paused; the query finds the duck. -/
def pausedDuckState : GameState :=
  { playState with
    game_is_not_paused := false
    get_map_coordinates_from_pos := fun _ _ => ⟨⟨50, 60⟩, none, some duckEntity, .SPRITE⟩ }

/-- Ordinary play, paused; the query finds `balloonInfo`. -/
def pausedBalloonState : GameState :=
  { playState with
    game_is_not_paused := false
    get_map_coordinates_from_pos := fun _ _ => balloonInfo }

/-- A surface element with water at height 5. -/
def waterSurfaceElement : TileElement :=
  ⟨0, 16, true, 0, .Surface ⟨5⟩⟩

/-- Ordinary play with a window and viewport under the cursor; the initial
query reports kind `WATER` at the tile origin (128, 32) on a surface element,
and the projection moves with the height. -/
def alignedWaterState : GameState :=
  { playState with
    window_find_from_point := fun _ => some ⟨some ⟨0, fun p => p⟩⟩
    get_map_coordinates_from_pos_window := fun _ _ _ =>
      ⟨⟨128, 32⟩, some waterSurfaceElement, none, .WATER⟩
    viewport_coord_to_map_coord := fun p z => ⟨p.x - 7 * z, p.y + 1000⟩ }

/-- An open ride (status 1) with one station. -/
def openRide : Ride :=
  { type := 5, status := 1, num_stations := 1, stations := [⟨⟨32, 32, 16⟩⟩],
    nameArgs := [.external 1] }

/-- Ordinary play with all land owned; the query finds a plain track piece of
`openRide`. -/
def openRideTrackState : GameState :=
  { playState with
    map_is_location_owned := fun _ => true
    get_map_coordinates_from_pos := fun _ _ =>
      ⟨⟨64, 64⟩, some plainTrackElement, none, .RIDE⟩
    get_ride := fun i => if i = 3 then some openRide else none }

/-- Ordinary play with all land owned; the query finds a plain track piece of
`closedRide`. -/
def ownedTrackState : GameState :=
  { playState with
    map_is_location_owned := fun _ => true
    get_map_coordinates_from_pos := fun _ _ =>
      ⟨⟨64, 64⟩, some plainTrackElement, none, .RIDE⟩
    get_ride := fun i => if i = 3 then some closedRide else none }

/-- Ordinary play, no sandbox mode, no land owned; the query finds a plain track
piece of `openRide`. -/
def unownedOpenRideState : GameState :=
  { playState with
    get_map_coordinates_from_pos := fun _ _ =>
      ⟨⟨64, 64⟩, some plainTrackElement, none, .RIDE⟩
    get_ride := fun i => if i = 3 then some openRide else none }

/-- A path element at base z 16 with a bench-like addition that has an entry. -/
def benchElement : TileElement :=
  ⟨0, 16, true, 0, .Path ⟨false, false, some ⟨.object 9, SCROLLING_MODE_NONE⟩⟩⟩

/-- Ordinary play with `INPUT_FLAG_6` set, `INPUT_FLAG_TOOL_ACTIVE` clear and no
window open; the query finds the addition of `benchElement` at (96, 32). -/
def toolInactiveBenchState : GameState :=
  { playState with
    input_test_flag := fun f => f == .INPUT_FLAG_6
    get_map_coordinates_from_pos := fun _ _ =>
      ⟨⟨96, 32⟩, some benchElement, none, .FOOTPATH_ITEM⟩ }

/-- The state `pathCellState` (footpath window open, terminated stacks with a
path at base z 16) in which the query finds `pathElement` at (64, 64). -/
def pathClickState : GameState :=
  { pathCellState with
    get_map_coordinates_from_pos := fun _ _ =>
      ⟨⟨64, 64⟩, some pathElement, none, .FOOTPATH⟩ }

/-- An entity of the peep list with the sprite box `left .. right` by
`top .. bottom` in viewport coordinates. -/
def peepWithBox (sprite_index : Nat) (left right top bottom : Int) : SpriteBase :=
  { sprite_identifier := .Peep, type := 0, sprite_index := sprite_index, x := 0, y := 0,
    sprite_left := left, sprite_right := right, sprite_top := top, sprite_bottom := bottom,
    is := [.Peep], ride := 0, ride_subtype := 0 }

/-- Ordinary play with a window whose unzoomed viewport maps the screen point
(40, 45) to the viewport coordinate (-10, -5), and four peeps in this order: one
with a null sprite position whose box would be centred on the cursor, one
centred at (-29, -11), up and to the left at Manhattan distance 25, one centred
at (-10, 35), straight below at distance 40, and one centred at (-4, -14), up
and to the right at distance 15. -/
def scatteredPeepState : GameState :=
  { playState with
    window_find_from_point := fun _ => some ⟨some ⟨0, fun p => ⟨p.x - 50, p.y - 50⟩⟩⟩
    peeps := [peepWithBox 4 LOCATION_NULL 32748 (-5) (-5),
      peepWithBox 1 (-37) (-22) (-18) (-5),
      peepWithBox 3 (-10) (-10) 30 40,
      peepWithBox 2 (-14) 6 (-24) (-4)] }

/-! ## Theorems -/

/-- C1: for every tile element `e` and each of the nine kinds `K`, the typed
view for `K` is present exactly when `e.GetType()` equals the tag of `K`, a
present view is `e` itself, and a view asked under another kind is absent (the
Wall view of a Track-tagged element among them). This holds for every
implementation of `GetType`. -/
theorem typed_view_present_iff_tag (GetType : rct_tile_element → Nat) (e : rct_tile_element)
    (K : TileElementType) :
    ((e.view GetType K).isSome = true ↔ GetType e = K.toUInt8) ∧
    (∀ v, e.view GetType K = some v → v = e) ∧
    (∀ K2 : TileElementType, GetType e = K2.toUInt8 → K2 ≠ K → e.view GetType K = none) ∧
    (GetType e = TileElementType.Track.toUInt8 → e.AsWall GetType = none) := by
  have hview : e.view GetType K = e.as GetType K := by
    cases K <;> rfl
  have hinj : ∀ A B : TileElementType, A.toUInt8 = B.toUInt8 → A = B := by
    intro A B
    cases A <;> cases B <;> decide
  refine ⟨?_, ?_, ?_, ?_⟩
  · rw [hview]
    unfold rct_tile_element.as
    split <;> simp_all
  · intro v hv
    rw [hview] at hv
    unfold rct_tile_element.as at hv
    split at hv
    · exact (Option.some.inj hv).symm
    · cases hv
  · intro K2 h2 hne
    rw [hview]
    unfold rct_tile_element.as
    have : ¬ GetType e = K.toUInt8 := by
      intro h
      exact hne (hinj K2 K (h2.symm.trans h))
    simp [this]
  · intro h
    simp [rct_tile_element.AsWall, rct_tile_element.as, h, TileElementType.toUInt8]


/-- The removal part of `ViewportInteractionGetItemRight` on a plain removable
query result: collapsed to `NONE` when the gate is shut, returned unchanged with
a tooltip otherwise. -/
theorem removal_of_plain (g : GameState) (info : InteractionInfo)
    (h : info.isPlainRemovable = true) :
    ∃ r, ViewportInteractionGetItemRight.removal g info = some r ∧
      (((g.input_test_flag .INPUT_FLAG_6 = false ∨ g.input_test_flag .INPUT_FLAG_TOOL_ACTIVE = false)
          ∧ g.window_find_by_class .WC_RIDE_CONSTRUCTION = none
          ∧ g.window_find_by_class .WC_FOOTPATH = none) → r = collapse info) ∧
      (¬ ((g.input_test_flag .INPUT_FLAG_6 = false ∨ g.input_test_flag .INPUT_FLAG_TOOL_ACTIVE = false)
          ∧ g.window_find_by_class .WC_RIDE_CONSTRUCTION = none
          ∧ g.window_find_by_class .WC_FOOTPATH = none) → r.info = info ∧ r.tooltip.isSome = true) := by
  obtain ⟨loc, el, en, k⟩ := info
  cases k <;> cases el <;> simp [InteractionInfo.isPlainRemovable] at h
  all_goals
    rename_i e
    obtain ⟨dir, bz, last, ri, pl⟩ := e
    cases pl <;>
      simp [TileElement.AsSmallScenery, TileElement.AsPath, TileElement.AsWall,
        TileElement.AsLargeScenery] at h
  all_goals
    rename_i v
    by_cases hg : ((g.input_test_flag .INPUT_FLAG_6 = false ∨
        g.input_test_flag .INPUT_FLAG_TOOL_ACTIVE = false)
          ∧ g.window_find_by_class .WC_RIDE_CONSTRUCTION = none
          ∧ g.window_find_by_class .WC_FOOTPATH = none)
    · refine ⟨collapse _, ?_, fun _ => rfl, fun hn => absurd hg hn⟩
      obtain ⟨hf, h1, h2⟩ := hg
      unfold ViewportInteractionGetItemRight.removal
      rcases hf with hf | hf <;> simp [hf, h1, h2]
    · have hc : ((!(g.input_test_flag .INPUT_FLAG_6)
          || !(g.input_test_flag .INPUT_FLAG_TOOL_ACTIVE))
          && ((g.window_find_by_class .WC_RIDE_CONSTRUCTION).isNone
            && (g.window_find_by_class .WC_FOOTPATH).isNone)) = false := by
        cases h6 : g.input_test_flag .INPUT_FLAG_6 <;>
        cases ht : g.input_test_flag .INPUT_FLAG_TOOL_ACTIVE <;>
        cases h1 : g.window_find_by_class .WC_RIDE_CONSTRUCTION <;>
        cases h2 : g.window_find_by_class .WC_FOOTPATH <;>
        simp_all
      first
        | (cases hE : v.GetEntry <;> simp [hE] at h <;>
            simp [ViewportInteractionGetItemRight.removal, hc, hg, hE,
              TileElement.AsSmallScenery, TileElement.AsWall, TileElement.AsLargeScenery])
        | simp [ViewportInteractionGetItemRight.removal, hc, hg, TileElement.AsPath]

/-- Outside the refused modes, `ViewportInteractionGetItemRight` hands a plain
removable query result to its removal part: the first switch does not return. -/
theorem getItemRight_of_plain (g : GameState) (screenCoords : ScreenCoordsXY)
    (hmode : g.rightRefused = false)
    (h : (g.get_map_coordinates_from_pos screenCoords rightMask).isPlainRemovable = true) :
    ViewportInteractionGetItemRight g screenCoords
      = ViewportInteractionGetItemRight.removal g
          (g.get_map_coordinates_from_pos screenCoords rightMask) := by
  have h1 : (g.gScreenFlags .SCREEN_FLAGS_TITLE_DEMO
      || g.gScreenFlags .SCREEN_FLAGS_TRACK_MANAGER) = false := by
    unfold GameState.rightRefused at hmode
    simp only [Bool.or_eq_false_iff] at hmode ⊢
    exact hmode.1
  have h2 : (g.gScreenFlags .SCREEN_FLAGS_TRACK_DESIGNER
      && g.editor_step != EDITOR_STEP_ROLLERCOASTER_DESIGNER) = false := by
    unfold GameState.rightRefused at hmode
    simp only [Bool.or_eq_false_iff] at hmode
    exact hmode.2
  unfold ViewportInteractionGetItemRight
  rw [h1, h2]
  generalize g.get_map_coordinates_from_pos screenCoords rightMask = info at h ⊢
  obtain ⟨loc, el, en, k⟩ := info
  cases k <;> cases el <;> simp [InteractionInfo.isPlainRemovable] at h
  all_goals
    rename_i e
    obtain ⟨dir, bz, last, ri, pl⟩ := e
    cases pl <;>
      simp [TileElement.AsSmallScenery, TileElement.AsPath, TileElement.AsWall,
        TileElement.AsLargeScenery] at h
  all_goals
    rename_i v
    first
      | (cases hE : v.GetEntry <;> simp [hE] at h <;>
          rcases h with h | h <;>
          simp [hE, h, TileElement.AsWall, TileElement.AsLargeScenery])
      | simp

/-- In a refused screen mode `ViewportInteractionGetItemRight` returns the
empty `InteractionInfo` and sets no tooltip. -/
theorem getItemRight_of_refused (g : GameState) (screenCoords : ScreenCoordsXY)
    (hmode : g.rightRefused = true) :
    ViewportInteractionGetItemRight g screenCoords = some ⟨InteractionInfo.empty, none⟩ := by
  unfold ViewportInteractionGetItemRight
  unfold GameState.rightRefused at hmode
  by_cases h1 : (g.gScreenFlags .SCREEN_FLAGS_TITLE_DEMO
      || g.gScreenFlags .SCREEN_FLAGS_TRACK_MANAGER) = true
  · rw [if_pos h1]
  · rw [if_neg h1]
    have h2 : (g.gScreenFlags .SCREEN_FLAGS_TRACK_DESIGNER
        && g.editor_step != EDITOR_STEP_ROLLERCOASTER_DESIGNER) = true := by
      simp only [Bool.not_eq_true] at h1
      rw [h1] at hmode
      simpa using hmode
    rw [if_pos h2]

/-- C2 (amended): for a query result of kind plain Scenery, Footpath, Wall
without scrolling banner or LargeScenery without scrolling banner,
`ViewportInteractionGetItemRight` returns kind `NONE` whenever neither a
ride-construction window nor a footpath window is open and at least one of
`INPUT_FLAG_6`, `INPUT_FLAG_TOOL_ACTIVE` is clear. -/
theorem removal_gate_shut_gives_none (g : GameState) (screenCoords : ScreenCoordsXY)
    (h : (g.get_map_coordinates_from_pos screenCoords rightMask).isPlainRemovable = true)
    (hflag : g.input_test_flag .INPUT_FLAG_6 = false
      ∨ g.input_test_flag .INPUT_FLAG_TOOL_ACTIVE = false)
    (hRC : g.window_find_by_class .WC_RIDE_CONSTRUCTION = none)
    (hFP : g.window_find_by_class .WC_FOOTPATH = none) :
    ∃ r, ViewportInteractionGetItemRight g screenCoords = some r
      ∧ r.info.SpriteType = .NONE := by
  cases hmode : g.rightRefused
  · obtain ⟨r, hr, hshut, _⟩ :=
      removal_of_plain g (g.get_map_coordinates_from_pos screenCoords rightMask) h
    refine ⟨r, ?_, ?_⟩
    · rw [getItemRight_of_plain g screenCoords hmode h, hr]
    · rw [hshut ⟨hflag, hRC, hFP⟩]
      rfl
  · exact ⟨_, getItemRight_of_refused g screenCoords hmode, rfl⟩

/-- C2 (witness): no input flag, no window, a small-scenery element under the
cursor: the result is `NONE`. -/
theorem removal_gate_shut_gives_none_witness :
    ∃ r, ViewportInteractionGetItemRight noFlagNoWindowState ⟨0, 0⟩ = some r
      ∧ r.info.SpriteType = .NONE :=
  removal_gate_shut_gives_none noFlagNoWindowState ⟨0, 0⟩ (by decide) (Or.inl rfl) rfl rfl

/-- C2 (counterexample): with `INPUT_FLAG_6` and `INPUT_FLAG_TOOL_ACTIVE` both
set and neither window open, a plain small-scenery query result is returned
with kind `SCENERY` and a click-to-remove tooltip, not collapsed to `NONE`. -/
theorem removal_gate_open_with_both_flags_and_no_window :
    (bothFlagsNoWindowState.get_map_coordinates_from_pos ⟨0, 0⟩ rightMask).isPlainRemovable = true
    ∧ bothFlagsNoWindowState.window_find_by_class .WC_RIDE_CONSTRUCTION = none
    ∧ bothFlagsNoWindowState.window_find_by_class .WC_FOOTPATH = none
    ∧ ViewportInteractionGetItemRight bothFlagsNoWindowState ⟨0, 0⟩
        = some ⟨sceneryInfo, some [.string_id .STR_MAP_TOOLTIP_STRINGID_CLICK_TO_REMOVE,
            .string_id (.object 7)]⟩
    ∧ sceneryInfo.SpriteType = .SCENERY
    ∧ ¬ ∃ r, ViewportInteractionGetItemRight bothFlagsNoWindowState ⟨0, 0⟩ = some r
        ∧ r.info.SpriteType = .NONE := by
  refine ⟨by decide, rfl, rfl, by decide, rfl, ?_⟩
  rintro ⟨r, hr, hk⟩
  have hval : ViewportInteractionGetItemRight bothFlagsNoWindowState ⟨0, 0⟩
      = some ⟨sceneryInfo, some [.string_id .STR_MAP_TOOLTIP_STRINGID_CLICK_TO_REMOVE,
          .string_id (.object 7)]⟩ := by decide
  rw [hval] at hr
  cases hr
  cases hk

/-- C3: outside the refused screen modes, for a query result of kind plain
Scenery, Footpath, Wall without scrolling banner or LargeScenery without
scrolling banner, when a ride-construction or footpath window is open and one of
the two tool input flags is set, `ViewportInteractionGetItemRight` returns the
query result unchanged: its kind is the kind the query produced, and not `NONE`.
(The open window alone passes the gate; the hypothesis on the flags is the
claim's and the proof does not use it.) -/
theorem removal_gate_open_keeps_kind (g : GameState) (screenCoords : ScreenCoordsXY)
    (hmode : g.rightRefused = false)
    (h : (g.get_map_coordinates_from_pos screenCoords rightMask).isPlainRemovable = true)
    (hwindow : (g.window_find_by_class .WC_RIDE_CONSTRUCTION).isSome = true
      ∨ (g.window_find_by_class .WC_FOOTPATH).isSome = true)
    (_hflag : g.input_test_flag .INPUT_FLAG_6 = true
      ∨ g.input_test_flag .INPUT_FLAG_TOOL_ACTIVE = true) :
    ∃ r, ViewportInteractionGetItemRight g screenCoords = some r
      ∧ r.info = g.get_map_coordinates_from_pos screenCoords rightMask
      ∧ r.info.SpriteType = (g.get_map_coordinates_from_pos screenCoords rightMask).SpriteType
      ∧ r.info.SpriteType ≠ .NONE := by
  obtain ⟨r, hr, _, hopen⟩ :=
    removal_of_plain g (g.get_map_coordinates_from_pos screenCoords rightMask) h
  have hnot : ¬ ((g.input_test_flag .INPUT_FLAG_6 = false
      ∨ g.input_test_flag .INPUT_FLAG_TOOL_ACTIVE = false)
      ∧ g.window_find_by_class .WC_RIDE_CONSTRUCTION = none
      ∧ g.window_find_by_class .WC_FOOTPATH = none) := by
    rintro ⟨_, hRC, hFP⟩
    rw [hRC, hFP] at hwindow
    simp at hwindow
  obtain ⟨hinfo, _⟩ := hopen hnot
  refine ⟨r, ?_, hinfo, by rw [hinfo], ?_⟩
  · rw [getItemRight_of_plain g screenCoords hmode h, hr]
  · rw [hinfo]
    intro hk
    generalize g.get_map_coordinates_from_pos screenCoords rightMask = info at h hk
    obtain ⟨loc, el, en, k⟩ := info
    simp only at hk
    subst hk
    simp [InteractionInfo.isPlainRemovable] at h

/-- C3 (witness): footpath window open, `INPUT_FLAG_TOOL_ACTIVE` set, a
small-scenery element under the cursor: the result keeps kind `SCENERY`. -/
theorem removal_gate_open_keeps_kind_witness :
    ∃ r, ViewportInteractionGetItemRight footpathWindowState ⟨0, 0⟩ = some r
      ∧ r.info = sceneryInfo
      ∧ r.info.SpriteType = ViewportInteractionItem.SCENERY
      ∧ r.info.SpriteType ≠ .NONE :=
  removal_gate_open_keeps_kind footpathWindowState ⟨0, 0⟩ (by decide) (by decide)
    (Or.inr (by decide)) (Or.inr (by decide))

/-- The rotation `GetDirectionWithOffset(1)` is the facing direction advanced
by a quarter turn: `(D + 1) mod 4`. -/
theorem getDirectionWithOffset_one (e : TileElement) :
    e.GetDirectionWithOffset 1 = (e.GetDirection + 1) % 4 := by
  unfold TileElement.GetDirectionWithOffset TileElement.GetDirection TILE_ELEMENT_DIRECTION_MASK
  exact Nat.and_pow_two_sub_one_eq_mod _ 2

/-- C4 (amended): for every clicked coordinate `c` and every entrance element
with facing direction `D`, when the sequence index is 1 the one
`ParkEntranceRemoveAction` targets `c` plus the one-tile step of direction
`(D + 1) mod 4` (a quarter turn from the facing direction, so across it), and
when it is 2 it targets `c` minus that step; the height is the element's base Z. -/
theorem park_entrance_side_segment_target (e : TileElement) (c : CoordsXY)
    (v : EntranceElement) (h : e.AsEntrance = some v) :
    (v.GetSequenceIndex = 1 →
      ViewportInteractionRemoveParkEntrance e c
        = some [.ParkEntranceRemoveAction
            ⟨c.x + (CoordsDirectionDelta ((e.GetDirection + 1) % 4)).x,
             c.y + (CoordsDirectionDelta ((e.GetDirection + 1) % 4)).y, e.GetBaseZ⟩])
    ∧ (v.GetSequenceIndex = 2 →
      ViewportInteractionRemoveParkEntrance e c
        = some [.ParkEntranceRemoveAction
            ⟨c.x - (CoordsDirectionDelta ((e.GetDirection + 1) % 4)).x,
             c.y - (CoordsDirectionDelta ((e.GetDirection + 1) % 4)).y, e.GetBaseZ⟩]) := by
  constructor <;> intro hs <;>
    simp [ViewportInteractionRemoveParkEntrance, h, hs, getDirectionWithOffset_one,
      CoordsXY.add, CoordsXY.sub]

/-- C4 (witness): the west-facing side segments with sequence index 1 and 2,
clicked at (64, 64), target (64, 96) and (64, 32). -/
theorem park_entrance_side_segment_target_witness :
    ViewportInteractionRemoveParkEntrance westEntranceSegment1 ⟨64, 64⟩
      = some [.ParkEntranceRemoveAction ⟨64, 96, 16⟩]
    ∧ ViewportInteractionRemoveParkEntrance westEntranceSegment2 ⟨64, 64⟩
      = some [.ParkEntranceRemoveAction ⟨64, 32, 16⟩] :=
  ⟨(park_entrance_side_segment_target westEntranceSegment1 ⟨64, 64⟩
      ⟨ENTRANCE_TYPE_PARK_ENTRANCE, 0, 1⟩ rfl).1 rfl,
   (park_entrance_side_segment_target westEntranceSegment2 ⟨64, 64⟩
      ⟨ENTRANCE_TYPE_PARK_ENTRANCE, 0, 2⟩ rfl).2 rfl⟩

/-- C4 (counterexample): a west-facing entrance (direction 0, whose one-tile
step is (-32, 0)) clicked at (64, 64) on its segment with sequence index 1. The
action targets (64, 96): the x is unchanged, so the target is neither `c` moved
one tile backward along the facing direction, (96, 64), nor forward, (32, 64).
Along the rotated direction the code uses, the move is the step itself (`+=`),
not its opposite, (64, 32). -/
theorem park_entrance_target_not_along_facing :
    westEntranceSegment1.GetDirection = 0
    ∧ westEntranceSegment1.AsEntrance.map EntranceElement.GetSequenceIndex = some 1
    ∧ ViewportInteractionRemoveParkEntrance westEntranceSegment1 ⟨64, 64⟩
      = some [.ParkEntranceRemoveAction ⟨64, 96, 16⟩]
    ∧ (CoordsXY.mk 64 64).sub (CoordsDirectionDelta westEntranceSegment1.GetDirection) = ⟨96, 64⟩
    ∧ (CoordsXY.mk 64 64).add (CoordsDirectionDelta westEntranceSegment1.GetDirection) = ⟨32, 64⟩
    ∧ ViewportInteractionRemoveParkEntrance westEntranceSegment1 ⟨64, 64⟩
      ≠ some [.ParkEntranceRemoveAction ⟨96, 64, 16⟩]
    ∧ ViewportInteractionRemoveParkEntrance westEntranceSegment1 ⟨64, 64⟩
      ≠ some [.ParkEntranceRemoveAction ⟨32, 64, 16⟩]
    ∧ (CoordsXY.mk 64 64).sub
        (CoordsDirectionDelta (westEntranceSegment1.GetDirectionWithOffset 1)) = ⟨64, 32⟩
    ∧ ViewportInteractionRemoveParkEntrance westEntranceSegment1 ⟨64, 64⟩
      ≠ some [.ParkEntranceRemoveAction ⟨64, 32, 16⟩] := by
  decide

/-- C5: for every clicked coordinate `c` and every entrance element whose
sequence index is 0, exactly one `ParkEntranceRemoveAction` is issued, with x
and y equal to `c` and z equal to the element's base Z, whatever the direction. -/
theorem park_entrance_centre_target (e : TileElement) (c : CoordsXY)
    (v : EntranceElement) (h : e.AsEntrance = some v) (h0 : v.GetSequenceIndex = 0) :
    ViewportInteractionRemoveParkEntrance e c
      = some [.ParkEntranceRemoveAction ⟨c.x, c.y, e.GetBaseZ⟩] := by
  simp [ViewportInteractionRemoveParkEntrance, h, h0]

/-- C5 (witness): the centre segment of an east-facing entrance clicked at
(64, 64) is removed at (64, 64, 16). -/
theorem park_entrance_centre_target_witness :
    ViewportInteractionRemoveParkEntrance eastEntranceCentre ⟨64, 64⟩
      = some [.ParkEntranceRemoveAction ⟨64, 64, 16⟩] :=
  park_entrance_centre_target eastEntranceCentre ⟨64, 64⟩
    ⟨ENTRANCE_TYPE_PARK_ENTRANCE, 0, 0⟩ rfl rfl

/-- The result of `std::clamp(v, lo, hi)` lies between `lo` and `hi` when
`lo ≤ hi`. -/
theorem clamp_mem (v lo hi : Int) (h : lo ≤ hi) : lo ≤ clamp v lo hi ∧ clamp v lo hi ≤ hi := by
  unfold clamp
  split
  · exact ⟨le_refl _, h⟩
  · split
    · exact ⟨h, le_refl _⟩
    · constructor <;> omega

/-- After the loop of `ViewportInteractionGetTileStartAtCursor`, `mapPos` lies
in the 32-unit square that starts at `initialPos`, provided it did before the
loop or the loop ran at least once. -/
theorem tileStartLoop_mem (g : GameState) (k : ViewportInteractionItem) (waterHeight : Int)
    (vp : ScreenCoordsXY) (L : CoordsXY) (n : Nat) (state : CoordsXY × List TileStartCall)
    (h : 0 < n ∨ (L.x ≤ state.1.x ∧ state.1.x ≤ L.x + 31 ∧ L.y ≤ state.1.y ∧ state.1.y ≤ L.y + 31)) :
    L.x ≤ (tileStartLoop g k waterHeight vp L n state).1.x
    ∧ (tileStartLoop g k waterHeight vp L n state).1.x ≤ L.x + 31
    ∧ L.y ≤ (tileStartLoop g k waterHeight vp L n state).1.y
    ∧ (tileStartLoop g k waterHeight vp L n state).1.y ≤ L.y + 31 := by
  induction n generalizing state with
  | zero =>
    rcases h with h | h
    · exact absurd h (lt_irrefl 0)
    · simpa [tileStartLoop] using h
  | succ n ih =>
    obtain ⟨mapPos, calls⟩ := state
    unfold tileStartLoop
    apply ih
    right
    refine ⟨(clamp_mem _ _ _ (by omega)).1, (clamp_mem _ _ _ (by omega)).2,
      (clamp_mem _ _ _ (by omega)).1, (clamp_mem _ _ _ (by omega)).2⟩

/-- C6: for every camera projection and every height profile, when the initial
terrain-or-water query finds something at the origin `L` of a tile (x and y
multiples of 32), `ViewportInteractionGetTileStartAtCursor` returns a
coordinate with `L.x ≤ x ≤ L.x + 31` and `L.y ≤ y ≤ L.y + 31`: inside the
footprint of the initial tile. (A result of kind `WATER` refers to a surface
element, whose water height the code reads.) -/
theorem tile_start_inside_footprint (g : GameState) (screenCoords : ScreenCoordsXY)
    (window : rct_window) (viewport : rct_viewport)
    (hw : g.window_find_from_point screenCoords = some window)
    (hv : window.viewport = some viewport)
    (hk : (g.get_map_coordinates_from_pos_window window screenCoords tileStartMask).SpriteType
      ≠ .NONE)
    (hwater : (g.get_map_coordinates_from_pos_window window screenCoords tileStartMask).SpriteType
        = .WATER →
      ∃ e surface, (g.get_map_coordinates_from_pos_window window screenCoords
        tileStartMask).Element = some e ∧ e.AsSurface = some surface)
    (hx : (g.get_map_coordinates_from_pos_window window screenCoords tileStartMask).Loc.x % 32 = 0)
    (hy : (g.get_map_coordinates_from_pos_window window screenCoords tileStartMask).Loc.y % 32 = 0) :
    ∃ r calls, ViewportInteractionGetTileStartAtCursor g screenCoords = some (r, calls)
      ∧ (g.get_map_coordinates_from_pos_window window screenCoords tileStartMask).Loc.x ≤ r.x
      ∧ r.x ≤ (g.get_map_coordinates_from_pos_window window screenCoords tileStartMask).Loc.x + 31
      ∧ (g.get_map_coordinates_from_pos_window window screenCoords tileStartMask).Loc.y ≤ r.y
      ∧ r.y ≤ (g.get_map_coordinates_from_pos_window window screenCoords tileStartMask).Loc.y + 31 := by
  unfold ViewportInteractionGetTileStartAtCursor
  simp only [hw, hv]
  generalize g.get_map_coordinates_from_pos_window window screenCoords tileStartMask = info
    at hk hwater hx hy ⊢
  rw [if_neg hk]
  have hfoot : ∀ waterHeight : Int,
      info.Loc.x ≤ (tileStartLoop g info.SpriteType waterHeight
          (viewport.ScreenToViewportCoord screenCoords) info.Loc 5
          (info.Loc.add ⟨16, 16⟩, [])).1.ToTileStart.x
      ∧ (tileStartLoop g info.SpriteType waterHeight
          (viewport.ScreenToViewportCoord screenCoords) info.Loc 5
          (info.Loc.add ⟨16, 16⟩, [])).1.ToTileStart.x ≤ info.Loc.x + 31
      ∧ info.Loc.y ≤ (tileStartLoop g info.SpriteType waterHeight
          (viewport.ScreenToViewportCoord screenCoords) info.Loc 5
          (info.Loc.add ⟨16, 16⟩, [])).1.ToTileStart.y
      ∧ (tileStartLoop g info.SpriteType waterHeight
          (viewport.ScreenToViewportCoord screenCoords) info.Loc 5
          (info.Loc.add ⟨16, 16⟩, [])).1.ToTileStart.y ≤ info.Loc.y + 31 := by
    intro waterHeight
    have hloop := tileStartLoop_mem g info.SpriteType waterHeight
      (viewport.ScreenToViewportCoord screenCoords) info.Loc 5 (info.Loc.add ⟨16, 16⟩, [])
      (Or.inl (by decide))
    simp only [CoordsXY.ToTileStart]
    omega
  by_cases hW : info.SpriteType = .WATER
  · obtain ⟨e, surface, he, hs⟩ := hwater hW
    refine ⟨(tileStartLoop g info.SpriteType (toInt16 surface.GetWaterHeight)
        (viewport.ScreenToViewportCoord screenCoords) info.Loc 5
        (info.Loc.add ⟨16, 16⟩, [])).1.ToTileStart,
      (tileStartLoop g info.SpriteType (toInt16 surface.GetWaterHeight)
        (viewport.ScreenToViewportCoord screenCoords) info.Loc 5
        (info.Loc.add ⟨16, 16⟩, [])).2, ?_, hfoot (toInt16 surface.GetWaterHeight)⟩
    simp [hW, he, hs]
  · refine ⟨(tileStartLoop g info.SpriteType 0
        (viewport.ScreenToViewportCoord screenCoords) info.Loc 5
        (info.Loc.add ⟨16, 16⟩, [])).1.ToTileStart,
      (tileStartLoop g info.SpriteType 0
        (viewport.ScreenToViewportCoord screenCoords) info.Loc 5
        (info.Loc.add ⟨16, 16⟩, [])).2, ?_, hfoot 0⟩
    simp [hW]

/-- C6 (witness): terrain found at the tile origin (64, 96), on a sloped height
map with a projection that moves with the height: the result lies in
[64, 95] × [96, 127]. -/
theorem tile_start_inside_footprint_witness :
    ∃ r calls, ViewportInteractionGetTileStartAtCursor alignedTerrainState ⟨70, 100⟩
        = some (r, calls)
      ∧ (64 : Int) ≤ r.x ∧ r.x ≤ 64 + 31 ∧ (96 : Int) ≤ r.y ∧ r.y ≤ 96 + 31 :=
  tile_start_inside_footprint alignedTerrainState ⟨70, 100⟩ ⟨some ⟨0, fun p => p⟩⟩
    ⟨0, fun p => p⟩ rfl rfl (by decide) (fun h => absurd h (by decide)) (by decide) (by decide)

/-- C7: `ViewportInteractionGetTileStartAtCursor` returns the null coordinate
(x is `LOCATION_NULL`) and makes no call to the height map or to the projection
whenever no window contains the screen point, the window has no viewport, or
the initial query returns kind `NONE`. -/
theorem tile_start_null_without_target (g : GameState) (screenCoords : ScreenCoordsXY)
    (h : g.window_find_from_point screenCoords = none
      ∨ (∃ window, g.window_find_from_point screenCoords = some window
          ∧ window.viewport = none)
      ∨ (∃ window viewport, g.window_find_from_point screenCoords = some window
          ∧ window.viewport = some viewport
          ∧ (g.get_map_coordinates_from_pos_window window screenCoords tileStartMask).SpriteType
            = .NONE)) :
    ∃ r, ViewportInteractionGetTileStartAtCursor g screenCoords = some (r, [])
      ∧ r.isNull = true ∧ r.x = LOCATION_NULL := by
  unfold ViewportInteractionGetTileStartAtCursor
  rcases h with h | ⟨window, hw, hv⟩ | ⟨window, viewport, hw, hv, hk⟩
  · refine ⟨(CoordsXY.mk 0 0).setNull, ?_, by decide, rfl⟩
    simp only [h]
  · refine ⟨(CoordsXY.mk 0 0).setNull, ?_, by decide, rfl⟩
    simp only [hw, hv]
  · refine ⟨(g.get_map_coordinates_from_pos_window window screenCoords
      tileStartMask).Loc.setNull, ?_, ?_, rfl⟩
    · simp only [hw, hv, hk, if_true]
    · simp [CoordsXY.isNull, CoordsXY.setNull]

/-- C7 (witness): with no window under the cursor the result is
(`LOCATION_NULL`, 0) and no call is made. -/
theorem tile_start_null_without_target_witness :
    ∃ r, ViewportInteractionGetTileStartAtCursor playState ⟨5, 5⟩ = some (r, [])
      ∧ r.isNull = true ∧ r.x = LOCATION_NULL :=
  tile_start_null_without_target playState ⟨5, 5⟩ (Or.inl rfl)

/-- The loop of `ViewportInteractionGetClosestPeep` over a list of peeps, from
any starting pair: either no eligible peep is nearer than the starting distance
and the pair is unchanged, or the pair ends on an eligible peep `p` that is
nearer than the starting distance, strictly nearer than every eligible peep
before it in the list, and at least as near as every eligible peep after it. -/
theorem closestPeep_foldl (vp : ScreenCoordsXY) (maxDistance : Int) (l : List SpriteBase)
    (acc : Option SpriteBase × Int) :
    (l.foldl (closestPeepStep vp maxDistance) acc = acc
      ∧ ∀ q ∈ l, q.sprite_left ≠ LOCATION_NULL → peepDistance vp q ≤ maxDistance →
          acc.2 ≤ peepDistance vp q)
    ∨ ∃ pre p post, l = pre ++ p :: post
      ∧ p.sprite_left ≠ LOCATION_NULL ∧ peepDistance vp p ≤ maxDistance
      ∧ l.foldl (closestPeepStep vp maxDistance) acc = (some p, peepDistance vp p)
      ∧ peepDistance vp p < acc.2
      ∧ (∀ q ∈ pre, q.sprite_left ≠ LOCATION_NULL → peepDistance vp q ≤ maxDistance →
          peepDistance vp p < peepDistance vp q)
      ∧ (∀ q ∈ post, q.sprite_left ≠ LOCATION_NULL → peepDistance vp q ≤ maxDistance →
          peepDistance vp p ≤ peepDistance vp q) := by
  induction l generalizing acc with
  | nil =>
    left
    exact ⟨rfl, fun q hq => absurd hq (List.not_mem_nil q)⟩
  | cons a l ih =>
    rw [List.foldl_cons]
    by_cases hnew : a.sprite_left ≠ LOCATION_NULL ∧ peepDistance vp a ≤ maxDistance
        ∧ peepDistance vp a < acc.2
    · obtain ⟨ha1, ha2, ha3⟩ := hnew
      have hstep : closestPeepStep vp maxDistance acc a = (some a, peepDistance vp a) := by
        unfold closestPeepStep
        rw [if_neg ha1]
        simp only
        rw [if_neg (not_lt.mpr ha2), if_pos ha3]
      rw [hstep]
      right
      rcases ih (some a, peepDistance vp a) with ⟨hres, hall⟩ | ⟨pre, p, post, hl, hp1, hp2, hres, hlt, hpre, hpost⟩
      · exact ⟨[], a, l, rfl, ha1, ha2, hres, ha3,
          fun q hq => absurd hq (List.not_mem_nil q), hall⟩
      · refine ⟨a :: pre, p, post, by rw [hl]; rfl, hp1, hp2, hres, lt_trans hlt ha3, ?_, hpost⟩
        intro q hq hq1 hq2
        rcases List.mem_cons.mp hq with rfl | hq
        · exact hlt
        · exact hpre q hq hq1 hq2
    · have hstep : closestPeepStep vp maxDistance acc a = acc := by
        unfold closestPeepStep
        by_cases h1 : a.sprite_left = LOCATION_NULL
        · rw [if_pos h1]
        · rw [if_neg h1]
          simp only
          by_cases h2 : peepDistance vp a > maxDistance
          · rw [if_pos h2]
          · rw [if_neg h2]
            have h3 : ¬ peepDistance vp a < acc.2 := fun h3 =>
              hnew ⟨h1, not_lt.mp h2, h3⟩
            rw [if_neg h3]
      rw [hstep]
      have ha : a.sprite_left ≠ LOCATION_NULL → peepDistance vp a ≤ maxDistance →
          acc.2 ≤ peepDistance vp a := fun h1 h2 =>
        not_lt.mp (fun h3 => hnew ⟨h1, h2, h3⟩)
      rcases ih acc with ⟨hres, hall⟩ | ⟨pre, p, post, hl, hp1, hp2, hres, hlt, hpre, hpost⟩
      · left
        refine ⟨hres, ?_⟩
        intro q hq hq1 hq2
        rcases List.mem_cons.mp hq with rfl | hq
        · exact ha hq1 hq2
        · exact hall q hq hq1 hq2
      · right
        refine ⟨a :: pre, p, post, by rw [hl]; rfl, hp1, hp2, hres, hlt, ?_, hpost⟩
        intro q hq hq1 hq2
        rcases List.mem_cons.mp hq with rfl | hq
        · exact lt_of_lt_of_le hlt (ha hq1 hq2)
        · exact hpre q hq hq1 hq2

/-- With a window and a viewport of zoom below 2 under the cursor,
`ViewportInteractionGetClosestPeep` is the first component of the loop's final
pair. -/
theorem getClosestPeep_eq_foldl (g : GameState) (screenCoords : ScreenCoordsXY)
    (maxDistance : Int) (w : rct_window) (v : rct_viewport)
    (hw : g.window_find_from_point screenCoords = some w) (hv : w.viewport = some v)
    (hz : v.zoom < 2) :
    ViewportInteractionGetClosestPeep g screenCoords maxDistance
      = (g.peeps.foldl (closestPeepStep (v.ScreenToViewportCoord screenCoords) maxDistance)
          (none, INT32_MAX)).1 := by
  unfold ViewportInteractionGetClosestPeep
  simp only [hw, hv]
  rw [if_neg (not_le.mpr hz)]

/-- The result of `ViewportInteractionGetClosestPeep` with radius 32 in terms of
the distance expression of the loop: nothing with no window, no viewport or
zoom at least 2; otherwise a peep exactly when some peep with a non-null sprite
position is within the radius, and then one of these at the least distance. -/
theorem getClosestPeep_of_loop (g : GameState) (screenCoords : ScreenCoordsXY) :
    ((g.window_find_from_point screenCoords = none
        ∨ (∃ w, g.window_find_from_point screenCoords = some w ∧ w.viewport = none)
        ∨ (∃ w v, g.window_find_from_point screenCoords = some w ∧ w.viewport = some v
            ∧ v.zoom ≥ 2)) →
      ViewportInteractionGetClosestPeep g screenCoords 32 = none)
    ∧ (∀ w v, g.window_find_from_point screenCoords = some w → w.viewport = some v →
        v.zoom < 2 →
        ((∃ p, ViewportInteractionGetClosestPeep g screenCoords 32 = some p) ↔
          ∃ q ∈ g.peeps, q.sprite_left ≠ LOCATION_NULL
            ∧ peepDistance (v.ScreenToViewportCoord screenCoords) q ≤ 32)
        ∧ ∀ p, ViewportInteractionGetClosestPeep g screenCoords 32 = some p →
            p ∈ g.peeps ∧ p.sprite_left ≠ LOCATION_NULL
            ∧ peepDistance (v.ScreenToViewportCoord screenCoords) p ≤ 32
            ∧ ∀ q ∈ g.peeps, q.sprite_left ≠ LOCATION_NULL →
                peepDistance (v.ScreenToViewportCoord screenCoords) q ≤ 32 →
                peepDistance (v.ScreenToViewportCoord screenCoords) p
                  ≤ peepDistance (v.ScreenToViewportCoord screenCoords) q) := by
  constructor
  · rintro (h | ⟨w, hw, hv⟩ | ⟨w, v, hw, hv, hz⟩)
    · simp only [ViewportInteractionGetClosestPeep, h]
    · simp only [ViewportInteractionGetClosestPeep, hw, hv]
    · simp only [ViewportInteractionGetClosestPeep, hw, hv]
      rw [if_pos hz]
  · intro w v hw hv hz
    rw [getClosestPeep_eq_foldl g screenCoords 32 w v hw hv hz]
    rcases closestPeep_foldl (v.ScreenToViewportCoord screenCoords) 32 g.peeps (none, INT32_MAX)
      with ⟨hres, hall⟩ | ⟨pre, p, post, hl, hp1, hp2, hres, _, hpre, hpost⟩
    · rw [hres]
      have hnone : ¬ ∃ q ∈ g.peeps, q.sprite_left ≠ LOCATION_NULL
          ∧ peepDistance (v.ScreenToViewportCoord screenCoords) q ≤ 32 := by
        rintro ⟨q, hq, hq1, hq2⟩
        have := hall q hq hq1 hq2
        simp only [INT32_MAX] at this
        omega
      refine ⟨⟨?_, fun h => absurd h hnone⟩, ?_⟩
      · rintro ⟨p, hp⟩
        cases hp
      · intro p hp
        cases hp
    · rw [hres]
      have hmem : p ∈ g.peeps := by
        rw [hl]
        exact List.mem_append_right pre (List.mem_cons_self p post)
      refine ⟨⟨fun _ => ⟨p, hmem, hp1, hp2⟩, fun _ => ⟨p, rfl⟩⟩, ?_⟩
      intro p2 hp
      cases hp
      refine ⟨hmem, hp1, hp2, ?_⟩
      intro q hq hq1 hq2
      rw [hl] at hq
      rcases List.mem_append.mp hq with hq | hq
      · exact le_of_lt (hpre q hq hq1 hq2)
      · rcases List.mem_cons.mp hq with rfl | hq
        · exact le_refl _
        · exact hpost q hq hq1 hq2

/-- The distance expression of the loop of `ViewportInteractionGetClosestPeep`
is the Manhattan distance between the centre of the peep's sprite box and the
viewport coordinate. -/
theorem peepDistance_eq_manhattan (viewportCoords : ScreenCoordsXY) (peep : SpriteBase) :
    peepDistance viewportCoords peep
      = manhattanDistance (spriteBoxCentre peep) viewportCoords := by
  unfold peepDistance manhattanDistance spriteBoxCentre abs
  simp only
  split <;> split <;> omega

/-- C8: `ViewportInteractionGetClosestPeep` with radius 32. With no window, no
viewport or zoom at least 2 nothing is returned. In a viewport with zoom below 2,
a peep is returned if and only if some peep with a non-null sprite position has
Manhattan distance at most 32 between the centre of its sprite box and the
cursor's viewport coordinate; the returned peep is such a peep, and no eligible
peep is strictly nearer. The centre is the midpoint of the box edges in whole
pixels: twice the centre is the sum of the two edges, or one nearer zero when
the sum is odd. -/
theorem closest_peep_within_radius (g : GameState) (screenCoords : ScreenCoordsXY) :
    ((g.window_find_from_point screenCoords = none
        ∨ (∃ w, g.window_find_from_point screenCoords = some w ∧ w.viewport = none)
        ∨ (∃ w v, g.window_find_from_point screenCoords = some w ∧ w.viewport = some v
            ∧ v.zoom ≥ 2)) →
      ViewportInteractionGetClosestPeep g screenCoords 32 = none)
    ∧ (∀ w v, g.window_find_from_point screenCoords = some w → w.viewport = some v →
        v.zoom < 2 →
        ((∃ p, ViewportInteractionGetClosestPeep g screenCoords 32 = some p) ↔
          ∃ q ∈ g.peeps, q.sprite_left ≠ LOCATION_NULL
            ∧ manhattanDistance (spriteBoxCentre q) (v.ScreenToViewportCoord screenCoords) ≤ 32)
        ∧ ∀ p, ViewportInteractionGetClosestPeep g screenCoords 32 = some p →
            p ∈ g.peeps ∧ p.sprite_left ≠ LOCATION_NULL
            ∧ manhattanDistance (spriteBoxCentre p) (v.ScreenToViewportCoord screenCoords) ≤ 32
            ∧ ∀ q ∈ g.peeps, q.sprite_left ≠ LOCATION_NULL →
                manhattanDistance (spriteBoxCentre q) (v.ScreenToViewportCoord screenCoords)
                  ≤ 32 →
                manhattanDistance (spriteBoxCentre p) (v.ScreenToViewportCoord screenCoords)
                  ≤ manhattanDistance (spriteBoxCentre q)
                      (v.ScreenToViewportCoord screenCoords))
    ∧ (∀ entity : SpriteBase,
        (2 * (spriteBoxCentre entity).x = entity.sprite_left + entity.sprite_right
          ∨ (0 < entity.sprite_left + entity.sprite_right
            ∧ 2 * (spriteBoxCentre entity).x + 1 = entity.sprite_left + entity.sprite_right)
          ∨ (entity.sprite_left + entity.sprite_right < 0
            ∧ 2 * (spriteBoxCentre entity).x - 1 = entity.sprite_left + entity.sprite_right))
        ∧ (2 * (spriteBoxCentre entity).y = entity.sprite_top + entity.sprite_bottom
          ∨ (0 < entity.sprite_top + entity.sprite_bottom
            ∧ 2 * (spriteBoxCentre entity).y + 1 = entity.sprite_top + entity.sprite_bottom)
          ∨ (entity.sprite_top + entity.sprite_bottom < 0
            ∧ 2 * (spriteBoxCentre entity).y - 1 = entity.sprite_top + entity.sprite_bottom))) := by
  have hloop := getClosestPeep_of_loop g screenCoords
  simp only [peepDistance_eq_manhattan] at hloop
  refine ⟨hloop.1, hloop.2, ?_⟩
  have hmid : ∀ s : Int, 2 * s.tdiv 2 = s ∨ (0 < s ∧ 2 * s.tdiv 2 + 1 = s)
      ∨ (s < 0 ∧ 2 * s.tdiv 2 - 1 = s) := by
    intro s
    rcases le_or_lt 0 s with h | h
    · rw [Int.tdiv_eq_ediv h (by decide)]
      omega
    · have h2 := Int.neg_tdiv (-s) 2
      rw [neg_neg] at h2
      rw [h2, Int.tdiv_eq_ediv (by omega) (by decide)]
      omega
  intro entity
  exact ⟨hmid _, hmid _⟩

/-- C8 (witness): the cursor is at the viewport coordinate (-10, -5). The peep
with the null sprite position is skipped although its box is centred on the
cursor, the peep at distance 40 is outside the radius, and of the peeps at
distances 25 and 15, on either side of the cursor and off its row, the one at
15 is returned. -/
theorem closest_peep_within_radius_witness :
    ViewportInteractionGetClosestPeep scatteredPeepState ⟨40, 45⟩ 32
      = some (peepWithBox 2 (-14) 6 (-24) (-4))
    ∧ spriteBoxCentre (peepWithBox 1 (-37) (-22) (-18) (-5)) = ⟨-29, -11⟩
    ∧ manhattanDistance (spriteBoxCentre (peepWithBox 1 (-37) (-22) (-18) (-5))) ⟨-10, -5⟩ = 25
    ∧ manhattanDistance (spriteBoxCentre (peepWithBox 2 (-14) 6 (-24) (-4))) ⟨-10, -5⟩ = 15
    ∧ manhattanDistance (spriteBoxCentre (peepWithBox 3 (-10) (-10) 30 40)) ⟨-10, -5⟩ = 40
    ∧ manhattanDistance (spriteBoxCentre (peepWithBox 4 LOCATION_NULL 32748 (-5) (-5)))
        ⟨-10, -5⟩ = 0
    ∧ ∃ q ∈ scatteredPeepState.peeps, q.sprite_left ≠ LOCATION_NULL
        ∧ manhattanDistance (spriteBoxCentre q) ⟨-10, -5⟩ ≤ 32 :=
  ⟨by decide, by decide, by decide, by decide, by decide, by decide,
    (((closest_peep_within_radius scatteredPeepState ⟨40, 45⟩).2.1
      ⟨some ⟨0, fun p => ⟨p.x - 50, p.y - 50⟩⟩⟩ ⟨0, fun p => ⟨p.x - 50, p.y - 50⟩⟩
      rfl rfl (by decide)).1).mp ⟨peepWithBox 2 (-14) 6 (-24) (-4), by decide⟩⟩

/-- C9: when `ViewportInteractionGetClosestPeep` returns a peep `p`, the entity
list splits at `p` so that every eligible peep before `p` is strictly farther
from the cursor and every eligible peep after `p` is at least as far: among the
eligible peeps that share the minimal distance, the first in iteration order
is returned. -/
theorem closest_peep_first_of_ties (g : GameState) (screenCoords : ScreenCoordsXY)
    (maxDistance : Int) (w : rct_window) (v : rct_viewport)
    (hw : g.window_find_from_point screenCoords = some w) (hv : w.viewport = some v)
    (hz : v.zoom < 2) (p : SpriteBase)
    (hp : ViewportInteractionGetClosestPeep g screenCoords maxDistance = some p) :
    ∃ pre post, g.peeps = pre ++ p :: post
      ∧ (∀ q ∈ pre, q.sprite_left ≠ LOCATION_NULL →
          peepDistance (v.ScreenToViewportCoord screenCoords) q ≤ maxDistance →
          peepDistance (v.ScreenToViewportCoord screenCoords) p
            < peepDistance (v.ScreenToViewportCoord screenCoords) q)
      ∧ (∀ q ∈ post, q.sprite_left ≠ LOCATION_NULL →
          peepDistance (v.ScreenToViewportCoord screenCoords) q ≤ maxDistance →
          peepDistance (v.ScreenToViewportCoord screenCoords) p
            ≤ peepDistance (v.ScreenToViewportCoord screenCoords) q) := by
  rw [getClosestPeep_eq_foldl g screenCoords maxDistance w v hw hv hz] at hp
  rcases closestPeep_foldl (v.ScreenToViewportCoord screenCoords) maxDistance g.peeps
      (none, INT32_MAX)
    with ⟨hres, _⟩ | ⟨pre, p2, post, hl, _, _, hres, _, hpre, hpost⟩
  · rw [hres] at hp
    cases hp
  · rw [hres] at hp
    cases hp
    exact ⟨pre, post, hl, hpre, hpost⟩

/-- C9 (witness): of two peeps at the same distance 10, the one met first in the
list is returned, and the peep before it is strictly farther. -/
theorem closest_peep_first_of_ties_witness :
    ViewportInteractionGetClosestPeep tiedPeepState ⟨100, 210⟩ 32 = some (peepAt 2 110 210)
    ∧ peepDistance ⟨100, 210⟩ (peepAt 2 110 210) = peepDistance ⟨100, 210⟩ (peepAt 3 90 210)
    ∧ ∃ pre post, tiedPeepState.peeps = pre ++ peepAt 2 110 210 :: post
      ∧ (∀ q ∈ pre, q.sprite_left ≠ LOCATION_NULL → peepDistance ⟨100, 210⟩ q ≤ 32 →
          peepDistance ⟨100, 210⟩ (peepAt 2 110 210) < peepDistance ⟨100, 210⟩ q)
      ∧ (∀ q ∈ post, q.sprite_left ≠ LOCATION_NULL → peepDistance ⟨100, 210⟩ q ≤ 32 →
          peepDistance ⟨100, 210⟩ (peepAt 2 110 210) ≤ peepDistance ⟨100, 210⟩ q) :=
  ⟨by decide, by decide,
    closest_peep_first_of_ties tiedPeepState ⟨100, 210⟩ 32 ⟨some ⟨0, fun p => p⟩⟩
      ⟨0, fun p => p⟩ rfl rfl (by decide) (peepAt 2 110 210) (by decide)⟩

/-- The station loop, run over the slots `0 .. n-1`, subtracts from the
running index the number of those slots whose start location is null. -/
theorem stationNumberLoop_eq (stations : List RideStation) (n : Nat) (acc : Int)
    (hn : n ≤ stations.length) :
    stationNumberLoop stations n acc
      = some (acc - ((stations.take n).countP (fun st => st.Start.isNull) : Nat)) := by
  induction n generalizing acc with
  | zero => simp [stationNumberLoop]
  | succ i ih =>
    have hi : i < stations.length := hn
    unfold stationNumberLoop
    rw [List.getElem?_eq_getElem hi]
    simp only
    rw [ih _ (le_of_lt hi), List.take_succ, List.getElem?_eq_getElem hi]
    simp only [Option.toList, List.countP_append, List.countP_cons, List.countP_nil]
    by_cases hnull : stations[i].Start.isNull = true
    · simp only [hnull, if_true]
      congr 1
      push_cast
      omega
    · simp only [hnull]
      congr 1

/-- Outside the refused modes, a query result of kind `RIDE` is handled by the
ride case of the first switch. -/
theorem getItemRight_of_ride (g : GameState) (screenCoords : ScreenCoordsXY)
    (hmode : g.rightRefused = false)
    (hkind : (g.get_map_coordinates_from_pos screenCoords rightMask).SpriteType = .RIDE) :
    ViewportInteractionGetItemRight g screenCoords
      = ViewportInteractionGetItemRight.ride g
          (g.get_map_coordinates_from_pos screenCoords rightMask) := by
  have h1 : (g.gScreenFlags .SCREEN_FLAGS_TITLE_DEMO
      || g.gScreenFlags .SCREEN_FLAGS_TRACK_MANAGER) = false := by
    unfold GameState.rightRefused at hmode
    simp only [Bool.or_eq_false_iff] at hmode ⊢
    exact hmode.1
  have h2 : (g.gScreenFlags .SCREEN_FLAGS_TRACK_DESIGNER
      && g.editor_step != EDITOR_STEP_ROLLERCOASTER_DESIGNER) = false := by
    unfold GameState.rightRefused at hmode
    simp only [Bool.or_eq_false_iff] at hmode
    exact hmode.2
  unfold ViewportInteractionGetItemRight
  rw [h1, h2]
  simp [hkind]

/-- In the slots `0 .. s` of a station list with more than `s` slots, the slots
with a non-null start are the `s + 1` slots less the null ones. -/
theorem countP_non_null (stations : List RideStation) (s : Nat) (hs : s < stations.length) :
    ((s : Int) - ((stations.take (s + 1)).countP (fun st => st.Start.isNull) : Nat) + 1)
      = ((stations.take (s + 1)).countP (fun st => !st.Start.isNull) : Nat) := by
  have hlen : (stations.take (s + 1)).length = s + 1 := by
    rw [List.length_take]
    omega
  have hsum := List.length_eq_countP_add_countP (fun st : RideStation => st.Start.isNull)
    (stations.take (s + 1))
  have hcongr : (stations.take (s + 1)).countP (fun st => decide ¬ st.Start.isNull = true)
      = (stations.take (s + 1)).countP (fun st => !st.Start.isNull) := by
    congr 1
    funext st
    cases st.Start.isNull <;> rfl
  rw [hlen, hcongr] at hsum
  omega

/-- The `uint16_t` written for the station number is the count itself: the
count is at most 256, since a station index is a `uint8_t`. -/
theorem toUInt16_station_count (stations : List RideStation) (s : Nat) (hs : s < 256) :
    toUInt16 (((stations.take (s + 1)).countP (fun st => !st.Start.isNull) : Nat) : Int)
      = (stations.take (s + 1)).countP (fun st => !st.Start.isNull) := by
  have hle := List.countP_le_length (fun st : RideStation => !st.Start.isNull)
    (l := stations.take (s + 1))
  have hlen : (stations.take (s + 1)).length ≤ s + 1 := by
    rw [List.length_take]
    omega
  unfold toUInt16
  omega

/-- C10: for every closed ride and every clicked ride entrance, exit or station
element with station index `s` below the number of station slots (outside
scenario-editor mode and the refused screen modes, where no tooltip is
written), `ViewportInteractionGetItemRight` returns the query result and sets a
tooltip whose last argument, the 1-based station number, is the count of the
stations `0 .. s` whose start location is non-null. -/
theorem station_number_counts_non_null (g : GameState) (screenCoords : ScreenCoordsXY)
    (e : TileElement) (ride : Ride) (s : Nat)
    (hmode : g.rightRefused = false)
    (hed : g.gScreenFlags .SCREEN_FLAGS_SCENARIO_EDITOR = false)
    (hkind : (g.get_map_coordinates_from_pos screenCoords rightMask).SpriteType = .RIDE)
    (hel : (g.get_map_coordinates_from_pos screenCoords rightMask).Element = some e)
    (hstation : (∃ v, e.AsEntrance = some v ∧ v.GetStationIndex = s)
      ∨ (∃ t, e.AsTrack = some t ∧ t.IsStation = true ∧ t.GetStationIndex = s))
    (hride : g.get_ride e.GetRideIndex = some ride)
    (hclosed : ride.status = RIDE_STATUS_CLOSED)
    (hs : s < ride.stations.length) :
    ∃ ft, ViewportInteractionGetItemRight g screenCoords
      = some ⟨g.get_map_coordinates_from_pos screenCoords rightMask,
          some (ft ++ [.uint16
            ((ride.stations.take (s + 1)).countP (fun st => !st.Start.isNull))])⟩ := by
  rw [getItemRight_of_ride g screenCoords hmode hkind]
  generalize g.get_map_coordinates_from_pos screenCoords rightMask = info at hkind hel ⊢
  have hs256 : s < 256 := by
    rcases hstation with ⟨v, _, hv⟩ | ⟨t, _, _, ht⟩
    · rw [← hv]
      exact Nat.mod_lt _ (by decide)
    · rw [← ht]
      exact Nat.mod_lt _ (by decide)
  have hloop := stationNumberLoop_eq ride.stations (s + 1) s hs
  have hcount : toUInt16 ((s : Int)
      - ((ride.stations.take (s + 1)).countP (fun st => st.Start.isNull) : Nat) + 1)
      = (ride.stations.take (s + 1)).countP (fun st => !st.Start.isNull) := by
    rw [countP_non_null _ _ hs]
    exact toUInt16_station_count _ _ hs256
  obtain ⟨dir, bz, last, ri, pl⟩ := e
  cases pl <;> simp [TileElement.AsEntrance, TileElement.AsTrack] at hstation
  · rename_i t
    refine ⟨[.string_id .STR_MAP_TOOLTIP_STRINGID_CLICK_TO_MODIFY,
      .string_id (if ride.num_stations > 1 then .STR_RIDE_STATION_X else .STR_RIDE_STATION)]
      ++ ride.nameArgs ++ [.string_id (g.RideComponentName ride.type)], ?_⟩
    simp [ViewportInteractionGetItemRight.ride, hed, hel, TileElement.GetType, hride, hclosed,
      TileElement.AsTrack, hstation, Ride.FormatNameTo, hloop, hcount]
  · rename_i v
    refine ⟨[.string_id .STR_MAP_TOOLTIP_STRINGID_CLICK_TO_MODIFY,
      .string_id (if v.GetEntranceType = ENTRANCE_TYPE_RIDE_ENTRANCE then
          (if ride.num_stations > 1 then .STR_RIDE_STATION_X_ENTRANCE else .STR_RIDE_ENTRANCE)
        else
          (if ride.num_stations > 1 then .STR_RIDE_STATION_X_EXIT else .STR_RIDE_EXIT))]
      ++ ride.nameArgs ++ [.string_id (g.RideComponentName ride.type)], ?_⟩
    simp [ViewportInteractionGetItemRight.ride, hed, hel, TileElement.GetType, hride, hclosed,
      TileElement.AsEntrance, hstation, Ride.FormatNameTo, hloop, hcount]

/-- C10 (witness): the platform with station index 2 of a closed ride whose
slot 1 is unused is numbered 2. -/
theorem station_number_counts_non_null_witness :
    ∃ ft, ViewportInteractionGetItemRight closedRideState ⟨0, 0⟩
      = some ⟨⟨⟨64, 64⟩, some stationTrackElement, none, .RIDE⟩,
          some (ft ++ [.uint16 2])⟩ :=
  station_number_counts_non_null closedRideState ⟨0, 0⟩ stationTrackElement closedRide 2
    (by decide) rfl rfl rfl (Or.inr ⟨⟨true, 2⟩, rfl, rfl, rfl⟩) rfl rfl (by decide)

/-- The tooltip `ViewportInteractionGetItemRight` sets for a station part of a
closed ride: click-to-modify, the label (singular or indexed), the ride name,
the station component name and the station number. -/
theorem ride_station_tooltip (g : GameState) (screenCoords : ScreenCoordsXY)
    (e : TileElement) (ride : Ride) (part : StationPart)
    (hmode : g.rightRefused = false)
    (hed : g.gScreenFlags .SCREEN_FLAGS_SCENARIO_EDITOR = false)
    (hkind : (g.get_map_coordinates_from_pos screenCoords rightMask).SpriteType = .RIDE)
    (hel : (g.get_map_coordinates_from_pos screenCoords rightMask).Element = some e)
    (hpart : e.stationPart = some part)
    (hride : g.get_ride e.GetRideIndex = some ride)
    (hclosed : ride.status = RIDE_STATUS_CLOSED)
    (hs : e.stationIndex < ride.stations.length) :
    ViewportInteractionGetItemRight g screenCoords
      = some ⟨g.get_map_coordinates_from_pos screenCoords rightMask,
          some (.string_id .STR_MAP_TOOLTIP_STRINGID_CLICK_TO_MODIFY
            :: .string_id (if ride.num_stations > 1 then part.indexed else part.singular)
            :: (ride.nameArgs ++ [.string_id (g.RideComponentName ride.type),
              .uint16 (toUInt16 ((e.stationIndex : Int)
                - ((ride.stations.take (e.stationIndex + 1)).countP
                    (fun st => st.Start.isNull) : Nat) + 1))]))⟩ := by
  rw [getItemRight_of_ride g screenCoords hmode hkind]
  generalize g.get_map_coordinates_from_pos screenCoords rightMask = info at hkind hel ⊢
  have hloop := stationNumberLoop_eq ride.stations (e.stationIndex + 1) e.stationIndex hs
  obtain ⟨dir, bz, last, ri, pl⟩ := e
  cases pl <;> simp [TileElement.stationPart] at hpart
  · rename_i t
    obtain ⟨ht, rfl⟩ := hpart
    simp only [TileElement.stationIndex] at hloop hs ⊢
    simp [ViewportInteractionGetItemRight.ride, hed, hel, TileElement.GetType, hride, hclosed,
      TileElement.AsTrack, ht, Ride.FormatNameTo, hloop, StationPart.indexed,
      StationPart.singular]
  · rename_i v
    simp only [TileElement.stationIndex] at hloop hs ⊢
    by_cases hent : v.GetEntranceType = ENTRANCE_TYPE_RIDE_ENTRANCE
    · simp only [hent, if_true, Option.some.injEq] at hpart
      subst hpart
      simp [ViewportInteractionGetItemRight.ride, hed, hel, TileElement.GetType, hride,
        hclosed, TileElement.AsEntrance, hent, Ride.FormatNameTo, hloop, StationPart.indexed,
        StationPart.singular]
    · simp only [hent, if_false] at hpart
      split at hpart
      · simp only [Option.some.injEq] at hpart
        subst hpart
        simp [ViewportInteractionGetItemRight.ride, hed, hel, TileElement.GetType, hride,
          hclosed, TileElement.AsEntrance, hent, Ride.FormatNameTo, hloop,
          StationPart.indexed, StationPart.singular]
      · cases hpart

/-- C11: for a closed ride, a ride-entrance, ride-exit or station-track element
yields the singular label (`STR_RIDE_ENTRANCE`, `STR_RIDE_EXIT`,
`STR_RIDE_STATION`) as the second tooltip argument when `num_stations = 1`, and
the indexed variant (`STR_RIDE_STATION_X_ENTRANCE`, `STR_RIDE_STATION_X_EXIT`,
`STR_RIDE_STATION_X`) when `num_stations > 1`. Stated where the tooltip is
written: outside the refused modes and scenario-editor mode, with the element's
station index inside the ride's station slots. -/
theorem station_label_pluralization (g : GameState) (screenCoords : ScreenCoordsXY)
    (e : TileElement) (ride : Ride) (part : StationPart)
    (hmode : g.rightRefused = false)
    (hed : g.gScreenFlags .SCREEN_FLAGS_SCENARIO_EDITOR = false)
    (hkind : (g.get_map_coordinates_from_pos screenCoords rightMask).SpriteType = .RIDE)
    (hel : (g.get_map_coordinates_from_pos screenCoords rightMask).Element = some e)
    (hpart : e.stationPart = some part)
    (hride : g.get_ride e.GetRideIndex = some ride)
    (hclosed : ride.status = RIDE_STATUS_CLOSED)
    (hs : e.stationIndex < ride.stations.length) :
    (ride.num_stations = 1 → ∃ rest, ViewportInteractionGetItemRight g screenCoords
      = some ⟨g.get_map_coordinates_from_pos screenCoords rightMask,
          some (.string_id .STR_MAP_TOOLTIP_STRINGID_CLICK_TO_MODIFY
            :: .string_id part.singular :: rest)⟩)
    ∧ (ride.num_stations > 1 → ∃ rest, ViewportInteractionGetItemRight g screenCoords
      = some ⟨g.get_map_coordinates_from_pos screenCoords rightMask,
          some (.string_id .STR_MAP_TOOLTIP_STRINGID_CLICK_TO_MODIFY
            :: .string_id part.indexed :: rest)⟩) := by
  have h := ride_station_tooltip g screenCoords e ride part hmode hed hkind hel hpart hride
    hclosed hs
  constructor
  · intro h1
    have hn : ¬ ride.num_stations > 1 := by omega
    rw [if_neg hn] at h
    exact ⟨_, h⟩
  · intro h1
    rw [if_pos h1] at h
    exact ⟨_, h⟩

/-- C11 (witness): the exit of a closed ride with one station is labelled
`STR_RIDE_EXIT`, the station platform of a closed ride with three stations
`STR_RIDE_STATION_X`. -/
theorem station_label_pluralization_witness :
    (∃ rest, ViewportInteractionGetItemRight singleStationState ⟨0, 0⟩
      = some ⟨⟨⟨64, 64⟩, some rideExitElement, none, .RIDE⟩,
          some (.string_id .STR_MAP_TOOLTIP_STRINGID_CLICK_TO_MODIFY
            :: .string_id .STR_RIDE_EXIT :: rest)⟩)
    ∧ (∃ rest, ViewportInteractionGetItemRight closedRideState ⟨0, 0⟩
      = some ⟨⟨⟨64, 64⟩, some stationTrackElement, none, .RIDE⟩,
          some (.string_id .STR_MAP_TOOLTIP_STRINGID_CLICK_TO_MODIFY
            :: .string_id .STR_RIDE_STATION_X :: rest)⟩) :=
  ⟨(station_label_pluralization singleStationState ⟨0, 0⟩ rideExitElement singleStationRide
      .RideExit (by decide) rfl rfl rfl (by decide) rfl rfl (by decide)).1 rfl,
   (station_label_pluralization closedRideState ⟨0, 0⟩ stationTrackElement closedRide
      .Station (by decide) rfl rfl rfl (by decide) rfl rfl (by decide)).2 (by decide)⟩

/-- In a refused screen mode `ViewportInteractionGetItemLeft` returns the empty
`InteractionInfo` and makes no call. -/
theorem getItemLeft_of_refused (g : GameState) (screenCoords : ScreenCoordsXY)
    (hmode : g.leftRefused = true) :
    ViewportInteractionGetItemLeft g screenCoords = some ⟨InteractionInfo.empty, []⟩ := by
  unfold ViewportInteractionGetItemLeft
  unfold GameState.leftRefused at hmode
  by_cases h1 : (g.gScreenFlags .SCREEN_FLAGS_SCENARIO_EDITOR
      || g.gScreenFlags .SCREEN_FLAGS_TRACK_MANAGER) = true
  · rw [if_pos h1]
  · rw [if_neg h1]
    have h2 : (g.gScreenFlags .SCREEN_FLAGS_TRACK_DESIGNER
        && g.editor_step != EDITOR_STEP_ROLLERCOASTER_DESIGNER) = true := by
      simp only [Bool.not_eq_true] at h1
      rw [h1] at hmode
      simpa using hmode
    rw [if_pos h2]

/-- Outside the refused modes, in title/demo mode, `ViewportInteractionGetItemLeft`
queries the world and returns after the block at lines 74-83. -/
theorem getItemLeft_of_title (g : GameState) (screenCoords : ScreenCoordsXY)
    (hmode : g.leftRefused = false)
    (htitle : g.gScreenFlags .SCREEN_FLAGS_TITLE_DEMO = true) :
    ViewportInteractionGetItemLeft g screenCoords
      = (if (g.get_map_coordinates_from_pos screenCoords leftMask).SpriteType = .SPRITE then
          (g.get_map_coordinates_from_pos screenCoords leftMask).Entity.bind fun sprite =>
            if sprite.Is .Balloon || sprite.Is .Duck then
              some ⟨g.get_map_coordinates_from_pos screenCoords leftMask,
                [.get_map_coordinates_from_pos screenCoords leftMask]⟩
            else
              some ⟨{ g.get_map_coordinates_from_pos screenCoords leftMask with
                  SpriteType := .NONE },
                [.get_map_coordinates_from_pos screenCoords leftMask]⟩
        else
          some ⟨{ g.get_map_coordinates_from_pos screenCoords leftMask with
              SpriteType := .NONE },
            [.get_map_coordinates_from_pos screenCoords leftMask]⟩) := by
  have h1 : (g.gScreenFlags .SCREEN_FLAGS_SCENARIO_EDITOR
      || g.gScreenFlags .SCREEN_FLAGS_TRACK_MANAGER) = false := by
    unfold GameState.leftRefused at hmode
    simp only [Bool.or_eq_false_iff] at hmode ⊢
    exact hmode.1
  have h2 : (g.gScreenFlags .SCREEN_FLAGS_TRACK_DESIGNER
      && g.editor_step != EDITOR_STEP_ROLLERCOASTER_DESIGNER) = false := by
    unfold GameState.leftRefused at hmode
    simp only [Bool.or_eq_false_iff] at hmode
    exact hmode.2
  unfold ViewportInteractionGetItemLeft
  rw [h1, h2]
  simp [htitle]

/-- Outside the refused modes and title/demo mode, `ViewportInteractionGetItemLeft`
queries the world, handles the result by kind and runs the fallback. -/
theorem getItemLeft_of_play (g : GameState) (screenCoords : ScreenCoordsXY)
    (hmode : g.leftRefused = false)
    (htitle : g.gScreenFlags .SCREEN_FLAGS_TITLE_DEMO = false) :
    ViewportInteractionGetItemLeft g screenCoords
      = (ViewportInteractionGetItemLeft.perKind g
          (g.get_map_coordinates_from_pos screenCoords leftMask)).bind fun r =>
          some (ViewportInteractionGetItemLeft.fallback g screenCoords
            ⟨r.info, [.get_map_coordinates_from_pos screenCoords leftMask] ++ r.calls⟩) := by
  have h1 : (g.gScreenFlags .SCREEN_FLAGS_SCENARIO_EDITOR
      || g.gScreenFlags .SCREEN_FLAGS_TRACK_MANAGER) = false := by
    unfold GameState.leftRefused at hmode
    simp only [Bool.or_eq_false_iff] at hmode ⊢
    exact hmode.1
  have h2 : (g.gScreenFlags .SCREEN_FLAGS_TRACK_DESIGNER
      && g.editor_step != EDITOR_STEP_ROLLERCOASTER_DESIGNER) = false := by
    unfold GameState.leftRefused at hmode
    simp only [Bool.or_eq_false_iff] at hmode
    exact hmode.2
  unfold ViewportInteractionGetItemLeft
  rw [h1, h2]
  simp [htitle]

/-- C12: `ViewportInteractionGetItemLeft` in title/demo mode (the title-demo
flag set, and none of the refusing modes). If the query result is a Sprite whose
entity is a Balloon or a Duck, the query result is returned unchanged. For every
other query result (another entity, a tile-element kind, or nothing) the
returned kind is `NONE`. In both cases the only call made is the spatial query:
no tooltip is set and the search for a nearby peep is not run. -/
theorem title_demo_reports_only_balloon_and_duck (g : GameState)
    (screenCoords : ScreenCoordsXY) (hmode : g.leftRefused = false)
    (htitle : g.gScreenFlags .SCREEN_FLAGS_TITLE_DEMO = true) :
    (∀ sprite, (g.get_map_coordinates_from_pos screenCoords leftMask).SpriteType = .SPRITE →
      (g.get_map_coordinates_from_pos screenCoords leftMask).Entity = some sprite →
      (sprite.Is .Balloon = true ∨ sprite.Is .Duck = true) →
      ViewportInteractionGetItemLeft g screenCoords
        = some ⟨g.get_map_coordinates_from_pos screenCoords leftMask,
            [.get_map_coordinates_from_pos screenCoords leftMask]⟩)
    ∧ (((g.get_map_coordinates_from_pos screenCoords leftMask).SpriteType ≠ .SPRITE
        ∨ ∃ sprite, (g.get_map_coordinates_from_pos screenCoords leftMask).Entity = some sprite
          ∧ sprite.Is .Balloon = false ∧ sprite.Is .Duck = false) →
      ∃ r, ViewportInteractionGetItemLeft g screenCoords = some r
        ∧ r.info.SpriteType = .NONE
        ∧ r.calls = [.get_map_coordinates_from_pos screenCoords leftMask]
        ∧ r.calls.any LeftCall.setsTooltip = false
        ∧ LeftCall.ViewportInteractionGetClosestPeep screenCoords 32 ∉ r.calls) := by
  rw [getItemLeft_of_title g screenCoords hmode htitle]
  generalize g.get_map_coordinates_from_pos screenCoords leftMask = info
  constructor
  · intro sprite hk he hb
    rw [if_pos hk, he]
    rcases hb with hb | hb <;> simp [hb]
  · rintro (hk | ⟨sprite, he, hb, hd⟩)
    · rw [if_neg hk]
      exact ⟨_, rfl, rfl, rfl, by simp [LeftCall.setsTooltip], by simp⟩
    · by_cases hk : info.SpriteType = .SPRITE
      · rw [if_pos hk, he]
        refine ⟨⟨{ info with SpriteType := .NONE },
          [.get_map_coordinates_from_pos screenCoords leftMask]⟩, ?_, rfl, rfl,
          by simp [LeftCall.setsTooltip], by simp⟩
        simp [hb, hd]
      · rw [if_neg hk]
        exact ⟨_, rfl, rfl, rfl, by simp [LeftCall.setsTooltip], by simp⟩

/-- C12 (witness): on the title screen a balloon under the cursor is returned
as the query found it. -/
theorem title_demo_reports_only_balloon_and_duck_witness :
    ViewportInteractionGetItemLeft titleBalloonState ⟨0, 0⟩
      = some ⟨balloonInfo, [.get_map_coordinates_from_pos ⟨0, 0⟩ leftMask]⟩ :=
  (title_demo_reports_only_balloon_and_duck titleBalloonState ⟨0, 0⟩ (by decide) rfl).1
    balloonEntity rfl rfl (Or.inl (by decide))

/-- C13: `ViewportInteractionGetItemLeft` returns kind `NONE` and makes no call
(no query of the world, no tooltip, no search for a nearby peep) whenever the
screen flags include scenario-editor or track-manager, or include
track-designer while the editor step is not the roller-coaster-designer step. -/
theorem left_refused_modes_return_none (g : GameState) (screenCoords : ScreenCoordsXY)
    (h : g.gScreenFlags .SCREEN_FLAGS_SCENARIO_EDITOR = true
      ∨ g.gScreenFlags .SCREEN_FLAGS_TRACK_MANAGER = true
      ∨ (g.gScreenFlags .SCREEN_FLAGS_TRACK_DESIGNER = true
        ∧ g.editor_step ≠ EDITOR_STEP_ROLLERCOASTER_DESIGNER)) :
    ∃ r, ViewportInteractionGetItemLeft g screenCoords = some r
      ∧ r.info.SpriteType = .NONE ∧ r.calls = [] := by
  have hmode : g.leftRefused = true := by
    unfold GameState.leftRefused
    rcases h with h | h | ⟨h, hstep⟩
    · simp [h]
    · simp [h]
    · simp [h, hstep]
  exact ⟨_, getItemLeft_of_refused g screenCoords hmode, rfl, rfl⟩

/-- C13 (witness): in the scenario editor a balloon under the cursor is not
reported and no call is made. -/
theorem left_refused_modes_return_none_witness :
    ∃ r, ViewportInteractionGetItemLeft editorBalloonState ⟨0, 0⟩ = some r
      ∧ r.info.SpriteType = .NONE ∧ r.calls = [] :=
  left_refused_modes_return_none editorBalloonState ⟨0, 0⟩ (Or.inl rfl)

/-- C14: `ViewportInteractionGetItemRight` returns kind `NONE` and sets no
tooltip whenever the screen flags include title-demo or track-manager, or
include track-designer while the editor step is not the roller-coaster-designer
step. The world is not consulted: the result is the value-initialised info,
the same in every state with these screen flags and editor step, whatever its
spatial query and other collaborators answer. -/
theorem right_refused_modes_return_none (g : GameState) (screenCoords : ScreenCoordsXY)
    (h : g.gScreenFlags .SCREEN_FLAGS_TITLE_DEMO = true
      ∨ g.gScreenFlags .SCREEN_FLAGS_TRACK_MANAGER = true
      ∨ (g.gScreenFlags .SCREEN_FLAGS_TRACK_DESIGNER = true
        ∧ g.editor_step ≠ EDITOR_STEP_ROLLERCOASTER_DESIGNER)) :
    (∃ r, ViewportInteractionGetItemRight g screenCoords = some r
      ∧ r.info.SpriteType = .NONE ∧ r.tooltip = none)
    ∧ ∀ g2 : GameState, g2.gScreenFlags = g.gScreenFlags → g2.editor_step = g.editor_step →
        ViewportInteractionGetItemRight g2 screenCoords
          = some ⟨InteractionInfo.empty, none⟩ := by
  have hmode : g.rightRefused = true := by
    unfold GameState.rightRefused
    rcases h with h | h | ⟨h, hstep⟩
    · simp [h]
    · simp [h]
    · simp [h, hstep]
  refine ⟨⟨_, getItemRight_of_refused g screenCoords hmode, rfl, rfl⟩, ?_⟩
  intro g2 hflags hstep
  apply getItemRight_of_refused
  unfold GameState.rightRefused at hmode ⊢
  rw [hflags, hstep]
  exact hmode

/-- C14 (witness): in the track manager a scenery element under the cursor is
not reported and no tooltip is set. -/
theorem right_refused_modes_return_none_witness :
    ∃ r, ViewportInteractionGetItemRight trackManagerState ⟨0, 0⟩ = some r
      ∧ r.info.SpriteType = .NONE ∧ r.tooltip = none :=
  (right_refused_modes_return_none trackManagerState ⟨0, 0⟩ (Or.inr (Or.inl rfl))).1

/-- The switch of `ViewportInteractionGetItemLeft` returns when a query result
of kind `SPRITE` refers to an entity; its result is the query result
unchanged, of kind `SPRITE`, `RIDE` or `PARK`, or the query result with kind
`NONE`. -/
theorem perKind_spec (g : GameState) (info : InteractionInfo)
    (hwf : info.SpriteType = .SPRITE → info.Entity.isSome = true) :
    ∃ r, ViewportInteractionGetItemLeft.perKind g info = some r
      ∧ (r.info = { info with SpriteType := .NONE }
        ∨ (r.info = info ∧ (info.SpriteType = .SPRITE ∨ info.SpriteType = .RIDE
            ∨ info.SpriteType = .PARK))) := by
  obtain ⟨loc, el, en, k⟩ := info
  cases k <;> simp [ViewportInteractionGetItemLeft.perKind]
  -- the case SPRITE remains
  simp only [Option.isSome_iff_exists, forall_const] at hwf
  obtain ⟨sprite, rfl⟩ := hwf
  simp only [Option.some_bind]
  cases hid : sprite.sprite_identifier <;> simp
  · cases hv : sprite.As .Vehicle
    · simp
    · simp
      split <;> simp
  · cases hv : sprite.As .Peep <;> simp

/-- The switch of `ViewportInteractionGetItemLeft` collapses every kind other
than `SPRITE`, `RIDE` and `PARK` to `NONE`, without a call. -/
theorem perKind_of_unhandled (g : GameState) (info : InteractionInfo)
    (h1 : info.SpriteType ≠ .SPRITE) (h2 : info.SpriteType ≠ .RIDE)
    (h3 : info.SpriteType ≠ .PARK) :
    ViewportInteractionGetItemLeft.perKind g info
      = some ⟨{ info with SpriteType := .NONE }, []⟩ := by
  obtain ⟨loc, el, en, k⟩ := info
  cases k <;> simp_all [ViewportInteractionGetItemLeft.perKind]

/-- The fallback of `ViewportInteractionGetItemLeft` on a result of kind `NONE`:
the peep found by the search, as a `SPRITE` at the peep's position, or the
result unchanged when the search finds nothing. -/
theorem fallback_of_none (g : GameState) (screenCoords : ScreenCoordsXY) (r : LeftResult)
    (hk : r.info.SpriteType = .NONE) :
    (∀ p, ViewportInteractionGetClosestPeep g screenCoords 32 = some p →
      ViewportInteractionGetItemLeft.fallback g screenCoords r
        = ⟨{ Loc := ⟨p.x, p.y⟩, Element := none, Entity := some p, SpriteType := .SPRITE },
            r.calls ++ [.ViewportInteractionGetClosestPeep screenCoords 32,
              .peep_set_map_tooltip p]⟩)
    ∧ (ViewportInteractionGetClosestPeep g screenCoords 32 = none →
      ViewportInteractionGetItemLeft.fallback g screenCoords r
        = ⟨r.info, r.calls ++ [.ViewportInteractionGetClosestPeep screenCoords 32]⟩) := by
  unfold ViewportInteractionGetItemLeft.fallback
  rw [if_pos hk]
  constructor
  · intro p hp
    rw [hp]
  · intro hp
    rw [hp]

/-- The fallback of `ViewportInteractionGetItemLeft` leaves a result of another
kind than `NONE` unchanged. -/
theorem fallback_of_found (g : GameState) (screenCoords : ScreenCoordsXY) (r : LeftResult)
    (hk : r.info.SpriteType ≠ .NONE) :
    ViewportInteractionGetItemLeft.fallback g screenCoords r = r := by
  unfold ViewportInteractionGetItemLeft.fallback
  rw [if_neg hk]

/-- The switch of `ViewportInteractionGetItemLeft` gives kind `NONE`, without a
call, on the unresolved query results. -/
theorem perKind_of_unresolved (g : GameState) (info : InteractionInfo)
    (h : info.leftUnresolved = true) :
    ViewportInteractionGetItemLeft.perKind g info
      = some ⟨{ info with SpriteType := .NONE }, []⟩ := by
  obtain ⟨loc, el, en, k⟩ := info
  cases k <;> simp [InteractionInfo.leftUnresolved] at h <;>
    simp [ViewportInteractionGetItemLeft.perKind]
  -- the case SPRITE remains
  cases en with
  | none => simp at h
  | some sprite =>
    simp only [Option.some_bind] at h ⊢
    cases hid : sprite.sprite_identifier <;> simp [hid] at h ⊢
    · cases hv : sprite.As .Vehicle <;> simp [hv] at h ⊢
      exact h
    · simp [h]

/-- Outside the refused modes, `ViewportInteractionGetItemRight` collapses a
query result of kind `NONE`, `TERRAIN`, `WATER` or `LABEL` to `NONE`. -/
theorem getItemRight_of_unhandled (g : GameState) (screenCoords : ScreenCoordsXY)
    (hmode : g.rightRefused = false)
    (hkind : (g.get_map_coordinates_from_pos screenCoords rightMask).SpriteType = .NONE
      ∨ (g.get_map_coordinates_from_pos screenCoords rightMask).SpriteType = .TERRAIN
      ∨ (g.get_map_coordinates_from_pos screenCoords rightMask).SpriteType = .WATER
      ∨ (g.get_map_coordinates_from_pos screenCoords rightMask).SpriteType = .LABEL) :
    ViewportInteractionGetItemRight g screenCoords
      = some (collapse (g.get_map_coordinates_from_pos screenCoords rightMask)) := by
  have h1 : (g.gScreenFlags .SCREEN_FLAGS_TITLE_DEMO
      || g.gScreenFlags .SCREEN_FLAGS_TRACK_MANAGER) = false := by
    unfold GameState.rightRefused at hmode
    simp only [Bool.or_eq_false_iff] at hmode ⊢
    exact hmode.1
  have h2 : (g.gScreenFlags .SCREEN_FLAGS_TRACK_DESIGNER
      && g.editor_step != EDITOR_STEP_ROLLERCOASTER_DESIGNER) = false := by
    unfold GameState.rightRefused at hmode
    simp only [Bool.or_eq_false_iff] at hmode
    exact hmode.2
  unfold ViewportInteractionGetItemRight
  rw [h1, h2]
  generalize g.get_map_coordinates_from_pos screenCoords rightMask = info at hkind ⊢
  rcases hkind with hk | hk | hk | hk <;>
    simp [hk, ViewportInteractionGetItemRight.removal]

/-- C15 (amended): when the spatial query returns kind `NONE`,
`ViewportInteractionGetItemRight` returns kind `NONE` for every screen mode and
tool state, and `ViewportInteractionGetItemLeft` returns kind `NONE` in the
refused modes, in title/demo mode, and whenever the search for a peep within
radius 32 returns nothing. -/
theorem none_query_resolves_to_none (g : GameState) (screenCoords : ScreenCoordsXY) :
    ((g.get_map_coordinates_from_pos screenCoords rightMask).SpriteType = .NONE →
      ∃ r, ViewportInteractionGetItemRight g screenCoords = some r
        ∧ r.info.SpriteType = .NONE)
    ∧ ((g.get_map_coordinates_from_pos screenCoords leftMask).SpriteType = .NONE →
      (g.leftRefused = true ∨ g.gScreenFlags .SCREEN_FLAGS_TITLE_DEMO = true
        ∨ ViewportInteractionGetClosestPeep g screenCoords 32 = none) →
      ∃ r, ViewportInteractionGetItemLeft g screenCoords = some r
        ∧ r.info.SpriteType = .NONE) := by
  constructor
  · intro hk
    cases hmode : g.rightRefused
    · exact ⟨_, getItemRight_of_unhandled g screenCoords hmode (Or.inl hk), rfl⟩
    · exact ⟨_, getItemRight_of_refused g screenCoords hmode, rfl⟩
  · intro hk hcase
    cases hmode : g.leftRefused
    · cases htitle : g.gScreenFlags .SCREEN_FLAGS_TITLE_DEMO
      · have hsearch : ViewportInteractionGetClosestPeep g screenCoords 32 = none := by
          rcases hcase with h | h | h
          · rw [hmode] at h
            cases h
          · rw [htitle] at h
            cases h
          · exact h
        rw [getItemLeft_of_play g screenCoords hmode htitle,
          perKind_of_unhandled g _ (by rw [hk]; decide) (by rw [hk]; decide)
            (by rw [hk]; decide)]
        simp only [Option.some_bind]
        rw [(fallback_of_none g screenCoords _ rfl).2 hsearch]
        exact ⟨_, rfl, rfl⟩
      · rw [getItemLeft_of_title g screenCoords hmode htitle, if_neg (by rw [hk]; decide)]
        exact ⟨_, rfl, rfl⟩
    · exact ⟨_, getItemLeft_of_refused g screenCoords hmode, rfl⟩

/-- C15 (witness): in ordinary play with nothing under the cursor and no window
under it, both pipelines return `NONE`. -/
theorem none_query_resolves_to_none_witness :
    (∃ r, ViewportInteractionGetItemRight playState ⟨0, 0⟩ = some r
      ∧ r.info.SpriteType = .NONE)
    ∧ (∃ r, ViewportInteractionGetItemLeft playState ⟨0, 0⟩ = some r
      ∧ r.info.SpriteType = .NONE) :=
  ⟨(none_query_resolves_to_none playState ⟨0, 0⟩).1 rfl,
   (none_query_resolves_to_none playState ⟨0, 0⟩).2 rfl (Or.inr (Or.inr rfl))⟩

/-- C15 (counterexample): in ordinary play the query finds nothing (kind
`NONE`), and a peep stands at Manhattan distance 10 from the cursor:
`ViewportInteractionGetItemLeft` returns kind `SPRITE` with that peep, not
`NONE`. -/
theorem none_query_left_finds_nearby_peep :
    (twoPeepState.get_map_coordinates_from_pos ⟨100, 210⟩ leftMask).SpriteType = .NONE
    ∧ twoPeepState.leftRefused = false
    ∧ (ViewportInteractionGetItemLeft twoPeepState ⟨100, 210⟩).map
        (fun r => (r.info.SpriteType, r.info.Entity))
      = some (.SPRITE, some (peepAt 2 110 210))
    ∧ ¬ ∃ r, ViewportInteractionGetItemLeft twoPeepState ⟨100, 210⟩ = some r
        ∧ r.info.SpriteType = .NONE := by
  refine ⟨rfl, by decide, by decide, ?_⟩
  rintro ⟨r, hr, hk⟩
  have hval : (ViewportInteractionGetItemLeft twoPeepState ⟨100, 210⟩).map
      (fun r => r.info.SpriteType) = some .SPRITE := by decide
  rw [hr] at hval
  simp only [Option.map_some', Option.some.injEq] at hval
  rw [hk] at hval
  cases hval

/-- C16: outside title/demo mode and the refused modes, when the handling by
kind leaves the kind `NONE` (nothing found, an unhandled kind, or a stale
vehicle or peep reference) and the search for the closest peep with radius 32
returns a peep `p`, `ViewportInteractionGetItemLeft` returns kind `SPRITE` with
entity `p` and location `(p.x, p.y)`, and sets the tooltip of `p`; when the
search returns nothing the result stays `NONE`. -/
theorem fallback_reports_closest_peep (g : GameState) (screenCoords : ScreenCoordsXY)
    (hmode : g.leftRefused = false)
    (htitle : g.gScreenFlags .SCREEN_FLAGS_TITLE_DEMO = false)
    (hun : (g.get_map_coordinates_from_pos screenCoords leftMask).leftUnresolved = true) :
    (∀ p, ViewportInteractionGetClosestPeep g screenCoords 32 = some p →
      ∃ r, ViewportInteractionGetItemLeft g screenCoords = some r
        ∧ r.info.SpriteType = .SPRITE ∧ r.info.Entity = some p
        ∧ r.info.Loc = ⟨p.x, p.y⟩
        ∧ r.calls = [.get_map_coordinates_from_pos screenCoords leftMask,
            .ViewportInteractionGetClosestPeep screenCoords 32, .peep_set_map_tooltip p])
    ∧ (ViewportInteractionGetClosestPeep g screenCoords 32 = none →
      ∃ r, ViewportInteractionGetItemLeft g screenCoords = some r
        ∧ r.info.SpriteType = .NONE
        ∧ r.calls = [.get_map_coordinates_from_pos screenCoords leftMask,
            .ViewportInteractionGetClosestPeep screenCoords 32]) := by
  rw [getItemLeft_of_play g screenCoords hmode htitle, perKind_of_unresolved g _ hun]
  simp only [Option.some_bind]
  constructor
  · intro p hp
    rw [(fallback_of_none g screenCoords _ rfl).1 p hp]
    exact ⟨_, rfl, rfl, rfl, rfl, rfl⟩
  · intro hp
    rw [(fallback_of_none g screenCoords _ rfl).2 hp]
    exact ⟨_, rfl, rfl, rfl⟩

/-- C16 (witness): the query finds a vehicle with a null ride subtype and a
peep stands near the cursor: the peep is returned, at its position (7, 9). -/
theorem fallback_reports_closest_peep_witness :
    ∃ r, ViewportInteractionGetItemLeft staleVehicleState ⟨100, 210⟩ = some r
      ∧ r.info.SpriteType = .SPRITE
      ∧ r.info.Entity = some { peepAt 2 110 210 with x := 7, y := 9 }
      ∧ r.info.Loc = ⟨7, 9⟩
      ∧ r.calls = [.get_map_coordinates_from_pos ⟨100, 210⟩ leftMask,
          .ViewportInteractionGetClosestPeep ⟨100, 210⟩ 32,
          .peep_set_map_tooltip { peepAt 2 110 210 with x := 7, y := 9 }] :=
  (fallback_reports_closest_peep staleVehicleState ⟨100, 210⟩ (by decide) rfl (by decide)).1
    { peepAt 2 110 210 with x := 7, y := 9 } (by decide)

/-- Every result of the removal part of `ViewportInteractionGetItemRight` is
the collapsed info, or the info unchanged with one of the six removable kinds. -/
theorem removal_result (g : GameState) (info : InteractionInfo) (r : ItemResult)
    (hr : ViewportInteractionGetItemRight.removal g info = some r) :
    r.info.SpriteType = .NONE
    ∨ (r.info = info ∧ (info.SpriteType = .SCENERY ∨ info.SpriteType = .FOOTPATH
        ∨ info.SpriteType = .FOOTPATH_ITEM ∨ info.SpriteType = .PARK
        ∨ info.SpriteType = .WALL ∨ info.SpriteType = .LARGE_SCENERY)) := by
  unfold ViewportInteractionGetItemRight.removal at hr
  simp only [collapse] at hr
  split at hr
  · cases hr
    exact Or.inl rfl
  · split at hr
    all_goals
      first
        | (cases hr; exact Or.inl rfl)
        | (rename_i hk
           simp only [Option.bind_eq_bind, Option.bind_eq_some, Option.some.injEq] at hr
           obtain ⟨_, _, _, _, _, _, rfl⟩ := hr
           exact Or.inr ⟨rfl, by simp [hk]⟩)
        | (rename_i hk
           split at hr
           · cases hr
             exact Or.inl rfl
           · simp only [Option.bind_eq_bind, Option.bind_eq_some] at hr
             obtain ⟨_, _, hr⟩ := hr
             split at hr
             · cases hr
               exact Or.inl rfl
             · cases hr
               exact Or.inr ⟨rfl, by simp [hk]⟩)

/-- Every result of the ride case of `ViewportInteractionGetItemRight` is the
collapsed info or the info unchanged. -/
theorem ride_result (g : GameState) (info : InteractionInfo) (r : ItemResult)
    (hr : ViewportInteractionGetItemRight.ride g info = some r) :
    r.info.SpriteType = .NONE ∨ r.info = info := by
  unfold ViewportInteractionGetItemRight.ride at hr
  simp only [collapse] at hr
  repeat' first
    | (cases hr <;> first | exact Or.inl rfl | exact Or.inr rfl)
    | split at hr
    | (obtain ⟨_, -, hr⟩ := Option.bind_eq_some.mp hr)

/-- Every result of `ViewportInteractionGetItemRight` has kind `NONE`, or is
the query result unchanged with one of the nine kinds the function handles. -/
theorem getItemRight_result (g : GameState) (screenCoords : ScreenCoordsXY) (r : ItemResult)
    (hr : ViewportInteractionGetItemRight g screenCoords = some r) :
    r.info.SpriteType = .NONE
    ∨ (r.info = g.get_map_coordinates_from_pos screenCoords rightMask
      ∧ r.info.SpriteType ∈ [ViewportInteractionItem.SPRITE, .RIDE, .SCENERY, .FOOTPATH,
          .FOOTPATH_ITEM, .PARK, .WALL, .LARGE_SCENERY, .BANNER]) := by
  unfold ViewportInteractionGetItemRight at hr
  simp only [collapse] at hr
  generalize g.get_map_coordinates_from_pos screenCoords rightMask = info at hr ⊢
  repeat' first
    | (cases hr <;> first | exact Or.inl rfl | exact Or.inr ⟨rfl, by simp [*]⟩)
    | (refine (removal_result g info r hr).elim Or.inl (fun h => Or.inr ⟨h.1, ?_⟩)
       rw [h.1]
       rcases h.2 with h2 | h2 | h2 | h2 | h2 | h2 <;> simp [h2])
    | (refine (ride_result g info r hr).elim Or.inl (fun h => Or.inr ⟨h, ?_⟩)
       rw [h]
       simp [*])
    | split at hr
    | (obtain ⟨_, -, hr⟩ := Option.bind_eq_some.mp hr)

/-- The kinds `ViewportInteractionGetItemLeft` can return, with the entity a
result of kind `SPRITE` refers to. -/
theorem fallback_result (g : GameState) (screenCoords : ScreenCoordsXY) (r : LeftResult)
    (hk : r.info.SpriteType ∈ [ViewportInteractionItem.NONE, .SPRITE, .RIDE, .PARK])
    (he : r.info.SpriteType = .SPRITE → r.info.Entity.isSome = true) :
    (ViewportInteractionGetItemLeft.fallback g screenCoords r).info.SpriteType
        ∈ [ViewportInteractionItem.NONE, .SPRITE, .RIDE, .PARK]
    ∧ ((ViewportInteractionGetItemLeft.fallback g screenCoords r).info.SpriteType = .SPRITE →
      (ViewportInteractionGetItemLeft.fallback g screenCoords r).info.Entity.isSome = true) := by
  unfold ViewportInteractionGetItemLeft.fallback
  split
  · split <;> simp_all
  · exact ⟨hk, he⟩

/-- Every result of `ViewportInteractionGetItemLeft` has kind `NONE`, `SPRITE`,
`RIDE` or `PARK`, and a result of kind `SPRITE` refers to an entity. -/
theorem getItemLeft_result (g : GameState) (screenCoords : ScreenCoordsXY) (r : LeftResult)
    (hr : ViewportInteractionGetItemLeft g screenCoords = some r) :
    r.info.SpriteType ∈ [ViewportInteractionItem.NONE, .SPRITE, .RIDE, .PARK]
    ∧ (r.info.SpriteType = .SPRITE → r.info.Entity.isSome = true) := by
  cases hmode : g.leftRefused
  · cases htitle : g.gScreenFlags .SCREEN_FLAGS_TITLE_DEMO
    · rw [getItemLeft_of_play g screenCoords hmode htitle] at hr
      obtain ⟨r0, hr0, hr⟩ := Option.bind_eq_some.mp hr
      cases hr
      apply fallback_result
      · have hper : r0.info.SpriteType ∈ [ViewportInteractionItem.NONE, .SPRITE, .RIDE, .PARK] := by
          unfold ViewportInteractionGetItemLeft.perKind at hr0
          repeat' first
            | (cases hr0 <;> simp [*])
            | split at hr0
            | (obtain ⟨_, -, hr0⟩ := Option.bind_eq_some.mp hr0)
        exact hper
      · intro hs
        have hper : r0.info.SpriteType = .SPRITE → r0.info.Entity.isSome = true := by
          unfold ViewportInteractionGetItemLeft.perKind at hr0
          repeat' first
            | (cases hr0 <;> simp_all)
            | split at hr0
            | (obtain ⟨_, hE, hr0⟩ := Option.bind_eq_some.mp hr0)
        exact hper hs
    · rw [getItemLeft_of_title g screenCoords hmode htitle] at hr
      repeat' first
        | (cases hr <;> simp_all)
        | split at hr
        | (obtain ⟨_, hE, hr⟩ := Option.bind_eq_some.mp hr)
  · rw [getItemLeft_of_refused g screenCoords hmode] at hr
    cases hr
    exact ⟨by simp [InteractionInfo.empty], by simp [InteractionInfo.empty]⟩

/-- `ViewportInteractionGetItemLeft` returns whenever a query result of kind
`SPRITE` refers to an entity. -/
theorem getItemLeft_returns (g : GameState) (screenCoords : ScreenCoordsXY)
    (hwf : (g.get_map_coordinates_from_pos screenCoords leftMask).SpriteType = .SPRITE →
      (g.get_map_coordinates_from_pos screenCoords leftMask).Entity.isSome = true) :
    ∃ r, ViewportInteractionGetItemLeft g screenCoords = some r := by
  cases hmode : g.leftRefused
  · cases htitle : g.gScreenFlags .SCREEN_FLAGS_TITLE_DEMO
    · rw [getItemLeft_of_play g screenCoords hmode htitle]
      obtain ⟨r0, hr0, _⟩ := perKind_spec g _ hwf
      rw [hr0]
      exact ⟨_, rfl⟩
    · rw [getItemLeft_of_title g screenCoords hmode htitle]
      split
      · rename_i hk
        obtain ⟨sprite, hs⟩ := Option.isSome_iff_exists.mp (hwf hk)
        rw [hs]
        simp only [Option.some_bind]
        split <;> exact ⟨_, rfl⟩
      · exact ⟨_, rfl⟩
  · exact ⟨_, getItemLeft_of_refused g screenCoords hmode⟩

/-- C17: the kind returned by `ViewportInteractionGetItemRight` is always one
of `NONE`, `SPRITE`, `RIDE`, `SCENERY`, `FOOTPATH`, `FOOTPATH_ITEM`, `PARK`,
`WALL`, `LARGE_SCENERY`, `BANNER`, never `TERRAIN`, `WATER` or `LABEL`, and the
kind returned by `ViewportInteractionGetItemLeft` is always one of `NONE`,
`SPRITE`, `RIDE`, `PARK`. A query result of a kind the function does not handle
is returned with kind `NONE` by the secondary pipeline, and the primary
pipeline returns on it too. -/
theorem returned_kinds_are_handled_kinds (g : GameState) (screenCoords : ScreenCoordsXY) :
    (∀ r, ViewportInteractionGetItemRight g screenCoords = some r →
      r.info.SpriteType ∈ [ViewportInteractionItem.NONE, .SPRITE, .RIDE, .SCENERY, .FOOTPATH,
          .FOOTPATH_ITEM, .PARK, .WALL, .LARGE_SCENERY, .BANNER]
      ∧ r.info.SpriteType ≠ .TERRAIN ∧ r.info.SpriteType ≠ .WATER
      ∧ r.info.SpriteType ≠ .LABEL)
    ∧ (∀ r, ViewportInteractionGetItemLeft g screenCoords = some r →
      r.info.SpriteType ∈ [ViewportInteractionItem.NONE, .SPRITE, .RIDE, .PARK])
    ∧ (((g.get_map_coordinates_from_pos screenCoords rightMask).SpriteType = .TERRAIN
        ∨ (g.get_map_coordinates_from_pos screenCoords rightMask).SpriteType = .WATER
        ∨ (g.get_map_coordinates_from_pos screenCoords rightMask).SpriteType = .LABEL) →
      ∃ r, ViewportInteractionGetItemRight g screenCoords = some r
        ∧ r.info.SpriteType = .NONE)
    ∧ ((g.get_map_coordinates_from_pos screenCoords leftMask).SpriteType ≠ .SPRITE →
      ∃ r, ViewportInteractionGetItemLeft g screenCoords = some r
        ∧ r.info.SpriteType ∈ [ViewportInteractionItem.NONE, .SPRITE, .RIDE, .PARK]) := by
  refine ⟨?_, ?_, ?_, ?_⟩
  · intro r hr
    have hmem : r.info.SpriteType ∈ [ViewportInteractionItem.NONE, .SPRITE, .RIDE, .SCENERY,
        .FOOTPATH, .FOOTPATH_ITEM, .PARK, .WALL, .LARGE_SCENERY, .BANNER] := by
      rcases getItemRight_result g screenCoords r hr with h | ⟨_, h⟩
      · simp [h]
      · simp only [List.mem_cons, List.mem_singleton, List.not_mem_nil, or_false] at h ⊢
        exact Or.inr h
    refine ⟨hmem, ?_, ?_, ?_⟩ <;>
    · intro hk
      rw [hk] at hmem
      simp at hmem
  · intro r hr
    exact (getItemLeft_result g screenCoords r hr).1
  · intro hk
    cases hmode : g.rightRefused
    · exact ⟨_, getItemRight_of_unhandled g screenCoords hmode (Or.inr hk), rfl⟩
    · exact ⟨_, getItemRight_of_refused g screenCoords hmode, rfl⟩
  · intro hk
    obtain ⟨r, hr⟩ := getItemLeft_returns g screenCoords (fun h => absurd h hk)
    exact ⟨r, hr, (getItemLeft_result g screenCoords r hr).1⟩

/-- C17 (witness): terrain under the cursor is returned with kind `NONE` by
both pipelines. -/
theorem returned_kinds_are_handled_kinds_witness :
    (∃ r, ViewportInteractionGetItemRight terrainState ⟨0, 0⟩ = some r
      ∧ r.info.SpriteType = .NONE)
    ∧ ViewportInteractionGetItemLeft terrainState ⟨0, 0⟩
      = some ⟨⟨⟨32, 32⟩, none, none, .NONE⟩,
          [.get_map_coordinates_from_pos ⟨0, 0⟩ leftMask,
           .ViewportInteractionGetClosestPeep ⟨0, 0⟩ 32]⟩ :=
  ⟨(returned_kinds_are_handled_kinds terrainState ⟨0, 0⟩).2.2.1 (Or.inl rfl), by decide⟩

/-- C18: `ViewportInteractionLeftClick` reports handled exactly when the
primary pipeline resolves to kind `SPRITE`, `RIDE` or `PARK`, and not handled
for every other kind; `ViewportInteractionLeftOver` returns the same boolean
in the same state. Both return whenever a query result of kind `SPRITE`
refers to an entity. -/
theorem left_click_handled_iff_resolved (g : GameState) (screenCoords : ScreenCoordsXY)
    (hwf : (g.get_map_coordinates_from_pos screenCoords leftMask).SpriteType = .SPRITE →
      (g.get_map_coordinates_from_pos screenCoords leftMask).Entity.isSome = true) :
    ∃ r c, ViewportInteractionGetItemLeft g screenCoords = some r
      ∧ ViewportInteractionLeftClick g screenCoords = some c
      ∧ (c.handled = true ↔ (r.info.SpriteType = .SPRITE ∨ r.info.SpriteType = .RIDE
          ∨ r.info.SpriteType = .PARK))
      ∧ (c.handled = false ↔ (r.info.SpriteType ≠ .SPRITE ∧ r.info.SpriteType ≠ .RIDE
          ∧ r.info.SpriteType ≠ .PARK))
      ∧ ViewportInteractionLeftOver g screenCoords = some (c.handled, r.calls) := by
  obtain ⟨r, hr⟩ := getItemLeft_returns g screenCoords hwf
  obtain ⟨hkind, hent⟩ := getItemLeft_result g screenCoords r hr
  unfold ViewportInteractionLeftClick ViewportInteractionLeftOver
  rw [hr]
  simp only [Option.bind_eq_bind, Option.some_bind]
  obtain ⟨⟨loc, el, en, k⟩, calls⟩ := r
  simp only [List.mem_cons, List.mem_singleton, List.not_mem_nil, or_false] at hkind
  rcases hkind with hk | hk | hk | hk <;> subst hk
  · exact ⟨_, _, rfl, rfl, by simp, by simp, rfl⟩
  · obtain ⟨entity, rfl⟩ := Option.isSome_iff_exists.mp (hent rfl)
    simp only [Option.some_bind]
    cases hid : entity.sprite_identifier
    · exact ⟨_, _, rfl, rfl, by simp, by simp, rfl⟩
    · exact ⟨_, _, rfl, rfl, by simp, by simp, rfl⟩
    · simp only
      split
      · split
        · exact ⟨_, _, rfl, rfl, by simp, by simp, rfl⟩
        · split
          · split <;> exact ⟨_, _, rfl, rfl, by simp, by simp, rfl⟩
          · exact ⟨_, _, rfl, rfl, by simp, by simp, rfl⟩
      · exact ⟨_, _, rfl, rfl, by simp, by simp, rfl⟩
    · exact ⟨_, _, rfl, rfl, by simp, by simp, rfl⟩
    · exact ⟨_, _, rfl, rfl, by simp, by simp, rfl⟩
  · exact ⟨_, _, rfl, rfl, by simp, by simp, rfl⟩
  · exact ⟨_, _, rfl, rfl, by simp, by simp, rfl⟩

/-- C18 (witness): a click on a balloon in ordinary play is handled (and pops
the balloon); hovering over it returns the same boolean. -/
theorem left_click_handled_iff_resolved_witness :
    ViewportInteractionLeftClick playBalloonState ⟨0, 0⟩
      = some ⟨true, [.get_map_coordinates_from_pos ⟨0, 0⟩ leftMask],
          [.Execute (.BalloonPressAction 9)]⟩
    ∧ ViewportInteractionLeftOver playBalloonState ⟨0, 0⟩
      = some (true, [.get_map_coordinates_from_pos ⟨0, 0⟩ leftMask])
    ∧ ∃ r c, ViewportInteractionGetItemLeft playBalloonState ⟨0, 0⟩ = some r
      ∧ ViewportInteractionLeftClick playBalloonState ⟨0, 0⟩ = some c
      ∧ (c.handled = true ↔ (r.info.SpriteType = .SPRITE ∨ r.info.SpriteType = .RIDE
          ∨ r.info.SpriteType = .PARK))
      ∧ (c.handled = false ↔ (r.info.SpriteType ≠ .SPRITE ∧ r.info.SpriteType ≠ .RIDE
          ∧ r.info.SpriteType ≠ .PARK))
      ∧ ViewportInteractionLeftOver playBalloonState ⟨0, 0⟩ = some (c.handled, r.calls) :=
  ⟨by decide, by decide,
    left_click_handled_iff_resolved playBalloonState ⟨0, 0⟩ (fun _ => by decide)⟩

/-- C19: the removal policy of walls and large scenery. If the element's
scenery entry has scrolling text enabled (the element carries a sign banner),
the dispatcher opens the sign detail window for the element's banner index and
executes no action; otherwise it executes exactly one removal action, with the
clicked x and y, the element's base Z and direction (and the sequence index for
large scenery), and opens no window. -/
theorem wall_and_large_scenery_removal_policy (e : TileElement) (c : CoordsXY) :
    (∀ wall entry, e.AsWall = some wall → wall.GetEntry = some entry →
      (entry.scrolling_mode ≠ SCROLLING_MODE_NONE →
        ViewportInteractionRemoveParkWall e c
          = some [.context_open_detail_window .WD_SIGN_SMALL wall.GetBannerIndex])
      ∧ (entry.scrolling_mode = SCROLLING_MODE_NONE →
        ViewportInteractionRemoveParkWall e c
          = some [.Execute (.WallRemoveAction ⟨c.x, c.y, e.GetBaseZ, e.GetDirection⟩)]))
    ∧ (∀ scenery entry, e.AsLargeScenery = some scenery → scenery.GetEntry = some entry →
      (entry.scrolling_mode ≠ SCROLLING_MODE_NONE →
        ViewportInteractionRemoveLargeScenery e c
          = some [.context_open_detail_window .WD_SIGN scenery.GetBannerIndex])
      ∧ (entry.scrolling_mode = SCROLLING_MODE_NONE →
        ViewportInteractionRemoveLargeScenery e c
          = some [.Execute (.LargeSceneryRemoveAction
              ⟨c.x, c.y, e.GetBaseZ, e.GetDirection⟩ scenery.GetSequenceIndex)])) := by
  constructor
  · intro wall entry hw he
    constructor <;> intro hs <;>
      simp [ViewportInteractionRemoveParkWall, hw, he, hs]
  · intro scenery entry hw he
    constructor <;> intro hs <;>
      simp [ViewportInteractionRemoveLargeScenery, hw, he, hs]

/-- C19 (witness): a wall sign opens the small-sign window for banner 12, a
plain wall is removed at the clicked place; a large-scenery sign opens the sign
window for banner 13, a plain large-scenery element is removed with its
sequence index 4. -/
theorem wall_and_large_scenery_removal_policy_witness :
    ViewportInteractionRemoveParkWall signWallElement ⟨64, 96⟩
      = some [.context_open_detail_window .WD_SIGN_SMALL 12]
    ∧ ViewportInteractionRemoveParkWall plainWallElement ⟨64, 96⟩
      = some [.Execute (.WallRemoveAction ⟨64, 96, 16, 1⟩)]
    ∧ ViewportInteractionRemoveLargeScenery signSceneryElement ⟨64, 96⟩
      = some [.context_open_detail_window .WD_SIGN 13]
    ∧ ViewportInteractionRemoveLargeScenery plainSceneryElement ⟨64, 96⟩
      = some [.Execute (.LargeSceneryRemoveAction ⟨64, 96, 32, 2⟩ 4)] :=
  ⟨((wall_and_large_scenery_removal_policy signWallElement ⟨64, 96⟩).1 _ _ rfl rfl).1
      (by decide),
   ((wall_and_large_scenery_removal_policy plainWallElement ⟨64, 96⟩).1 _ _ rfl rfl).2 rfl,
   ((wall_and_large_scenery_removal_policy signSceneryElement ⟨64, 96⟩).2 _ _ rfl rfl).1
      (by decide),
   ((wall_and_large_scenery_removal_policy plainSceneryElement ⟨64, 96⟩).2 _ _ rfl rfl).2 rfl⟩

/-- The scan of `ViewportInteractionRemoveFootpath` over a stack `init ++ [last]`
whose only element marked last-for-tile is `last`, followed in memory by
anything: it returns, issues the removal exactly when the stack holds a path
element at base z `z`, and reads at most the elements of the stack. -/
theorem removeFootpathScan_stack (z : Int) (c : CoordsXY) (init : List TileElement)
    (last : TileElement) (following : List TileElement) (reads : Nat)
    (hinit : ∀ e ∈ init, e.IsLastForTile = false) (hlast : last.IsLastForTile = true) :
    ∃ n, removeFootpathScan z c (init ++ last :: following) reads
        = some (if (init ++ [last]).any (fun e => decide (e.GetType = .Path ∧ e.GetBaseZ = z))
            then [.footpath_remove ⟨c.x, c.y, z⟩ GAME_COMMAND_FLAG_APPLY] else [], n)
      ∧ reads < n ∧ n ≤ reads + (init ++ [last]).length := by
  induction init generalizing reads with
  | nil =>
    simp only [List.nil_append, removeFootpathScan, List.any_cons, List.any_nil, Bool.or_false,
      List.length_singleton]
    by_cases hp : last.GetType = .Path ∧ last.GetBaseZ = z
    · exact ⟨reads + 1, by simp [hp], by omega, by omega⟩
    · exact ⟨reads + 1, by simp [hp, hlast], by omega, by omega⟩
  | cons a init ih =>
    have ha : a.IsLastForTile = false := hinit a (List.mem_cons_self a init)
    simp only [List.cons_append, removeFootpathScan, List.any_cons, List.length_cons]
    by_cases hp : a.GetType = .Path ∧ a.GetBaseZ = z
    · exact ⟨reads + 1, by simp [hp], by omega, by omega⟩
    · obtain ⟨n, hn, h1, h2⟩ := ih (reads + 1)
        (fun e he => hinit e (List.mem_cons_of_mem a he))
      refine ⟨n, ?_, by omega, by omega⟩
      simp only [hp, ha, if_false, decide_False, Bool.false_or, Bool.false_eq_true]
      exact hn

/-- C20: `ViewportInteractionRemoveFootpath` on a clicked element `e` at `c`,
with `z` the base Z of `e`. When the cell at `c` has an element stack
`init ++ [last]` terminated by its only last-for-tile element `last` (whatever
follows it in memory), the function returns; `footpath_remove` at `(c.x, c.y, z)`
is issued exactly once if the stack contains a path element with base Z `z`
and not at all otherwise; and at most the elements of the stack are read, so
none past `last`. When the cell has no stack, nothing is removed and nothing is
read. The only other effect is the provisional-path update when a footpath
window is open. -/
theorem footpath_removal_rescans_stack (g : GameState) (e : TileElement) (c : CoordsXY) :
    (∀ init last following,
      g.map_get_first_element_at c = some (init ++ last :: following) →
      (∀ t ∈ init, t.IsLastForTile = false) → last.IsLastForTile = true →
      ∃ effects reads, ViewportInteractionRemoveFootpath g e c = some (effects, reads)
        ∧ effects
          = (if (g.window_find_by_class .WC_FOOTPATH).isSome
              then [Effect.footpath_provisional_update] else [])
            ++ (if (init ++ [last]).any
                  (fun t => decide (t.GetType = .Path ∧ t.GetBaseZ = e.GetBaseZ))
                then [.footpath_remove ⟨c.x, c.y, e.GetBaseZ⟩ GAME_COMMAND_FLAG_APPLY]
                else [])
        ∧ effects.count (.footpath_remove ⟨c.x, c.y, e.GetBaseZ⟩ GAME_COMMAND_FLAG_APPLY)
          = (if (init ++ [last]).any
                (fun t => decide (t.GetType = .Path ∧ t.GetBaseZ = e.GetBaseZ))
              then 1 else 0)
        ∧ reads ≤ (init ++ [last]).length)
    ∧ (g.map_get_first_element_at c = none →
      ∃ effects, ViewportInteractionRemoveFootpath g e c = some (effects, 0)
        ∧ effects.count (.footpath_remove ⟨c.x, c.y, e.GetBaseZ⟩ GAME_COMMAND_FLAG_APPLY)
          = 0) := by
  constructor
  · intro init last following hmem hinit hlast
    obtain ⟨n, hn, _, h2⟩ :=
      removeFootpathScan_stack e.GetBaseZ c init last following 0 hinit hlast
    refine ⟨_, n, ?_, rfl, ?_, by omega⟩
    · unfold ViewportInteractionRemoveFootpath
      simp only [hmem, hn]
    · cases (g.window_find_by_class .WC_FOOTPATH).isSome <;>
        cases (init ++ [last]).any
          (fun t => decide (t.GetType = .Path ∧ t.GetBaseZ = e.GetBaseZ)) <;>
        simp
  · intro hmem
    refine ⟨if (g.window_find_by_class .WC_FOOTPATH).isSome
      then [Effect.footpath_provisional_update] else [], ?_, ?_⟩
    · unfold ViewportInteractionRemoveFootpath
      simp only [hmem]
    · cases (g.window_find_by_class .WC_FOOTPATH).isSome <;> simp

/-- C20 (witness): a cell with a surface, a path at base z 16 and a last track
element, followed in memory by another path: the path is removed once after the
provisional update, and two elements are read. A cell without a path at that
height, followed in memory by one: nothing is removed. -/
theorem footpath_removal_rescans_stack_witness :
    ViewportInteractionRemoveFootpath pathCellState pathElement ⟨64, 96⟩
      = some ([.footpath_provisional_update,
          .footpath_remove ⟨64, 96, 16⟩ GAME_COMMAND_FLAG_APPLY], 2)
    ∧ ViewportInteractionRemoveFootpath noPathCellState pathElement ⟨64, 96⟩ = some ([], 2)
    ∧ ∃ effects reads,
        ViewportInteractionRemoveFootpath noPathCellState pathElement ⟨64, 96⟩
          = some (effects, reads)
        ∧ effects
          = (if (noPathCellState.window_find_by_class .WC_FOOTPATH).isSome
              then [Effect.footpath_provisional_update] else [])
            ++ (if ([surfaceElement] ++ [lastTrackElement]).any
                  (fun t => decide (t.GetType = .Path ∧ t.GetBaseZ = pathElement.GetBaseZ))
                then [.footpath_remove ⟨64, 96, pathElement.GetBaseZ⟩ GAME_COMMAND_FLAG_APPLY]
                else [])
        ∧ effects.count (.footpath_remove ⟨64, 96, pathElement.GetBaseZ⟩ GAME_COMMAND_FLAG_APPLY)
          = (if ([surfaceElement] ++ [lastTrackElement]).any
                (fun t => decide (t.GetType = .Path ∧ t.GetBaseZ = pathElement.GetBaseZ))
              then 1 else 0)
        ∧ reads ≤ ([surfaceElement] ++ [lastTrackElement]).length :=
  ⟨by decide, by decide,
    (footpath_removal_rescans_stack noPathCellState pathElement ⟨64, 96⟩).1
      [surfaceElement] lastTrackElement [pathElement] rfl (by decide) rfl⟩

/-- The two refusal tests of `ViewportInteractionGetItemRight` are false
outside the refused modes. -/
theorem rightRefused_false (g : GameState) (hmode : g.rightRefused = false) :
    (g.gScreenFlags .SCREEN_FLAGS_TITLE_DEMO
      || g.gScreenFlags .SCREEN_FLAGS_TRACK_MANAGER) = false
    ∧ (g.gScreenFlags .SCREEN_FLAGS_TRACK_DESIGNER
      && g.editor_step != EDITOR_STEP_ROLLERCOASTER_DESIGNER) = false := by
  unfold GameState.rightRefused at hmode
  simp only [Bool.or_eq_false_iff] at hmode ⊢
  exact ⟨hmode.1, hmode.2⟩

/-- C21 (amended): outside sandbox mode, for a Ride-kind query result on a track
element that is not a station, of an existing ride whose status is closed,
whose location (asked at twice the element's base Z) is not owned by the park,
`ViewportInteractionGetItemRight` returns a result of kind `NONE` and sets no
tooltip, in every screen mode; outside the refused modes the location, element
and entity of the result are those of the query. -/
theorem unowned_plain_track_collapses (g : GameState) (screenCoords : ScreenCoordsXY)
    (e : TileElement) (track : TrackElement) (ride : Ride)
    (hkind : (g.get_map_coordinates_from_pos screenCoords rightMask).SpriteType = .RIDE)
    (hel : (g.get_map_coordinates_from_pos screenCoords rightMask).Element = some e)
    (htrack : e.AsTrack = some track) (hplain : track.IsStation = false)
    (hride : g.get_ride e.GetRideIndex = some ride)
    (hclosed : ride.status = RIDE_STATUS_CLOSED)
    (hsandbox : g.gCheatsSandboxMode = false)
    (hown : g.map_is_location_owned
      ⟨(g.get_map_coordinates_from_pos screenCoords rightMask).Loc.x,
       (g.get_map_coordinates_from_pos screenCoords rightMask).Loc.y, e.GetBaseZ * 2⟩ = false) :
    ∃ r, ViewportInteractionGetItemRight g screenCoords = some r
      ∧ r.info.SpriteType = .NONE ∧ r.tooltip = none
      ∧ (g.rightRefused = false →
          r.info.Loc = (g.get_map_coordinates_from_pos screenCoords rightMask).Loc
          ∧ r.info.Element = (g.get_map_coordinates_from_pos screenCoords rightMask).Element
          ∧ r.info.Entity = (g.get_map_coordinates_from_pos screenCoords rightMask).Entity) := by
  cases hmode : g.rightRefused
  · rw [getItemRight_of_ride g screenCoords hmode hkind]
    generalize g.get_map_coordinates_from_pos screenCoords rightMask = info at hkind hel hown ⊢
    obtain ⟨dir, bz, last, ri, pl⟩ := e
    cases pl <;> simp [TileElement.AsTrack] at htrack
    subst htrack
    refine ⟨⟨{ info with SpriteType := .NONE }, none⟩, ?_, rfl, rfl, fun _ => ⟨rfl, rfl, rfl⟩⟩
    cases hed : g.gScreenFlags .SCREEN_FLAGS_SCENARIO_EDITOR
    · simp [ViewportInteractionGetItemRight.ride, collapse, hed, hel, TileElement.GetType, hride,
        hclosed, TileElement.AsTrack, hplain, hsandbox, hown]
    · simp [ViewportInteractionGetItemRight.ride, collapse, hed]
  · exact ⟨_, getItemRight_of_refused g screenCoords hmode, rfl, rfl, fun h => by cases h⟩

/-- C21 (witness): a plain track piece of a closed ride on land that is not
owned comes back with kind `NONE` and no tooltip. -/
theorem unowned_plain_track_collapses_witness :
    ViewportInteractionGetItemRight unownedTrackState ⟨0, 0⟩
      = some ⟨⟨⟨64, 64⟩, some plainTrackElement, none, .NONE⟩, none⟩
    ∧ ∃ r, ViewportInteractionGetItemRight unownedTrackState ⟨0, 0⟩ = some r
      ∧ r.info.SpriteType = .NONE ∧ r.tooltip = none
      ∧ (unownedTrackState.rightRefused = false →
          r.info.Loc = (unownedTrackState.get_map_coordinates_from_pos ⟨0, 0⟩ rightMask).Loc
          ∧ r.info.Element
            = (unownedTrackState.get_map_coordinates_from_pos ⟨0, 0⟩ rightMask).Element
          ∧ r.info.Entity
            = (unownedTrackState.get_map_coordinates_from_pos ⟨0, 0⟩ rightMask).Entity) :=
  ⟨by decide,
    unowned_plain_track_collapses unownedTrackState ⟨0, 0⟩ plainTrackElement ⟨false, 0⟩
      closedRide rfl rfl rfl rfl rfl rfl rfl rfl⟩

/-- C21 (counterexample): outside sandbox mode, with no land owned, three
Ride-kind query results on tiles of an existing ride that are not collapsed to
`NONE`: the station platform of a closed ride and the exit of a closed ride,
both returned with kind `RIDE` and a tooltip, and a plain track piece of an
open ride, returned with kind `RIDE`. -/
theorem unowned_ride_tiles_stay_ride :
    (closedRideState.gCheatsSandboxMode = false
      ∧ (closedRideState.get_map_coordinates_from_pos ⟨0, 0⟩ rightMask).SpriteType = .RIDE
      ∧ closedRideState.get_ride stationTrackElement.GetRideIndex = some closedRide
      ∧ (∀ loc, closedRideState.map_is_location_owned loc = false)
      ∧ (ViewportInteractionGetItemRight closedRideState ⟨0, 0⟩).map
          (fun r => (r.info.SpriteType, r.tooltip.isSome)) = some (.RIDE, true))
    ∧ (singleStationState.gCheatsSandboxMode = false
      ∧ (singleStationState.get_map_coordinates_from_pos ⟨0, 0⟩ rightMask).SpriteType = .RIDE
      ∧ (singleStationState.get_map_coordinates_from_pos ⟨0, 0⟩ rightMask).Element
          = some rideExitElement
      ∧ singleStationState.get_ride rideExitElement.GetRideIndex = some singleStationRide
      ∧ (∀ loc, singleStationState.map_is_location_owned loc = false)
      ∧ (ViewportInteractionGetItemRight singleStationState ⟨0, 0⟩).map
          (fun r => (r.info.SpriteType, r.tooltip.isSome)) = some (.RIDE, true))
    ∧ (unownedOpenRideState.gCheatsSandboxMode = false
      ∧ (unownedOpenRideState.get_map_coordinates_from_pos ⟨0, 0⟩ rightMask).SpriteType = .RIDE
      ∧ (unownedOpenRideState.get_map_coordinates_from_pos ⟨0, 0⟩ rightMask).Element
          = some plainTrackElement
      ∧ unownedOpenRideState.get_ride plainTrackElement.GetRideIndex = some openRide
      ∧ openRide.status ≠ RIDE_STATUS_CLOSED
      ∧ (∀ loc, unownedOpenRideState.map_is_location_owned loc = false)
      ∧ (ViewportInteractionGetItemRight unownedOpenRideState ⟨0, 0⟩).map
          (fun r => (r.info.SpriteType, r.tooltip.isSome)) = some (.RIDE, false)) := by
  refine ⟨⟨rfl, rfl, rfl, fun _ => rfl, by decide⟩,
    ⟨rfl, rfl, rfl, rfl, fun _ => rfl, by decide⟩,
    ⟨rfl, rfl, rfl, rfl, by decide, fun _ => rfl, by decide⟩⟩

/-- C22: the secondary pipeline on a Sprite result, outside the refused modes.
`ViewportInteractionGetItemRight` returns a result of kind `NONE`, with no
tooltip, if the scenario-editor flag is set or the entity is not a vehicle (its
identifier is not `Vehicle`, or its cast to `Vehicle` is null); otherwise it
returns the query result unchanged, of kind `SPRITE`, with the click-to-modify
tooltip on the ride's name if the vehicle's ride exists and its status is
closed, and with no tooltip if the ride does not exist or is not closed. -/
theorem sprite_result_reports_only_vehicles (g : GameState) (screenCoords : ScreenCoordsXY)
    (hmode : g.rightRefused = false)
    (hkind : (g.get_map_coordinates_from_pos screenCoords rightMask).SpriteType = .SPRITE) :
    (g.gScreenFlags .SCREEN_FLAGS_SCENARIO_EDITOR = true →
      ∃ r, ViewportInteractionGetItemRight g screenCoords = some r
        ∧ r.info.SpriteType = .NONE ∧ r.tooltip = none)
    ∧ (∀ sprite, (g.get_map_coordinates_from_pos screenCoords rightMask).Entity = some sprite →
      (sprite.sprite_identifier ≠ .Vehicle ∨ sprite.As .Vehicle = none) →
      ∃ r, ViewportInteractionGetItemRight g screenCoords = some r
        ∧ r.info.SpriteType = .NONE ∧ r.tooltip = none)
    ∧ (∀ sprite vehicle,
      (g.get_map_coordinates_from_pos screenCoords rightMask).Entity = some sprite →
      g.gScreenFlags .SCREEN_FLAGS_SCENARIO_EDITOR = false →
      sprite.sprite_identifier = .Vehicle → sprite.As .Vehicle = some vehicle →
      (∀ ride, g.get_ride vehicle.ride = some ride → ride.status = RIDE_STATUS_CLOSED →
        ViewportInteractionGetItemRight g screenCoords
          = some ⟨g.get_map_coordinates_from_pos screenCoords rightMask,
              some (.string_id .STR_MAP_TOOLTIP_STRINGID_CLICK_TO_MODIFY :: ride.nameArgs)⟩)
      ∧ ((g.get_ride vehicle.ride = none
          ∨ ∃ ride, g.get_ride vehicle.ride = some ride ∧ ride.status ≠ RIDE_STATUS_CLOSED) →
        ViewportInteractionGetItemRight g screenCoords
          = some ⟨g.get_map_coordinates_from_pos screenCoords rightMask, none⟩)) := by
  obtain ⟨h1, h2⟩ := rightRefused_false g hmode
  unfold ViewportInteractionGetItemRight
  rw [h1, h2]
  generalize g.get_map_coordinates_from_pos screenCoords rightMask = info at hkind ⊢
  refine ⟨?_, ?_, ?_⟩
  · intro hed
    refine ⟨⟨{ info with SpriteType := .NONE }, none⟩, ?_, rfl, rfl⟩
    simp [collapse, hkind, hed]
  · intro sprite he hnot
    refine ⟨⟨{ info with SpriteType := .NONE }, none⟩, ?_, rfl, rfl⟩
    cases hed : g.gScreenFlags .SCREEN_FLAGS_SCENARIO_EDITOR
    · rcases hnot with hid | hcast
      · simp [collapse, hkind, hed, he, hid]
      · by_cases hid : sprite.sprite_identifier = .Vehicle
        · simp [collapse, hkind, hed, he, hid, hcast]
        · simp [collapse, hkind, hed, he, hid]
    · simp [collapse, hkind, hed]
  · intro sprite vehicle he hed hid hcast
    constructor
    · intro ride hride hclosed
      simp [hkind, hed, he, hid, hcast, hride, hclosed, Ride.FormatNameTo]
    · rintro (hride | ⟨ride, hride, hopen⟩)
      · simp [hkind, hed, he, hid, hcast, hride]
      · simp [hkind, hed, he, hid, hcast, hride, hopen]

/-- C22 (witness): a vehicle of a closed ride is returned unchanged with the
click-to-modify tooltip on the ride's name; a balloon, which is not a vehicle,
and any sprite in the scenario editor come back with kind `NONE` and no
tooltip. -/
theorem sprite_result_reports_only_vehicles_witness :
    ViewportInteractionGetItemRight vehicleState ⟨0, 0⟩
      = some ⟨⟨⟨10, 10⟩, none, some vehicleEntity, .SPRITE⟩,
          some [.string_id .STR_MAP_TOOLTIP_STRINGID_CLICK_TO_MODIFY, .external 1]⟩
    ∧ ViewportInteractionGetItemRight playBalloonState ⟨0, 0⟩
      = some ⟨⟨⟨50, 60⟩, none, some balloonEntity, .NONE⟩, none⟩
    ∧ (∃ r, ViewportInteractionGetItemRight playBalloonState ⟨0, 0⟩ = some r
        ∧ r.info.SpriteType = .NONE ∧ r.tooltip = none)
    ∧ (∃ r, ViewportInteractionGetItemRight editorBalloonState ⟨0, 0⟩ = some r
        ∧ r.info.SpriteType = .NONE ∧ r.tooltip = none) :=
  ⟨((sprite_result_reports_only_vehicles vehicleState ⟨0, 0⟩ (by decide) rfl).2.2
      vehicleEntity vehicleEntity rfl rfl rfl (by decide)).1 closedRide rfl rfl,
    by decide,
    (sprite_result_reports_only_vehicles playBalloonState ⟨0, 0⟩ (by decide) rfl).2.1
      balloonEntity rfl (Or.inl (by decide)),
    (sprite_result_reports_only_vehicles editorBalloonState ⟨0, 0⟩ (by decide) rfl).1 rfl⟩

/-- C23: whenever the query result has kind `BANNER` (outside the refused
modes; the element is a banner element whose banner and banner entry exist),
`ViewportInteractionGetItemRight` returns the query result unchanged, of kind
`BANNER`, and sets the tooltip made of the banner text, click-to-modify and the
entry's name, whatever the input flags, the open windows and the
scenario-editor flag. -/
theorem banner_tile_always_reported (g : GameState) (screenCoords : ScreenCoordsXY)
    (e : TileElement) (b : BannerElement) (banner : Banner) (entry : rct_scenery_entry)
    (hmode : g.rightRefused = false)
    (hkind : (g.get_map_coordinates_from_pos screenCoords rightMask).SpriteType = .BANNER)
    (hel : (g.get_map_coordinates_from_pos screenCoords rightMask).Element = some e)
    (hb : e.AsBanner = some b) (hbanner : b.GetBanner = some banner)
    (hentry : g.get_banner_entry banner.type = some entry) :
    ViewportInteractionGetItemRight g screenCoords
      = some ⟨g.get_map_coordinates_from_pos screenCoords rightMask,
          some (.string_id .STR_MAP_TOOLTIP_BANNER_STRINGID_STRINGID :: (banner.textWithColour
            ++ [.string_id .STR_MAP_TOOLTIP_STRINGID_CLICK_TO_MODIFY,
              .string_id entry.name]))⟩
    ∧ (g.get_map_coordinates_from_pos screenCoords rightMask).SpriteType = .BANNER := by
  obtain ⟨h1, h2⟩ := rightRefused_false g hmode
  refine ⟨?_, hkind⟩
  unfold ViewportInteractionGetItemRight
  rw [h1, h2]
  generalize g.get_map_coordinates_from_pos screenCoords rightMask = info at hkind hel ⊢
  simp [hkind, hel, hb, hbanner, hentry, Banner.FormatTextTo]

/-- C23 (witness): in the scenario editor, with no input flag set and no window
open, the banner tile is reported with its tooltip. -/
theorem banner_tile_always_reported_witness :
    ViewportInteractionGetItemRight editorBannerState ⟨0, 0⟩
      = some ⟨⟨⟨64, 64⟩, some bannerElement, none, .BANNER⟩,
          some [.string_id .STR_MAP_TOOLTIP_BANNER_STRINGID_STRINGID, .external 8,
            .string_id .STR_MAP_TOOLTIP_STRINGID_CLICK_TO_MODIFY, .string_id (.object 30)]⟩
    ∧ editorBannerState.gScreenFlags .SCREEN_FLAGS_SCENARIO_EDITOR = true
    ∧ editorBannerState.input_test_flag .INPUT_FLAG_TOOL_ACTIVE = false
    ∧ editorBannerState.window_find_by_class .WC_FOOTPATH = none :=
  ⟨(banner_tile_always_reported editorBannerState ⟨0, 0⟩ bannerElement ⟨some parkBanner, 6⟩
      parkBanner ⟨.object 30, SCROLLING_MODE_NONE⟩ (by decide) rfl rfl rfl rfl rfl).1,
    rfl, rfl, rfl⟩

/-- The dispatch of `ViewportInteractionLeftClick` on a resolved Misc entity:
handled, with the effects of the switch on the entity's type when the game is
not paused and none when it is paused. -/
theorem leftClick_of_misc (g : GameState) (screenCoords : ScreenCoordsXY) (r : LeftResult)
    (entity : SpriteBase)
    (hr : ViewportInteractionGetItemLeft g screenCoords = some r)
    (hk : r.info.SpriteType = .SPRITE) (he : r.info.Entity = some entity)
    (hmisc : entity.sprite_identifier = .Misc) :
    ViewportInteractionLeftClick g screenCoords
      = some ⟨true, r.calls,
          if g.game_is_not_paused then
            if entity.type = SPRITE_MISC_BALLOON then
              [.Execute (.BalloonPressAction entity.sprite_index)]
            else if entity.type = SPRITE_MISC_DUCK then
              match entity.As .Duck with
              | some duck => [.duck_press duck]
              | none => []
            else []
          else []⟩ := by
  unfold ViewportInteractionLeftClick
  rw [hr]
  simp only [Option.bind_eq_bind, Option.some_bind, hk, he, hmisc]
  split
  · split
    · rfl
    · split
      · split <;> rfl
      · rfl
  · rfl

/-- C24: when `ViewportInteractionLeftClick` resolves to a Misc entity of type
balloon, exactly one `BalloonPressAction` with that entity's sprite index is
executed if the game is not paused, and nothing is executed if the game is
paused; the click is reported handled in both cases. -/
theorem balloon_click_pops_unless_paused (g : GameState) (screenCoords : ScreenCoordsXY)
    (r : LeftResult) (entity : SpriteBase)
    (hr : ViewportInteractionGetItemLeft g screenCoords = some r)
    (hk : r.info.SpriteType = .SPRITE) (he : r.info.Entity = some entity)
    (hmisc : entity.sprite_identifier = .Misc)
    (hballoon : entity.type = SPRITE_MISC_BALLOON) :
    (g.game_is_not_paused = true →
      ViewportInteractionLeftClick g screenCoords
        = some ⟨true, r.calls, [.Execute (.BalloonPressAction entity.sprite_index)]⟩)
    ∧ (g.game_is_not_paused = false →
      ViewportInteractionLeftClick g screenCoords = some ⟨true, r.calls, []⟩) := by
  rw [leftClick_of_misc g screenCoords r entity hr hk he hmisc]
  constructor
  · intro hp
    simp [hp, hballoon]
  · intro hp
    simp [hp]

/-- C24 (witness): a click on a balloon while the game is paused is handled and
executes nothing. -/
theorem balloon_click_pops_unless_paused_witness :
    ViewportInteractionLeftClick pausedBalloonState ⟨0, 0⟩
      = some ⟨true, [.get_map_coordinates_from_pos ⟨0, 0⟩ leftMask], []⟩ :=
  (balloon_click_pops_unless_paused pausedBalloonState ⟨0, 0⟩
    ⟨balloonInfo, [.get_map_coordinates_from_pos ⟨0, 0⟩ leftMask]⟩ balloonEntity
    (by decide) rfl rfl rfl rfl).2 rfl

/-- C25 (amended): whenever `ViewportInteractionLeftClick` resolves to a Misc
entity that is a duck (type duck, and `Is<Duck>`) and the game is not paused,
`duck_press` is invoked on that duck, once, and the click is reported handled;
when the game is paused no handler is invoked and the click is still reported
handled. -/
theorem duck_click_presses_unless_paused (g : GameState) (screenCoords : ScreenCoordsXY)
    (r : LeftResult) (entity : SpriteBase)
    (hr : ViewportInteractionGetItemLeft g screenCoords = some r)
    (hk : r.info.SpriteType = .SPRITE) (he : r.info.Entity = some entity)
    (hmisc : entity.sprite_identifier = .Misc)
    (hduck : entity.type = SPRITE_MISC_DUCK) (his : entity.Is .Duck = true) :
    (g.game_is_not_paused = true →
      ViewportInteractionLeftClick g screenCoords
        = some ⟨true, r.calls, [.duck_press entity]⟩)
    ∧ (g.game_is_not_paused = false →
      ViewportInteractionLeftClick g screenCoords = some ⟨true, r.calls, []⟩) := by
  rw [leftClick_of_misc g screenCoords r entity hr hk he hmisc]
  have hne : ¬ entity.type = SPRITE_MISC_BALLOON := by
    rw [hduck]
    decide
  constructor
  · intro hp
    rw [if_pos hp, if_neg hne, if_pos hduck]
    simp [SpriteBase.As, his]
  · intro hp
    simp [hp]

/-- C25 (witness): a click on a duck in ordinary play, not paused, presses the
duck. -/
theorem duck_click_presses_unless_paused_witness :
    ViewportInteractionLeftClick playDuckState ⟨0, 0⟩
      = some ⟨true, [.get_map_coordinates_from_pos ⟨0, 0⟩ leftMask],
          [.duck_press duckEntity]⟩ :=
  (duck_click_presses_unless_paused playDuckState ⟨0, 0⟩
    ⟨⟨⟨50, 60⟩, none, some duckEntity, .SPRITE⟩,
      [.get_map_coordinates_from_pos ⟨0, 0⟩ leftMask]⟩ duckEntity
    (by decide) rfl rfl rfl rfl (by decide)).1 rfl

/-- C25 (counterexample): the game is paused and the click resolves to a duck
(a Misc entity of type duck, `Is<Duck>`): the click is reported handled and no
effect at all is produced, so `duck_press` is not invoked. -/
theorem paused_duck_click_presses_nothing :
    pausedDuckState.game_is_not_paused = false
    ∧ (ViewportInteractionGetItemLeft pausedDuckState ⟨0, 0⟩).map
        (fun r => (r.info.SpriteType, r.info.Entity)) = some (.SPRITE, some duckEntity)
    ∧ duckEntity.sprite_identifier = .Misc ∧ duckEntity.type = SPRITE_MISC_DUCK
    ∧ duckEntity.Is .Duck = true
    ∧ ViewportInteractionLeftClick pausedDuckState ⟨0, 0⟩
        = some ⟨true, [.get_map_coordinates_from_pos ⟨0, 0⟩ leftMask], []⟩
    ∧ (ViewportInteractionLeftClick pausedDuckState ⟨0, 0⟩).map
        (fun c => decide (Effect.duck_press duckEntity ∈ c.effects)) = some false := by
  decide

/-- With a window and viewport under the cursor and something found by the
initial query, `ViewportInteractionGetTileStartAtCursor` returns the tile start
of the loop's final `mapPos`, for some water height. -/
theorem tileStart_eq_loop (g : GameState) (screenCoords : ScreenCoordsXY)
    (window : rct_window) (viewport : rct_viewport)
    (hw : g.window_find_from_point screenCoords = some window)
    (hv : window.viewport = some viewport)
    (hk : (g.get_map_coordinates_from_pos_window window screenCoords tileStartMask).SpriteType
      ≠ .NONE)
    (hwater : (g.get_map_coordinates_from_pos_window window screenCoords tileStartMask).SpriteType
        = .WATER →
      ∃ e surface, (g.get_map_coordinates_from_pos_window window screenCoords
        tileStartMask).Element = some e ∧ e.AsSurface = some surface) :
    ∃ waterHeight : Int, ViewportInteractionGetTileStartAtCursor g screenCoords
      = some ((tileStartLoop g
            (g.get_map_coordinates_from_pos_window window screenCoords tileStartMask).SpriteType
            waterHeight (viewport.ScreenToViewportCoord screenCoords)
            (g.get_map_coordinates_from_pos_window window screenCoords tileStartMask).Loc 5
            ((g.get_map_coordinates_from_pos_window window screenCoords tileStartMask).Loc.add
              ⟨16, 16⟩, [])).1.ToTileStart,
          (tileStartLoop g
            (g.get_map_coordinates_from_pos_window window screenCoords tileStartMask).SpriteType
            waterHeight (viewport.ScreenToViewportCoord screenCoords)
            (g.get_map_coordinates_from_pos_window window screenCoords tileStartMask).Loc 5
            ((g.get_map_coordinates_from_pos_window window screenCoords tileStartMask).Loc.add
              ⟨16, 16⟩, [])).2) := by
  unfold ViewportInteractionGetTileStartAtCursor
  simp only [hw, hv]
  generalize g.get_map_coordinates_from_pos_window window screenCoords tileStartMask = info
    at hk hwater ⊢
  rw [if_neg hk]
  by_cases hW : info.SpriteType = .WATER
  · obtain ⟨e, surface, he, hs⟩ := hwater hW
    refine ⟨toInt16 surface.GetWaterHeight, ?_⟩
    simp [hW, he, hs]
  · refine ⟨0, ?_⟩
    simp [hW]

/-- C26: whenever the initial query finds terrain or water at a location `L`
whose x and y are multiples of 32, `ViewportInteractionGetTileStartAtCursor`
returns exactly `L`, for every camera projection, every height profile and
every water height. (A result of kind `WATER` refers to a surface element,
whose water height the code reads.) -/
theorem tile_start_returns_query_tile (g : GameState) (screenCoords : ScreenCoordsXY)
    (window : rct_window) (viewport : rct_viewport)
    (hw : g.window_find_from_point screenCoords = some window)
    (hv : window.viewport = some viewport)
    (hk : (g.get_map_coordinates_from_pos_window window screenCoords tileStartMask).SpriteType
        = .TERRAIN
      ∨ (g.get_map_coordinates_from_pos_window window screenCoords tileStartMask).SpriteType
        = .WATER)
    (hwater : (g.get_map_coordinates_from_pos_window window screenCoords tileStartMask).SpriteType
        = .WATER →
      ∃ e surface, (g.get_map_coordinates_from_pos_window window screenCoords
        tileStartMask).Element = some e ∧ e.AsSurface = some surface)
    (hx : (g.get_map_coordinates_from_pos_window window screenCoords tileStartMask).Loc.x % 32 = 0)
    (hy : (g.get_map_coordinates_from_pos_window window screenCoords tileStartMask).Loc.y % 32 = 0) :
    ∃ calls, ViewportInteractionGetTileStartAtCursor g screenCoords
      = some ((g.get_map_coordinates_from_pos_window window screenCoords tileStartMask).Loc,
          calls) := by
  have hne : (g.get_map_coordinates_from_pos_window window screenCoords tileStartMask).SpriteType
      ≠ .NONE := by
    rcases hk with hk | hk <;> rw [hk] <;> decide
  obtain ⟨waterHeight, hval⟩ := tileStart_eq_loop g screenCoords window viewport hw hv hne hwater
  have htile : ∀ (L p : CoordsXY), L.x % 32 = 0 → L.y % 32 = 0 →
      (L.x ≤ p.x ∧ p.x ≤ L.x + 31 ∧ L.y ≤ p.y ∧ p.y ≤ L.y + 31) → p.ToTileStart = L := by
    intro L p h1 h2 h3
    obtain ⟨lx, ly⟩ := L
    simp only [CoordsXY.ToTileStart, CoordsXY.mk.injEq] at h1 h2 h3 ⊢
    constructor <;> omega
  rw [hval, htile _ _ hx hy (tileStartLoop_mem g _ waterHeight _ _ 5 _ (Or.inl (by decide)))]
  exact ⟨_, rfl⟩

/-- C26 (witness): terrain at the tile origin (64, 96) on a slope, and water at
the tile origin (128, 32) with a projection that leaves the tile: the function
returns (64, 96) and (128, 32). -/
theorem tile_start_returns_query_tile_witness :
    (∃ calls, ViewportInteractionGetTileStartAtCursor alignedTerrainState ⟨70, 100⟩
      = some (⟨64, 96⟩, calls))
    ∧ (∃ calls, ViewportInteractionGetTileStartAtCursor alignedWaterState ⟨70, 100⟩
      = some (⟨128, 32⟩, calls)) :=
  ⟨tile_start_returns_query_tile alignedTerrainState ⟨70, 100⟩ ⟨some ⟨0, fun p => p⟩⟩
      ⟨0, fun p => p⟩ rfl rfl (Or.inl rfl) (fun h => absurd h (by decide)) (by decide)
      (by decide),
   tile_start_returns_query_tile alignedWaterState ⟨70, 100⟩ ⟨some ⟨0, fun p => p⟩⟩
      ⟨0, fun p => p⟩ rfl rfl (Or.inr rfl) (fun _ => ⟨waterSurfaceElement, ⟨5⟩, rfl, rfl⟩)
      (by decide) (by decide)⟩

/-- C29: for a Ride-kind query result on a track element that is not a
station, `ViewportInteractionGetItemRight` sets no tooltip, whether the ride is
open or closed (or missing), whether or not the tile is owned, and in every
screen mode; it returns, and its result has kind `RIDE` (the query result
unchanged) or kind `NONE`. -/
theorem plain_track_sets_no_tooltip (g : GameState) (screenCoords : ScreenCoordsXY)
    (e : TileElement) (track : TrackElement)
    (hkind : (g.get_map_coordinates_from_pos screenCoords rightMask).SpriteType = .RIDE)
    (hel : (g.get_map_coordinates_from_pos screenCoords rightMask).Element = some e)
    (htrack : e.AsTrack = some track) (hplain : track.IsStation = false) :
    ∃ r, ViewportInteractionGetItemRight g screenCoords = some r
      ∧ r.tooltip = none
      ∧ ((r.info = g.get_map_coordinates_from_pos screenCoords rightMask
          ∧ r.info.SpriteType = .RIDE)
        ∨ r.info.SpriteType = .NONE) := by
  cases hmode : g.rightRefused
  · rw [getItemRight_of_ride g screenCoords hmode hkind]
    generalize g.get_map_coordinates_from_pos screenCoords rightMask = info at hkind hel ⊢
    obtain ⟨dir, bz, last, ri, pl⟩ := e
    cases pl <;> simp [TileElement.AsTrack] at htrack
    subst htrack
    cases hed : g.gScreenFlags .SCREEN_FLAGS_SCENARIO_EDITOR
    · cases hride : g.get_ride ri with
      | none =>
        exact ⟨collapse info, by
          simp [ViewportInteractionGetItemRight.ride, hed, hel, TileElement.GetType, hride],
          rfl, Or.inr rfl⟩
      | some ride =>
        by_cases hclosed : ride.status = RIDE_STATUS_CLOSED
        · cases hgate : (!g.gCheatsSandboxMode
              && !g.map_is_location_owned ⟨info.Loc.x, info.Loc.y, bz * 2⟩)
          · exact ⟨⟨info, none⟩, by
              simp only [Bool.and_eq_false_imp, Bool.not_eq_eq_eq_not, Bool.not_true,
                Bool.not_false, Bool.not_eq_true'] at hgate
              simp [ViewportInteractionGetItemRight.ride, hed, hel, TileElement.GetType, hride,
                hclosed, TileElement.AsTrack, hplain]
              intro hs ho
              have hcon := hgate hs
              rw [ho] at hcon
              simp at hcon,
              rfl, Or.inl ⟨rfl, hkind⟩⟩
          · exact ⟨collapse info, by
              simp only [Bool.and_eq_true, Bool.not_eq_true'] at hgate
              simp [ViewportInteractionGetItemRight.ride, hed, hel, TileElement.GetType, hride,
                hclosed, TileElement.AsTrack, hplain, hgate.1, hgate.2],
              rfl, Or.inr rfl⟩
        · exact ⟨⟨info, none⟩, by
            simp [ViewportInteractionGetItemRight.ride, hed, hel, TileElement.GetType, hride,
              hclosed],
            rfl, Or.inl ⟨rfl, hkind⟩⟩
    · exact ⟨collapse info, by simp [ViewportInteractionGetItemRight.ride, hed],
        rfl, Or.inr rfl⟩
  · exact ⟨_, getItemRight_of_refused g screenCoords hmode, rfl, Or.inr rfl⟩

/-- C29 (witness): a plain track piece of an open ride, and of a closed ride on
owned land, is returned with kind `RIDE` and no tooltip. -/
theorem plain_track_sets_no_tooltip_witness :
    ViewportInteractionGetItemRight openRideTrackState ⟨0, 0⟩
      = some ⟨⟨⟨64, 64⟩, some plainTrackElement, none, .RIDE⟩, none⟩
    ∧ ViewportInteractionGetItemRight ownedTrackState ⟨0, 0⟩
      = some ⟨⟨⟨64, 64⟩, some plainTrackElement, none, .RIDE⟩, none⟩
    ∧ ∃ r, ViewportInteractionGetItemRight ownedTrackState ⟨0, 0⟩ = some r
      ∧ r.tooltip = none
      ∧ ((r.info = ownedTrackState.get_map_coordinates_from_pos ⟨0, 0⟩ rightMask
          ∧ r.info.SpriteType = .RIDE)
        ∨ r.info.SpriteType = .NONE) :=
  ⟨by decide, by decide,
    plain_track_sets_no_tooltip ownedTrackState ⟨0, 0⟩ plainTrackElement ⟨false, 0⟩
      rfl rfl rfl rfl⟩

/-- The condition of the gate of `ViewportInteractionGetItemRight` as the code
evaluates it, when the gate is shut. -/
theorem gate_cond_of_shut (g : GameState) (hg : g.removalGateShut) :
    ((!(g.input_test_flag .INPUT_FLAG_6) || !(g.input_test_flag .INPUT_FLAG_TOOL_ACTIVE))
      && ((g.window_find_by_class .WC_RIDE_CONSTRUCTION).isNone
        && (g.window_find_by_class .WC_FOOTPATH).isNone)) = true := by
  obtain ⟨hf, h1, h2⟩ := hg
  rcases hf with hf | hf <;> simp [hf, h1, h2]

/-- The condition of the gate of `ViewportInteractionGetItemRight` as the code
evaluates it, when the gate is not shut. -/
theorem gate_cond_of_open (g : GameState) (hg : ¬ g.removalGateShut) :
    ((!(g.input_test_flag .INPUT_FLAG_6) || !(g.input_test_flag .INPUT_FLAG_TOOL_ACTIVE))
      && ((g.window_find_by_class .WC_RIDE_CONSTRUCTION).isNone
        && (g.window_find_by_class .WC_FOOTPATH).isNone)) = false := by
  unfold GameState.removalGateShut at hg
  cases h6 : g.input_test_flag .INPUT_FLAG_6 <;>
  cases ht : g.input_test_flag .INPUT_FLAG_TOOL_ACTIVE <;>
  cases h1 : g.window_find_by_class .WC_RIDE_CONSTRUCTION <;>
  cases h2 : g.window_find_by_class .WC_FOOTPATH <;>
  simp_all

/-- The gate is not shut exactly when both input flags are set or one of the
two windows is open. -/
theorem gate_open_iff (g : GameState) :
    ¬ g.removalGateShut ↔
      ((g.input_test_flag .INPUT_FLAG_6 = true ∧ g.input_test_flag .INPUT_FLAG_TOOL_ACTIVE = true)
        ∨ (g.window_find_by_class .WC_RIDE_CONSTRUCTION).isSome = true
        ∨ (g.window_find_by_class .WC_FOOTPATH).isSome = true) := by
  unfold GameState.removalGateShut
  cases h6 : g.input_test_flag .INPUT_FLAG_6 <;>
  cases ht : g.input_test_flag .INPUT_FLAG_TOOL_ACTIVE <;>
  cases h1 : g.window_find_by_class .WC_RIDE_CONSTRUCTION <;>
  cases h2 : g.window_find_by_class .WC_FOOTPATH <;>
  simp

/-- The removal part of `ViewportInteractionGetItemRight` on a query result its
second switch reports: collapsed to `NONE` when the gate is shut, returned
unchanged with a tooltip otherwise. -/
theorem removal_of_removable (g : GameState) (info : InteractionInfo)
    (h : info.isRemovable g = true) :
    ∃ r, ViewportInteractionGetItemRight.removal g info = some r ∧
      (g.removalGateShut → r = collapse info) ∧
      (¬ g.removalGateShut → r.info = info ∧ r.tooltip.isSome = true) := by
  unfold InteractionInfo.isRemovable at h
  simp only [Bool.or_eq_true] at h
  rcases h with (h | h) | h
  · exact removal_of_plain g info h
  · by_cases hg : g.removalGateShut
    · refine ⟨collapse info, ?_, fun _ => rfl, fun hn => absurd hg hn⟩
      unfold ViewportInteractionGetItemRight.removal
      simp only [gate_cond_of_shut g hg, if_true]
    · obtain ⟨loc, el, en, k⟩ := info
      cases k <;> cases el <;> simp [InteractionInfo.isFootpathItem] at h
      rename_i e
      obtain ⟨dir, bz, last, ri, pl⟩ := e
      cases pl <;> simp [TileElement.AsPath] at h
      rename_i v
      cases hE : v.GetAdditionEntry <;> simp [hE] at h
      simp [ViewportInteractionGetItemRight.removal, gate_cond_of_open g hg, hg, hE,
        TileElement.AsPath]
  · by_cases hg : g.removalGateShut
    · refine ⟨collapse info, ?_, fun _ => rfl, fun hn => absurd hg hn⟩
      unfold ViewportInteractionGetItemRight.removal
      simp only [gate_cond_of_shut g hg, if_true]
    · obtain ⟨loc, el, en, k⟩ := info
      cases k <;> cases el <;> simp [InteractionInfo.isRemovableParkEntrance] at h
      rename_i e
      obtain ⟨hty, hed⟩ := h
      have hed2 : (!(g.gScreenFlags .SCREEN_FLAGS_SCENARIO_EDITOR) && !g.gCheatsSandboxMode)
          = false := by
        rcases hed with hed | hed <;> simp [hed]
      simp [ViewportInteractionGetItemRight.removal, gate_cond_of_open g hg, hg, hed2, hty]

/-- Outside the refused modes, `ViewportInteractionGetItemRight` hands a query
result its second switch reports to its removal part: the first switch does
not return. -/
theorem getItemRight_of_removable (g : GameState) (screenCoords : ScreenCoordsXY)
    (hmode : g.rightRefused = false)
    (h : (g.get_map_coordinates_from_pos screenCoords rightMask).isRemovable g = true) :
    ViewportInteractionGetItemRight g screenCoords
      = ViewportInteractionGetItemRight.removal g
          (g.get_map_coordinates_from_pos screenCoords rightMask) := by
  unfold InteractionInfo.isRemovable at h
  simp only [Bool.or_eq_true] at h
  rcases h with (h | h) | h
  · exact getItemRight_of_plain g screenCoords hmode h
  all_goals
    have h1 : (g.gScreenFlags .SCREEN_FLAGS_TITLE_DEMO
        || g.gScreenFlags .SCREEN_FLAGS_TRACK_MANAGER) = false := by
      unfold GameState.rightRefused at hmode
      simp only [Bool.or_eq_false_iff] at hmode ⊢
      exact hmode.1
    have h2 : (g.gScreenFlags .SCREEN_FLAGS_TRACK_DESIGNER
        && g.editor_step != EDITOR_STEP_ROLLERCOASTER_DESIGNER) = false := by
      unfold GameState.rightRefused at hmode
      simp only [Bool.or_eq_false_iff] at hmode
      exact hmode.2
    unfold ViewportInteractionGetItemRight
    rw [h1, h2]
    generalize g.get_map_coordinates_from_pos screenCoords rightMask = info at h ⊢
    obtain ⟨loc, el, en, k⟩ := info
    cases k <;> cases el <;>
      simp [InteractionInfo.isFootpathItem, InteractionInfo.isRemovableParkEntrance] at h
    simp

/-- C27: outside the refused screen modes, a query result that reaches the gate
of `ViewportInteractionGetItemRight` and that the second switch reports (plain
scenery, footpath, wall, large scenery, footpath item, removable park entrance)
is returned; it is collapsed to `NONE` exactly when (`INPUT_FLAG_6` or
`INPUT_FLAG_TOOL_ACTIVE` is clear) and neither a ride-construction window nor a
footpath window is open, and it is returned unchanged, with a tooltip, exactly
when both flags are set or one of the two windows is open. -/
theorem removal_gate_exact_form (g : GameState) (screenCoords : ScreenCoordsXY)
    (hmode : g.rightRefused = false)
    (h : (g.get_map_coordinates_from_pos screenCoords rightMask).isRemovable g = true) :
    ∃ r, ViewportInteractionGetItemRight g screenCoords = some r ∧
      (r.info.SpriteType = .NONE ↔
        ((g.input_test_flag .INPUT_FLAG_6 = false
            ∨ g.input_test_flag .INPUT_FLAG_TOOL_ACTIVE = false)
          ∧ g.window_find_by_class .WC_RIDE_CONSTRUCTION = none
          ∧ g.window_find_by_class .WC_FOOTPATH = none)) ∧
      ((r.info = g.get_map_coordinates_from_pos screenCoords rightMask
          ∧ r.tooltip.isSome = true) ↔
        ((g.input_test_flag .INPUT_FLAG_6 = true
            ∧ g.input_test_flag .INPUT_FLAG_TOOL_ACTIVE = true)
          ∨ (g.window_find_by_class .WC_RIDE_CONSTRUCTION).isSome = true
          ∨ (g.window_find_by_class .WC_FOOTPATH).isSome = true)) := by
  rw [getItemRight_of_removable g screenCoords hmode h]
  obtain ⟨r, hr, hshut, hopen⟩ := removal_of_removable g _ h
  have hkind : (g.get_map_coordinates_from_pos screenCoords rightMask).SpriteType ≠ .NONE := by
    intro hk
    generalize g.get_map_coordinates_from_pos screenCoords rightMask = info at h hk
    obtain ⟨loc, el, en, k⟩ := info
    cases hk
    cases el <;>
      simp [InteractionInfo.isRemovable, InteractionInfo.isPlainRemovable,
        InteractionInfo.isFootpathItem, InteractionInfo.isRemovableParkEntrance] at h
  refine ⟨r, hr, ?_, ?_⟩
  · constructor
    · intro hk
      by_contra hg
      exact hkind ((hopen hg).1 ▸ hk)
    · intro hg
      rw [hshut hg]
      rfl
  · rw [← gate_open_iff]
    constructor
    · intro hk hg
      rw [hshut hg] at hk
      exact hkind (congrArg InteractionInfo.SpriteType hk.1).symm
    · exact hopen

/-- C30: the sequence mask and the taking-photo mask are the lower and the
upper four bits: disjoint, and together all eight bits. The station-index mask
(bits 5-7) and the green-light bit (bit 8) are disjoint and their union is the
taking-photo mask. So for every sequence byte the station index
`(sequence & station mask) >> 4` is at most 7, and the byte has a taking-photo
bit exactly when one of its bits 5-8 (bit numbers 4-7 from zero) is set. -/
theorem track_sequence_byte_layout :
    MAP_ELEM_TRACK_SEQUENCE_SEQUENCE_MASK = 2 ^ 4 - 1 ∧
    MAP_ELEM_TRACK_SEQUENCE_SEQUENCE_MASK &&& MAP_ELEM_TRACK_SEQUENCE_TAKING_PHOTO_MASK = 0 ∧
    MAP_ELEM_TRACK_SEQUENCE_SEQUENCE_MASK ||| MAP_ELEM_TRACK_SEQUENCE_TAKING_PHOTO_MASK
      = 2 ^ 8 - 1 ∧
    MAP_ELEM_TRACK_SEQUENCE_STATION_INDEX_MASK &&& MAP_ELEM_TRACK_SEQUENCE_GREEN_LIGHT = 0 ∧
    MAP_ELEM_TRACK_SEQUENCE_STATION_INDEX_MASK ||| MAP_ELEM_TRACK_SEQUENCE_GREEN_LIGHT
      = MAP_ELEM_TRACK_SEQUENCE_TAKING_PHOTO_MASK ∧
    (∀ sequence : Nat,
      (sequence &&& MAP_ELEM_TRACK_SEQUENCE_STATION_INDEX_MASK) >>> 4 ≤ 7) ∧
    (∀ sequence : Nat,
      (sequence &&& MAP_ELEM_TRACK_SEQUENCE_TAKING_PHOTO_MASK ≠ 0 ↔
        (sequence.testBit 4 = true ∨ sequence.testBit 5 = true
          ∨ sequence.testBit 6 = true ∨ sequence.testBit 7 = true))) := by
  refine ⟨by decide, by decide, by decide, by decide, by decide, ?_, ?_⟩
  · intro sequence
    have h : sequence &&& MAP_ELEM_TRACK_SEQUENCE_STATION_INDEX_MASK ≤ 112 :=
      Nat.and_le_right
    rw [Nat.shiftRight_eq_div_pow]
    omega
  · intro sequence
    have hbit : ∀ i, Nat.testBit MAP_ELEM_TRACK_SEQUENCE_TAKING_PHOTO_MASK i
        = (decide (i = 4) || decide (i = 5) || decide (i = 6) || decide (i = 7)) := by
      intro i
      by_cases hi : i < 8
      · interval_cases i <;> decide
      · have hlt : MAP_ELEM_TRACK_SEQUENCE_TAKING_PHOTO_MASK < 2 ^ i :=
          lt_of_lt_of_le (by decide : MAP_ELEM_TRACK_SEQUENCE_TAKING_PHOTO_MASK < 2 ^ 8)
            (Nat.pow_le_pow_right (by decide) (by omega))
        rw [Nat.testBit_lt_two_pow hlt]
        have h4 : i ≠ 4 := by omega
        have h5 : i ≠ 5 := by omega
        have h6 : i ≠ 6 := by omega
        have h7 : i ≠ 7 := by omega
        simp [h4, h5, h6, h7]
    constructor
    · intro hne
      obtain ⟨i, hi⟩ := Nat.ne_zero_implies_bit_true hne
      rw [Nat.testBit_and, hbit] at hi
      simp only [Bool.and_eq_true, Bool.or_eq_true, decide_eq_true_eq] at hi
      obtain ⟨hs, ((h | h) | h) | h⟩ := hi <;> subst h <;> simp [hs]
    · intro hset hzero
      have hall : ∀ i, (sequence &&& MAP_ELEM_TRACK_SEQUENCE_TAKING_PHOTO_MASK).testBit i
          = false := by
        intro i
        rw [hzero]
        exact Nat.zero_testBit i
      have h4 := hall 4
      have h5 := hall 5
      have h6 := hall 6
      have h7 := hall 7
      rw [Nat.testBit_and, hbit] at h4 h5 h6 h7
      simp at h4 h5 h6 h7
      rcases hset with h | h | h | h <;> simp_all

/-- An element whose kind tag is `Entrance` has the view `AsEntrance()`. -/
theorem asEntrance_of_getType (e : TileElement) (h : e.GetType = .Entrance) :
    e.AsEntrance.isSome = true := by
  obtain ⟨dir, bz, last, ri, pl⟩ := e
  cases pl <;> simp [TileElement.GetType, TileElement.AsEntrance] at h ⊢

/-- Every result of the removal part of `ViewportInteractionGetItemRight`
carries what the dispatch of `ViewportInteractionRightClick` dereferences. -/
theorem removal_dispatchable (g : GameState) (info : InteractionInfo) (r : ItemResult)
    (hr : ViewportInteractionGetItemRight.removal g info = some r) :
    r.info.dispatchable = true := by
  obtain ⟨loc, el, en, k⟩ := info
  unfold ViewportInteractionGetItemRight.removal at hr
  simp only [collapse] at hr
  split at hr
  · cases hr
    rfl
  · cases k <;> simp only [] at hr
    case PARK =>
      split at hr
      · cases hr
        rfl
      · obtain ⟨e, hb, hr⟩ := Option.bind_eq_some.mp hr
        split at hr
        · cases hr
          rfl
        · rename_i hty
          cases hr
          have hent := asEntrance_of_getType e (not_not.mp hty)
          subst hb
          simp [InteractionInfo.dispatchable, hent]
    all_goals
      repeat' first
        | (cases hr; rfl)
        | (cases hr
           subst_vars
           simp [InteractionInfo.dispatchable, *])
        | split at hr
        | (obtain ⟨_, hb, hr⟩ := Option.bind_eq_some.mp hr)

/-- Every result of `ViewportInteractionGetItemRight` carries what the dispatch
of `ViewportInteractionRightClick` dereferences. -/
theorem getItemRight_dispatchable (g : GameState) (screenCoords : ScreenCoordsXY)
    (r : ItemResult) (hr : ViewportInteractionGetItemRight g screenCoords = some r) :
    r.info.dispatchable = true := by
  unfold ViewportInteractionGetItemRight at hr
  simp only [collapse] at hr
  generalize g.get_map_coordinates_from_pos screenCoords rightMask = info at hr
  obtain ⟨loc, el, en, k⟩ := info
  split at hr
  · cases hr
    rfl
  split at hr
  · cases hr
    rfl
  cases k <;> simp only [] at hr
  case RIDE =>
    refine (ride_result g _ r hr).elim (fun h => ?_) (fun h => ?_)
    · simp [InteractionInfo.dispatchable, h]
    · rw [h]
      rfl
  all_goals
    repeat' first
      | exact removal_dispatchable g _ r hr
      | (cases hr; rfl)
      | (cases hr
         subst_vars
         simp [InteractionInfo.dispatchable, *])
      | split at hr
      | (obtain ⟨_, hb, hr⟩ := Option.bind_eq_some.mp hr)

/-- The scan of `ViewportInteractionRemoveFootpath` returns on every stack that
holds an element marked last-for-tile. -/
theorem removeFootpathScan_returns (z : Int) (c : CoordsXY) (stored : List TileElement)
    (reads : Nat) (h : ∃ e ∈ stored, e.IsLastForTile = true) :
    (removeFootpathScan z c stored reads).isSome = true := by
  induction stored generalizing reads with
  | nil =>
    obtain ⟨e, he, _⟩ := h
    cases he
  | cons a rest ih =>
    unfold removeFootpathScan
    split
    · rfl
    · split
      · rfl
      · rename_i hlast
        apply ih
        obtain ⟨e, he, hl⟩ := h
        rcases List.mem_cons.mp he with rfl | he
        · exact absurd hl hlast
        · exact ⟨e, he, hl⟩

/-- On a map whose stacks are terminated `ViewportInteractionRemoveFootpath`
returns. -/
theorem removeFootpath_returns (g : GameState) (hmap : g.stacksTerminated) (e : TileElement)
    (c : CoordsXY) : ∃ out, ViewportInteractionRemoveFootpath g e c = some out := by
  unfold ViewportInteractionRemoveFootpath
  cases hs : g.map_get_first_element_at c with
  | none => exact ⟨_, rfl⟩
  | some stored =>
    have hret := removeFootpathScan_returns e.GetBaseZ c stored 0 (hmap c stored hs)
    cases hscan : removeFootpathScan e.GetBaseZ c stored 0 with
    | none => simp [hscan] at hret
    | some out => simp [hscan]

/-- Whenever `ViewportInteractionGetItemRight` returns, on a map whose stacks
are terminated, `ViewportInteractionRightClick` returns too: it reports
"handled" exactly when the resolved kind is not `NONE`, and passes on the
tooltip. -/
theorem rightClick_of_result (g : GameState) (screenCoords : ScreenCoordsXY)
    (hmap : g.stacksTerminated) (r : ItemResult)
    (hr : ViewportInteractionGetItemRight g screenCoords = some r) :
    ∃ c, ViewportInteractionRightClick g screenCoords = some c ∧
      c.handled = decide (r.info.SpriteType ≠ .NONE) ∧ c.tooltip = r.tooltip := by
  have hd := getItemRight_dispatchable g screenCoords r hr
  have hk := getItemRight_result g screenCoords r hr
  unfold ViewportInteractionRightClick
  rw [hr]
  simp only [Option.bind_eq_bind, Option.some_bind]
  obtain ⟨⟨loc, el, en, k⟩, tt⟩ := r
  cases k <;> simp only [] <;> simp [InteractionInfo.dispatchable] at hd hk ⊢
  case SPRITE =>
    cases en <;> simp at hd
    rename_i entity
    simp only [Option.some_bind]
    split
    · split
      · exact ⟨_, rfl, rfl, rfl⟩
      · split <;> exact ⟨_, rfl, rfl, rfl⟩
    · exact ⟨_, rfl, rfl, rfl⟩
  case SCENERY =>
    cases el <;> simp at hd
    rename_i e
    cases hv : e.AsSmallScenery <;> simp [hv] at hd
    simp [ViewportInteractionRemoveScenery, hv]
  case FOOTPATH =>
    cases el <;> simp at hd
    rename_i e
    obtain ⟨out, hout⟩ := removeFootpath_returns g hmap e loc
    simp [hout]
  case FOOTPATH_ITEM =>
    cases el <;> simp at hd
    simp
  case PARK =>
    cases el <;> simp at hd
    rename_i e
    cases hv : e.AsEntrance <;> simp [hv] at hd
    simp [ViewportInteractionRemoveParkEntrance, hv]
  case WALL =>
    cases el <;> simp at hd
    rename_i e
    cases hv : e.AsWall <;> simp [hv] at hd
    rename_i wall
    cases hE : wall.GetEntry <;> simp [hE] at hd
    simp only [Option.some_bind, ViewportInteractionRemoveParkWall, hv, hE, Option.bind_eq_bind]
    split <;> exact ⟨_, rfl, rfl, rfl⟩
  case LARGE_SCENERY =>
    cases el <;> simp at hd
    rename_i e
    cases hv : e.AsLargeScenery <;> simp [hv] at hd
    rename_i scenery
    cases hE : scenery.GetEntry <;> simp [hE] at hd
    simp only [Option.some_bind, ViewportInteractionRemoveLargeScenery, hv, hE,
      Option.bind_eq_bind]
    split <;> exact ⟨_, rfl, rfl, rfl⟩
  case BANNER =>
    cases el <;> simp at hd
    rename_i e
    cases hv : e.AsBanner <;> simp [hv] at hd
    simp [hv]

/-- C28: on a map whose tile-element stacks are terminated,
`ViewportInteractionRightOver` returns what `ViewportInteractionRightClick`
returns (both undefined together), and whenever
`ViewportInteractionGetItemRight` returns, the click returns too, reports "not
handled" exactly when the resolved kind is `NONE`, and the resolved kind is
never `TERRAIN`, `WATER` or `LABEL`. -/
theorem right_click_agrees_with_hover (g : GameState) (screenCoords : ScreenCoordsXY)
    (hmap : g.stacksTerminated) :
    ViewportInteractionRightOver g screenCoords
      = (ViewportInteractionRightClick g screenCoords).map (fun c => (c.handled, c.tooltip)) ∧
    ∀ r, ViewportInteractionGetItemRight g screenCoords = some r →
      r.info.SpriteType ≠ .TERRAIN ∧ r.info.SpriteType ≠ .WATER ∧ r.info.SpriteType ≠ .LABEL ∧
      ∃ c, ViewportInteractionRightClick g screenCoords = some c ∧
        (c.handled = false ↔ r.info.SpriteType = .NONE) ∧
        ViewportInteractionRightOver g screenCoords = some (c.handled, r.tooltip) := by
  constructor
  · cases hr : ViewportInteractionGetItemRight g screenCoords with
    | none => simp [ViewportInteractionRightOver, ViewportInteractionRightClick, hr]
    | some r =>
      obtain ⟨c, hc, hh, ht⟩ := rightClick_of_result g screenCoords hmap r hr
      simp [ViewportInteractionRightOver, hr, hc, hh, ht]
  · intro r hr
    obtain ⟨c, hc, hh, ht⟩ := rightClick_of_result g screenCoords hmap r hr
    have hk := getItemRight_result g screenCoords r hr
    refine ⟨?_, ?_, ?_, c, hc, ?_, ?_⟩
    · rcases hk with hk | ⟨-, hk⟩
      · simp [hk]
      · intro h
        simp [h] at hk
    · rcases hk with hk | ⟨-, hk⟩
      · simp [hk]
      · intro h
        simp [h] at hk
    · rcases hk with hk | ⟨-, hk⟩
      · simp [hk]
      · intro h
        simp [h] at hk
    · rw [hh]
      simp
    · simp [ViewportInteractionRightOver, hr, hh]

/-- C28, evaluated: in `pathClickState` every stack is terminated; the hover
and the click both resolve the path, and the click removes it. -/
theorem right_click_agrees_with_hover_witness :
    pathClickState.stacksTerminated ∧
    ViewportInteractionRightClick pathClickState ⟨0, 0⟩
      = some ⟨true,
          some [.string_id .STR_MAP_TOOLTIP_STRINGID_CLICK_TO_REMOVE,
            .string_id .STR_FOOTPATH_MAP_TIP],
          [.footpath_provisional_update,
            .footpath_remove ⟨64, 64, 16⟩ GAME_COMMAND_FLAG_APPLY]⟩ ∧
    ViewportInteractionRightOver pathClickState ⟨0, 0⟩
      = (ViewportInteractionRightClick pathClickState ⟨0, 0⟩).map
          (fun c => (c.handled, c.tooltip)) :=
  have hmap : pathClickState.stacksTerminated := fun _ stored h =>
    ⟨lastTrackElement, by cases h; decide, rfl⟩
  ⟨hmap, by decide, (right_click_agrees_with_hover pathClickState ⟨0, 0⟩ hmap).1⟩

/-- C27, evaluated: in `toolInactiveBenchState` only `INPUT_FLAG_TOOL_ACTIVE` is
clear and no window is open; the footpath addition under the cursor is collapsed
to `NONE`. -/
theorem removal_gate_exact_form_witness :
    toolInactiveBenchState.rightRefused = false ∧
    (toolInactiveBenchState.get_map_coordinates_from_pos ⟨0, 0⟩ rightMask).isRemovable
      toolInactiveBenchState = true ∧
    toolInactiveBenchState.input_test_flag .INPUT_FLAG_6 = true ∧
    ViewportInteractionGetItemRight toolInactiveBenchState ⟨0, 0⟩
      = some ⟨⟨⟨96, 32⟩, some benchElement, none, .NONE⟩, none⟩ ∧
    ∃ r, ViewportInteractionGetItemRight toolInactiveBenchState ⟨0, 0⟩ = some r ∧
      (r.info.SpriteType = .NONE ↔
        ((toolInactiveBenchState.input_test_flag .INPUT_FLAG_6 = false
            ∨ toolInactiveBenchState.input_test_flag .INPUT_FLAG_TOOL_ACTIVE = false)
          ∧ toolInactiveBenchState.window_find_by_class .WC_RIDE_CONSTRUCTION = none
          ∧ toolInactiveBenchState.window_find_by_class .WC_FOOTPATH = none)) ∧
      ((r.info = toolInactiveBenchState.get_map_coordinates_from_pos ⟨0, 0⟩ rightMask
          ∧ r.tooltip.isSome = true) ↔
        ((toolInactiveBenchState.input_test_flag .INPUT_FLAG_6 = true
            ∧ toolInactiveBenchState.input_test_flag .INPUT_FLAG_TOOL_ACTIVE = true)
          ∨ (toolInactiveBenchState.window_find_by_class .WC_RIDE_CONSTRUCTION).isSome = true
          ∨ (toolInactiveBenchState.window_find_by_class .WC_FOOTPATH).isSome = true)) :=
  ⟨by decide, by decide, by decide, by decide,
    removal_gate_exact_form toolInactiveBenchState ⟨0, 0⟩ (by decide) (by decide)⟩

end OpenRCT2
